import Mathlib

/-!
# JOS exokernel: `kern/syscall.c` and `kern/flexsc.c`

A shallow embedding of the system-call handlers and the dispatcher of
`kern/syscall.c` and of the FlexSC functions of `kern/flexsc.c`.
The kernel state is passed explicitly: every handler takes the state before
the call and returns the C return value together with the state after it; a
handler that may not return (it ends in `sched_yield()`, destroys the running
environment, or panics) returns `none` in place of the value.
Machine words (`uint32_t`, `uintptr_t`, `envid_t`, `int` bit masks) are
natural numbers holding the 32-bit pattern; return values are integers.

The functions are transcribed statement by statement from the sources.
The collaborators they call and the constants of the `inc/` and `kern/`
headers are not among the sources. Those of `kern/pmap.c` and `kern/env.c`
that the claims depend on (`envid2env`, `page_alloc`, `page_free`,
`page_lookup`, `page_insert`, `page_remove`, `env_alloc`) are modelled and
marked as such; the others (the numbering of the opcodes, the layout and pool
constants, `env_destroy`, the user-memory check, the console, the clock and
the network driver) are parameters, collected in `Collab`.
-/

namespace JOS

/-! ## Constants of the absent headers -/

/-- Modelled from the spec: the page size of `inc/mmu.h` (the header is not
among the sources); an address is page-aligned when `va & 0xFFF` is zero. -/
def PGSIZE : Nat := 4096

/-- Modelled from the spec: the user/kernel split ("boundary") of
`inc/memlayout.h`, which is not among the sources. -/
def UTOP : Nat := 0xeec00000

/-- Modelled from the spec: the "present" permission bit (`inc/mmu.h`). -/
def PTE_P : Nat := 0x001

/-- Modelled from the spec: the "writable" permission bit (`inc/mmu.h`). -/
def PTE_W : Nat := 0x002

/-- Modelled from the spec: the "user-accessible" permission bit (`inc/mmu.h`). -/
def PTE_U : Nat := 0x004

/-- Modelled from the spec: the "available-to-software" permission bits
(`inc/mmu.h`). -/
def PTE_AVAIL : Nat := 0xE00

/-- Modelled from the spec: the recognised permission set
{present, writable, user, available} (`PTE_SYSCALL` of `inc/mmu.h`). -/
def PTE_SYSCALL : Nat := PTE_AVAIL ||| PTE_P ||| PTE_W ||| PTE_U

/-- The 32-bit complement `~x` of a machine word. -/
def not32 (x : Nat) : Nat := 0xFFFFFFFF ^^^ x

/-- Modelled from the spec: error code "bad-environment" (`inc/error.h`). -/
def E_BAD_ENV : Int := 2

/-- Modelled from the spec: error code "invalid-argument" (`inc/error.h`). -/
def E_INVAL : Int := 3

/-- Modelled from the spec: error code "out-of-memory" (`inc/error.h`). -/
def E_NO_MEM : Int := 4

/-- Modelled from the spec: error code "no-free-environment" (`inc/error.h`). -/
def E_NO_FREE_ENV : Int := 5

/-- Modelled from the spec: error code "ipc-not-receiving" (`inc/error.h`). -/
def E_IPC_NOT_RECV : Int := 7

/-- Modelled from the spec: the FlexSC-specific "blocked" signal
(`inc/error.h`). -/
def E_BLOCKED : Int := 16

/-- Modelled from the spec: environment status FREE (`inc/env.h`). -/
def ENV_FREE : Nat := 0

/-- Modelled from the spec: environment status DYING (`inc/env.h`). -/
def ENV_DYING : Nat := 1

/-- Modelled from the spec: environment status RUNNABLE (`inc/env.h`). -/
def ENV_RUNNABLE : Nat := 2

/-- Modelled from the spec: environment status RUNNING (`inc/env.h`). -/
def ENV_RUNNING : Nat := 3

/-- Modelled from the spec: environment status NOT_RUNNABLE (`inc/env.h`). -/
def ENV_NOT_RUNNABLE : Nat := 4

/-- Modelled from the spec: the size of the environment table (`inc/env.h`). -/
def NENV : Nat := 1024

/-- Modelled from the spec: the slot of the environment table an id names
(`ENVX` of `inc/env.h`). -/
def ENVX (envid : Nat) : Nat := envid &&& (NENV - 1)

/-- Modelled from the spec: page number of an address (`PGNUM` of `inc/mmu.h`). -/
def PGNUM (va : Nat) : Nat := va / PGSIZE

/-- Modelled from the spec: page-directory index of an address (`PDX` of
`inc/mmu.h`); one page table covers 1024 pages. -/
def PDX (va : Nat) : Nat := va / (PGSIZE * 1024)

/-! ## Data model -/

/-- Modelled from the spec: the kind tag of an environment, {NORMAL,
FLEX_WORKER}; the source compares `env_type` with `ENV_TYPE_FLEX`. -/
inductive EnvType where
  | ENV_TYPE_USER
  | ENV_TYPE_FLEX
  deriving DecidableEq, Repr

/-- Modelled from the spec: the saved register snapshot (`struct Trapframe`
with its `tf_regs` inlined, `inc/trap.h`). -/
structure Trapframe where
  reg_edi : Nat := 0
  reg_esi : Nat := 0
  reg_ebp : Nat := 0
  reg_oesp : Nat := 0
  reg_ebx : Nat := 0
  reg_edx : Nat := 0
  reg_ecx : Nat := 0
  reg_eax : Nat := 0
  tf_es : Nat := 0
  tf_ds : Nat := 0
  tf_trapno : Nat := 0
  tf_err : Nat := 0
  tf_eip : Nat := 0
  tf_cs : Nat := 0
  tf_eflags : Nat := 0
  tf_esp : Nat := 0
  tf_ss : Nat := 0
  deriving DecidableEq, Repr

/-- A present page-table entry: the physical page mapped and its permission
bits (the low twelve bits of the hardware entry). -/
structure Pte where
  pp : Nat
  perm : Nat
  deriving DecidableEq, Repr

/-- Modelled from the spec: an address-space root. `pde` gives, per
page-directory index, the physical page that holds the page table (if one is
present); `pte` gives, per page number, the entry of that page. -/
structure Pgdir where
  pde : Nat → Option Nat := fun _ => none
  pte : Nat → Option Pte := fun _ => none

/-- Modelled from the spec: an Environment (`struct Env` of `inc/env.h`),
with the fields `kern/syscall.c` and `kern/flexsc.c` read or write. `link`
and `scpage` are the FlexSC additions; a pointer to an environment is the
index of its slot in `envs`. -/
structure Env where
  env_tf : Trapframe := {}
  env_id : Nat := 0
  env_parent_id : Nat := 0
  env_type : EnvType := EnvType.ENV_TYPE_USER
  env_status : Nat := 0
  env_priority : Int := 0
  env_pgdir : Pgdir := {}
  env_pgfault_upcall : Nat := 0
  env_ipc_recving : Nat := 0
  env_ipc_dstva : Nat := 0
  env_ipc_value : Nat := 0
  env_ipc_from : Nat := 0
  env_ipc_perm : Nat := 0
  link : Option Nat := none
  scpage : Option Nat := none

/-- Modelled from the spec: the status FREE of a Syscall Entry (`FSC_FREE` of
`kern/flexsc.h`, which is not among the sources); the four statuses are
numbered in the order of the entry's lifecycle. -/
def FSC_FREE : Nat := 0

/-- Modelled from the spec: the status SUBMITTED of a Syscall Entry. -/
def FSC_SUBMITTED : Nat := 1

/-- Modelled from the spec: the status BUSY of a Syscall Entry. -/
def FSC_BUSY : Nat := 2

/-- Modelled from the spec: the status DONE of a Syscall Entry. -/
def FSC_DONE : Nat := 3

/-- Modelled from the spec: a Syscall Entry (`struct FscEntry` of
`kern/flexsc.h`): syscall number, the arguments `args[0..4]`, a return slot
and a status. -/
structure FscEntry where
  sc_num : Nat := 0
  args : List Nat := [0, 0, 0, 0, 0]
  ret : Int := 0
  status : Nat := 0
  deriving DecidableEq, Repr

/-- The kernel state the handlers act on: the environment table `envs`, the
slot of the running environment `curenv`, the physical page allocator
(reference count per page and the free list), and the FlexSC pool: the
counter `sc_pgnum` of `scpage_alloc` and the syscall pages `scpages`, where
`scpages k i` is what is stored `i` entries after the start of page `k`. -/
structure State where
  envs : Nat → Env := fun _ => {}
  curenv : Nat := 0
  pp_ref : Nat → Nat := fun _ => 0
  page_free_list : List Nat := []
  sc_pgnum : Nat := 0
  scpages : Nat → Nat → FscEntry := fun _ _ => {}

/-- Replace the environment in slot `i` (a write through a `struct Env *`). -/
def State.setEnv (s : State) (i : Nat) (e : Env) : State :=
  { s with envs := fun j => if j = i then e else s.envs j }

/-- Replace the address space of the environment in slot `i`. -/
def State.setPgdir (s : State) (i : Nat) (pd : Pgdir) : State :=
  s.setEnv i { s.envs i with env_pgdir := pd }

/-- Replace the reference count of physical page `p`. -/
def State.setRef (s : State) (p : Nat) (n : Nat) : State :=
  { s with pp_ref := fun q => if q = p then n else s.pp_ref q }

/-! ## Collaborators (not among the sources) -/

/-- Modelled from the spec: `envid2env` of `kern/env.c` is not among the
sources. The id must name a live environment (its slot is not FREE and holds
that id); if the operation is privileged (`checkperm`), the caller must be
that environment, its parent (the comment in `sys_env_set_priority`), or its
linked partner; otherwise the result is "bad environment". Resolution reads
the state and changes nothing. -/
def envid2env (s : State) (envid : Nat) (checkperm : Bool) : Except Int Nat :=
  let i := ENVX envid
  let e := s.envs i
  if e.env_status = ENV_FREE ∨ e.env_id ≠ envid then
    Except.error (-E_BAD_ENV)
  else if checkperm ∧ i ≠ s.curenv ∧ e.env_parent_id ≠ (s.envs s.curenv).env_id
      ∧ (s.envs s.curenv).link ≠ some i then
    Except.error (-E_BAD_ENV)
  else
    Except.ok i

/-- Modelled from the spec: `page_alloc` of `kern/pmap.c` is not among the
sources. Takes a page off the free list; `none` (NULL) when no page is free. -/
def page_alloc (s : State) : Option (Nat × State) :=
  match s.page_free_list with
  | [] => none
  | p :: rest => some (p, { s with page_free_list := rest })

/-- Modelled from the spec: `page_free` of `kern/pmap.c` is not among the
sources. Hands a page back to the free list. -/
def page_free (s : State) (p : Nat) : State :=
  { s with page_free_list := p :: s.page_free_list }

/-- Modelled from the spec: `page_decref` of `kern/pmap.c` is not among the
sources. Drops one reference; a page is freed when its last mapping is
removed. -/
def page_decref (s : State) (p : Nat) : State :=
  let n := s.pp_ref p - 1
  if n = 0 then page_free (s.setRef p n) p else s.setRef p n

/-- Modelled from the spec: `page_lookup` of `kern/pmap.c` is not among the
sources. The entry mapped at `va` in the address space of the environment in
slot `e`, or `none` (NULL) when the address has no mapping. -/
def page_lookup (s : State) (e : Nat) (va : Nat) : Option Pte :=
  match (s.envs e).env_pgdir.pde (PDX va) with
  | none => none
  | some _ => (s.envs e).env_pgdir.pte (PGNUM va)

/-- Modelled from the spec: `page_remove` of `kern/pmap.c` is not among the
sources. Removes any mapping at `va`; unmapping an unmapped address is a
silent no-op. -/
def page_remove (s : State) (e : Nat) (va : Nat) : State :=
  match page_lookup s e va with
  | none => s
  | some ent =>
    let s1 := page_decref s ent.pp
    let pd := (s1.envs e).env_pgdir
    s1.setPgdir e { pd with pte := fun n => if n = PGNUM va then none else pd.pte n }

/-- Modelled from the spec: the page-table walk of `kern/pmap.c`
(`pgdir_walk` with `create` set) is not among the sources. Makes sure a page
table covers `va` in the address space of the environment in slot `e`: a
missing table is allocated (zero-filled, so it maps nothing) and counted as
referenced; `none` when no page can be allocated for it. -/
def pgdir_walk (s : State) (e : Nat) (va : Nat) : Option State :=
  match (s.envs e).env_pgdir.pde (PDX va) with
  | some _ => some s
  | none =>
    match page_alloc s with
    | none => none
    | some (pt, s1) =>
      let s2 := s1.setRef pt (s1.pp_ref pt + 1)
      let pd := (s2.envs e).env_pgdir
      some (s2.setPgdir e
        { pde := fun d => if d = PDX va then some pt else pd.pde d
          pte := fun n => if n / 1024 = PDX va then none else pd.pte n })

/-- Modelled from the spec: `page_insert` of `kern/pmap.c` is not among the
sources. Maps physical page `pp` at `va` with the requested permissions in the
address space of the environment in slot `e`. A missing page table is
allocated first, and `-E_NO_MEM` is returned without any effect when none can
be allocated. A page already mapped at `va` is unmapped as a side effect, and
the mapping count of `pp` is increased. -/
def page_insert (s : State) (e : Nat) (pp : Nat) (va : Nat) (perm : Nat) : Int × State :=
  match pgdir_walk s e va with
  | none => (-E_NO_MEM, s)
  | some s1 =>
    let s2 := s1.setRef pp (s1.pp_ref pp + 1)
    let s3 := page_remove s2 e va
    let pd := (s3.envs e).env_pgdir
    (0, s3.setPgdir e
      { pd with pte := fun n => if n = PGNUM va then some ⟨pp, perm⟩ else pd.pte n })

/-! ## Handlers of `kern/syscall.c` -/

/-- The permission test `!(perm & (PTE_U | PTE_P)) || perm & ~PTE_SYSCALL`
shared by `sys_page_alloc`, `sys_page_map` and `sys_ipc_try_send`: true when
the mask is rejected. -/
def perm_rejected (perm : Nat) : Bool :=
  perm &&& (PTE_U ||| PTE_P) = 0 || perm &&& not32 PTE_SYSCALL ≠ 0

/-- The address test `va >= UTOP || va & 0xFFF`: true when the address is
rejected. -/
def va_rejected (va : Nat) : Bool :=
  va ≥ UTOP || va &&& 0xFFF ≠ 0

/-- The handler `sys_env_destroy`. `env_destroy` of `kern/env.c` is not among
the sources and is taken as a parameter: it yields the state after the
destruction and whether it returns to its caller (destroying the running
environment ends in the scheduler). The result is `none` when the handler
does not return. -/
def sys_env_destroy (env_destroy : State → Nat → State × Bool)
    (s : State) (envid : Nat) : Option Int × State :=
  match envid2env s envid true with
  | Except.error r => (some r, s)
  | Except.ok e =>
    let afterLink : State × Bool :=
      match (s.envs e).link with
      | some l => env_destroy s l
      | none => (s, true)
    if afterLink.2 then
      let afterEnv := env_destroy afterLink.1 e
      if afterEnv.2 then (some 0, afterEnv.1) else (none, afterEnv.1)
    else (none, afterLink.1)

/-- The handler `sys_env_set_status`. -/
def sys_env_set_status (s : State) (envid : Nat) (status : Nat) : Int × State :=
  if status ≠ ENV_RUNNABLE ∧ status ≠ ENV_NOT_RUNNABLE then (-E_INVAL, s)
  else
    match envid2env s envid true with
    | Except.error r => (r, s)
    | Except.ok e => (0, s.setEnv e { s.envs e with env_status := status })

/-- The handler `sys_env_set_pgfault_upcall`. -/
def sys_env_set_pgfault_upcall (s : State) (envid : Nat) (func : Nat) : Int × State :=
  match envid2env s envid true with
  | Except.error r => (r, s)
  | Except.ok e => (0, s.setEnv e { s.envs e with env_pgfault_upcall := func })

/-- The handler `sys_page_alloc`. -/
def sys_page_alloc (s : State) (envid : Nat) (va : Nat) (perm : Nat) : Int × State :=
  if va_rejected va then (-E_INVAL, s)
  else if perm_rejected perm then (-E_INVAL, s)
  else
    match envid2env s envid true with
    | Except.error r => (r, s)
    | Except.ok e =>
      match page_alloc s with
      | none => (-E_NO_MEM, s)
      | some (page, s1) =>
        let r := page_insert s1 e page va perm
        if r.1 < 0 then (r.1, page_free r.2 page)
        else (0, r.2)

/-- The handler `sys_page_map`. -/
def sys_page_map (s : State) (srcenvid : Nat) (srcva : Nat)
    (dstenvid : Nat) (dstva : Nat) (perm : Nat) : Int × State :=
  match envid2env s srcenvid true with
  | Except.error r => (r, s)
  | Except.ok srce =>
    match envid2env s dstenvid true with
    | Except.error r => (r, s)
    | Except.ok dste =>
      if va_rejected srcva || va_rejected dstva then (-E_INVAL, s)
      else
        match page_lookup s srce srcva with
        | none => (-E_INVAL, s)
        | some ptEntry =>
          if perm_rejected perm then (-E_INVAL, s)
          else if perm &&& PTE_W ≠ 0 ∧ ptEntry.perm &&& PTE_W = 0 then (-E_INVAL, s)
          else
            let r := page_insert s dste ptEntry.pp dstva perm
            if r.1 < 0 then (r.1, r.2)
            else (0, r.2)

/-- The handler `sys_page_unmap`. -/
def sys_page_unmap (s : State) (envid : Nat) (va : Nat) : Int × State :=
  if va_rejected va then (-E_INVAL, s)
  else
    match envid2env s envid true with
    | Except.error r => (r, s)
    | Except.ok e => (0, page_remove s e va)

/-- The handler `sys_ipc_try_send`, one state per assignment. -/
def sys_ipc_try_send (s : State) (envid : Nat) (value : Nat) (srcva : Nat)
    (perm : Nat) : Int × State :=
  match envid2env s envid false with
  | Except.error r => (r, s)
  | Except.ok e =>
    if (s.envs e).env_ipc_recving = 0 then (-E_IPC_NOT_RECV, s)
    else
      let s1 := s.setEnv e { s.envs e with env_ipc_recving := 0 }
      let s2 := s1.setEnv e { s1.envs e with env_ipc_from := (s1.envs s1.curenv).env_id }
      let s3 := s2.setEnv e { s2.envs e with env_ipc_value := value }
      let s4 := s3.setEnv e { s3.envs e with env_ipc_perm := 0 }
      if srcva < UTOP ∧ (s4.envs e).env_ipc_dstva < UTOP then
        if srcva &&& 0xFFF ≠ 0 then (-E_INVAL, s4)
        else if perm_rejected perm then (-E_INVAL, s4)
        else
          match page_lookup s4 s4.curenv srcva with
          | none => (-E_INVAL, s4)
          | some ptEntry =>
            if perm &&& PTE_W ≠ 0 ∧ ptEntry.perm &&& PTE_W = 0 then (-E_INVAL, s4)
            else
              let r := page_insert s4 e ptEntry.pp (s4.envs e).env_ipc_dstva perm
              if r.1 < 0 then (r.1, r.2)
              else
                let s5 := r.2.setEnv e { r.2.envs e with env_ipc_perm := perm }
                (0, s5.setEnv e { s5.envs e with env_status := ENV_RUNNABLE })
      else
        (0, s4.setEnv e { s4.envs e with env_status := ENV_RUNNABLE })

/-- The handler `sys_ipc_recv`. The result is `none` where the handler gives
up the CPU with `sched_yield()`, which does not return; the state is then the
one the scheduler is entered with. The link of a FlexSC worker is
dereferenced unchecked: with a `NULL` link the kernel faults and the handler
does not return either. -/
def sys_ipc_recv (s : State) (dstva : Nat) : Option Int × State :=
  if (s.envs s.curenv).env_type = EnvType.ENV_TYPE_FLEX then
    match (s.envs s.curenv).link with
    | none => (none, s)
    | some l =>
      let s1 := s.setEnv l { s.envs l with env_ipc_recving := 1 }
      let s2 := s1.setEnv l { s1.envs l with env_status := ENV_NOT_RUNNABLE }
      (some (-E_BLOCKED), s2)
  else
    let s1 := s.setEnv s.curenv { s.envs s.curenv with env_ipc_recving := 1 }
    let aligned : Option State :=
      if dstva < UTOP then
        if dstva &&& 0xFFF ≠ 0 then none
        else some (s1.setEnv s1.curenv { s1.envs s1.curenv with env_ipc_dstva := dstva })
      else some s1
    match aligned with
    | none => (some (-E_INVAL), s1)
    | some s2 =>
      let s3 := s2.setEnv s2.curenv
        { s2.envs s2.curenv with
          env_tf := { (s2.envs s2.curenv).env_tf with reg_eax := 0 } }
      let s4 := s3.setEnv s3.curenv { s3.envs s3.curenv with env_status := ENV_NOT_RUNNABLE }
      (none, s4)

/-- The handler `sys_env_set_priority`. The bounds `ENV_PR_HIGHEST` and
`ENV_PR_LOWEST` of the absent `inc/env.h` are parameters. -/
def sys_env_set_priority (ENV_PR_HIGHEST ENV_PR_LOWEST : Int)
    (s : State) (envid : Nat) (priority : Int) : Int × State :=
  if priority < ENV_PR_HIGHEST ∨ priority > ENV_PR_LOWEST then (-E_INVAL, s)
  else
    match envid2env s envid true with
    | Except.error r => (r, s)
    | Except.ok e => (0, s.setEnv e { s.envs e with env_priority := priority })

/-! ## Concrete states used to evaluate the handlers -/

/-- The scheduler resumes the environment in slot `i`: the next handler runs
with that environment as `curenv`. -/
def State.resume (s : State) (i : Nat) : State :=
  { s with curenv := i }

/-- Address space of the sender in `ipcState`: a page table in physical page
10 covering the low 4 MB, physical page 20 mapped writable at `0x1000` and
physical page 21 mapped read-only at `0x3000`. -/
def senderPgdir : Pgdir :=
  { pde := fun d => if d = 0 then some 10 else none
    pte := fun n =>
      if n = 1 then some ⟨20, PTE_U ||| PTE_P ||| PTE_W⟩
      else if n = 3 then some ⟨21, PTE_U ||| PTE_P⟩
      else none }

/-- A sender in slot 0 with id `0x1000`, running. -/
def senderEnv : Env :=
  { env_id := 0x1000, env_status := ENV_RUNNING, env_pgdir := senderPgdir }

/-- A receiver in slot 1 with id `0x1001`, blocked in `sys_ipc_recv` and
willing to accept a page at `0x2000`; its address space has a page table
(physical page 11) for the low 4 MB and no page mapped. It is a child of the
sender. -/
def receiverEnv : Env :=
  { env_id := 0x1001, env_parent_id := 0x1000, env_status := ENV_NOT_RUNNABLE,
    env_ipc_recving := 1, env_ipc_dstva := 0x2000,
    env_pgdir := { pde := fun d => if d = 0 then some 11 else none } }

/-- Two live environments: the sender (slot 0) is running, the receiver
(slot 1) is blocked in a receive; physical pages 30 and 31 are free. -/
def ipcState : State :=
  { envs := fun i => if i = 0 then senderEnv else if i = 1 then receiverEnv else {}
    curenv := 0
    pp_ref := fun p => if p = 10 ∨ p = 11 ∨ p = 20 ∨ p = 21 then 1 else 0
    page_free_list := [30, 31] }

/-- A receiver in slot 1 that is running and has never asked for a page: its
requested destination address is at the boundary `UTOP`. -/
def idleReceiverEnv : Env :=
  { env_id := 0x1001, env_parent_id := 0x1000, env_status := ENV_RUNNING,
    env_ipc_dstva := UTOP,
    env_pgdir := { pde := fun d => if d = 0 then some 11 else none } }

/-- The receiver (slot 1) is running, the sender (slot 0) is runnable. -/
def recvState : State :=
  { envs := fun i =>
      if i = 0 then { senderEnv with env_status := ENV_RUNNABLE }
      else if i = 1 then idleReceiverEnv else {}
    curenv := 1
    pp_ref := fun p => if p = 10 ∨ p = 11 ∨ p = 20 ∨ p = 21 then 1 else 0
    page_free_list := [30, 31] }

/-- The state of `recvState` after a first, page-accepting rendezvous: the
receiver asked for a page at `0x2000` and the sender delivered one. -/
def afterFirstIpc : State :=
  (sys_ipc_try_send ((sys_ipc_recv recvState 0x2000).2.resume 0)
    0x1001 7 0x1000 (PTE_U ||| PTE_P)).2

/-- The receiver then unmaps the page it was given and calls
`sys_ipc_recv(UTOP)`, asking for no page; the scheduler resumes the sender. -/
def beforeSecondIpc : State :=
  (sys_ipc_recv (sys_page_unmap (afterFirstIpc.resume 1) 0x1001 0x2000).2 UTOP).2.resume 0

/-- A state with a single free physical page, so that a page can be
allocated but no page table after it. -/
def onePageState : State :=
  { ipcState with page_free_list := [30] }

/-! ## The dispatcher and the remaining handlers -/

/-- Modelled from the spec: the user code-segment selector `GD_UT` of
`inc/memlayout.h`, which is not among the sources. -/
def GD_UT : Nat := 0x18

/-- Modelled from the spec: the user data-segment selector `GD_UD` of
`inc/memlayout.h`, which is not among the sources. -/
def GD_UD : Nat := 0x20

/-- Modelled from the spec: the interrupt-enable flag `FL_IF` of `inc/mmu.h`,
which is not among the sources. -/
def FL_IF : Nat := 0x200

/-- The value of a 32-bit word read as `int32_t`. -/
def toInt32 (x : Nat) : Int :=
  if x % 2 ^ 32 < 2 ^ 31 then ((x % 2 ^ 32 : Nat) : Int) else ((x % 2 ^ 32 : Nat) : Int) - 2 ^ 32

/-- The twenty opcodes the dispatcher recognises (the `case` labels of
`syscall`). -/
inductive Sysno where
  | SYS_cputs
  | SYS_cgetc
  | SYS_getenvid
  | SYS_env_destroy
  | SYS_yield
  | SYS_exofork
  | SYS_env_set_status
  | SYS_env_set_pgfault_upcall
  | SYS_page_alloc
  | SYS_page_map
  | SYS_page_unmap
  | SYS_ipc_try_send
  | SYS_ipc_recv
  | SYS_env_set_priority
  | SYS_env_set_trapframe
  | SYS_time_msec
  | SYS_net_send_pckt
  | SYS_net_recv_pckt
  | FLEXSC_register
  | FLEXSC_wait
  deriving DecidableEq, Repr

/-- What `kern/syscall.c` and `kern/flexsc.c` use and the sources do not
contain, taken as parameters: the numbering of the opcodes (`inc/syscall.h`),
constants of `inc/env.h`, `inc/memlayout.h`, `kern/flexsc.h` and
`kern/e1000.h`, and the collaborators of the console, the clock, the network
driver, `kern/env.c` and `kern/pmap.c`. A collaborator yields the state after
the call next to its result; `env_destroy` also tells whether it returns to
its caller. -/
structure Collab where
  /-- the opcode a syscall number stands for, if any -/
  sysno : Nat → Option Sysno
  ENV_PR_HIGHEST : Int
  ENV_PR_LOWEST : Int
  USTACKTOP : Nat
  UXSTACKTOP : Nat
  NSCPAGES : Nat
  NSCENTRIES : Nat
  PBUFSIZE : Nat
  RBUFSIZE : Nat
  /-- the address of `scthread_task`, stored in the worker's `tf_eip` -/
  scthread_task_addr : Nat
  env_destroy : State → Nat → State × Bool
  /-- whether `user_mem_check(env, va, len, perm)` succeeds -/
  user_mem_check : State → Nat → Nat → Nat → Nat → Bool
  /-- the `struct Trapframe` stored in user memory at an address -/
  trapframe_at : State → Nat → Trapframe
  cons_getc : State → Int × State
  time_msec : State → Int
  trans_pckt : State → Nat → Nat → Int × State
  recv_pckt : State → Nat → Int × State
  /-- the argument is the pointer passed: `none` is `NULL` -/
  scthread_run : State → Option Nat → State
  /-- the physical page that `kern_pgdir` maps at syscall page `k` -/
  kern_pgdir_lookup : Nat → Option Nat

/-- Modelled from the spec: `env_destroy` of `kern/env.c` is not among the
sources. The environment is removed: its slot becomes FREE, so that its id
resolves as bad-environment afterwards. Destroying the running environment
does not return to the caller (the scheduler picks another environment). The
release of the environment's pages is not modelled. -/
def env_destroy (s : State) (e : Nat) : State × Bool :=
  (s.setEnv e { s.envs e with env_status := ENV_FREE }, decide (e ≠ s.curenv))

/-- The first FREE slot among the `n` slots from `i` on, if there is one. -/
def env_free_slot (s : State) : Nat → Nat → Option Nat
  | 0, _ => none
  | n + 1, i => if (s.envs i).env_status = ENV_FREE then some i else env_free_slot s n (i + 1)

/-- Modelled from the spec: `env_alloc` of `kern/env.c` is not among the
sources. Takes the first FREE slot (`-E_NO_FREE_ENV` when there is none),
allocates the page of its page directory (`-E_NO_MEM` when there is none),
and initialises the environment: a fresh generation-tagged id whose `ENVX` is
the slot, the given parent, kind NORMAL, status RUNNABLE, an empty user
address space, a cleared trap frame with user segments, the stack pointer at
`USTACKTOP` and interrupts enabled, no page-fault upcall and
`env_ipc_recving = 0`. A failure changes nothing. -/
def env_alloc (K : Collab) (s : State) (parent_id : Nat) : Except Int (Nat × State) :=
  match env_free_slot s NENV 0 with
  | none => Except.error (-E_NO_FREE_ENV)
  | some i =>
    match page_alloc s with
    | none => Except.error (-E_NO_MEM)
    | some (p, s1) =>
      let s2 := s1.setRef p (s1.pp_ref p + 1)
      let g := ((s2.envs i).env_id + 0x1000) % 2 ^ 32 &&& not32 (NENV - 1)
      let generation := if toInt32 g ≤ 0 then 0x1000 else g
      Except.ok (i, s2.setEnv i
        { s2.envs i with
          env_id := generation ||| i
          env_parent_id := parent_id
          env_type := EnvType.ENV_TYPE_USER
          env_status := ENV_RUNNABLE
          env_pgdir := {}
          env_tf :=
            { tf_ds := GD_UD ||| 3, tf_es := GD_UD ||| 3, tf_ss := GD_UD ||| 3,
              tf_esp := K.USTACKTOP, tf_cs := GD_UT ||| 3, tf_eflags := FL_IF }
          env_pgfault_upcall := 0
          env_ipc_recving := 0 })

/-- Modelled from the spec: `user_mem_assert` of `kern/pmap.c` is not among
the sources. When the user-memory check fails the environment is destroyed,
which may not return; the result is the state and whether execution goes on. -/
def user_mem_assert (K : Collab) (s : State) (env : Nat) (va len perm : Nat) : State × Bool :=
  if K.user_mem_check s env va len (perm ||| PTE_U) then (s, true)
  else K.env_destroy s env

/-- The handler `sys_cputs`. Console output is outside the modelled state. -/
def sys_cputs (K : Collab) (s : State) (str len : Nat) : Option Unit × State :=
  let a := user_mem_assert K s s.curenv str len PTE_U
  if a.2 then (some (), a.1) else (none, a.1)

/-- The handler `sys_cgetc`. -/
def sys_cgetc (K : Collab) (s : State) : Int × State :=
  K.cons_getc s

/-- The handler `sys_getenvid`. A FlexSC worker with a `NULL` link faults in
the kernel: the handler does not return (`none`). -/
def sys_getenvid (s : State) : Option Int × State :=
  if (s.envs s.curenv).env_type = EnvType.ENV_TYPE_FLEX then
    match (s.envs s.curenv).link with
    | none => (none, s)
    | some l => (some (toInt32 (s.envs l).env_id), s)
  else (some (toInt32 (s.envs s.curenv).env_id), s)

/-- The handler `sys_yield`: `sched_yield()` does not return. -/
def sys_yield (s : State) : Option Unit × State :=
  (none, s)

/-- The handler `sys_exofork`. -/
def sys_exofork (K : Collab) (s : State) : Int × State :=
  match env_alloc K s (s.envs s.curenv).env_id with
  | Except.error error => (error, s)
  | Except.ok (e, s1) =>
    let s2 := s1.setEnv e { s1.envs e with env_status := ENV_NOT_RUNNABLE }
    let s3 := s2.setEnv e { s2.envs e with env_tf := (s2.envs s2.curenv).env_tf }
    let s4 := s3.setEnv e { s3.envs e with env_tf := { (s3.envs e).env_tf with reg_eax := 0 } }
    (toInt32 (s4.envs e).env_id, s4)

/-- The handler `sys_env_set_trapframe`; `tf` is the user address of the
frame (68 bytes). The result is `none` when the user-memory check destroys
the caller and does not return. -/
def sys_env_set_trapframe (K : Collab) (s : State) (envid : Nat) (tf : Nat) :
    Option Int × State :=
  let a := user_mem_assert K s s.curenv tf 68 PTE_U
  if a.2 then
    let s0 := a.1
    match envid2env s0 envid true with
    | Except.error error => (some error, s0)
    | Except.ok e =>
      let s1 := s0.setEnv e { s0.envs e with env_tf := K.trapframe_at s0 tf }
      let s2 := s1.setEnv e { s1.envs e with env_tf := { (s1.envs e).env_tf with tf_cs := GD_UT ||| 3 } }
      let s3 := s2.setEnv e
        { s2.envs e with
          env_tf := { (s2.envs e).env_tf with tf_eflags := (s2.envs e).env_tf.tf_eflags ||| FL_IF } }
      (some 0, s3)
  else (none, a.1)

/-- The handler `sys_time_msec`. -/
def sys_time_msec (K : Collab) (s : State) : Int × State :=
  (K.time_msec s, s)

/-- The handler `sys_net_send_pckt`. -/
def sys_net_send_pckt (K : Collab) (s : State) (src len : Nat) : Int × State :=
  if src ≠ 0 ∧ (src ≥ UTOP ∨ len > K.PBUFSIZE) then (-E_INVAL, s)
  else K.trans_pckt s src len

/-- The handler `sys_net_recv_pckt`. -/
def sys_net_recv_pckt (K : Collab) (s : State) (dstva : Nat) : Option Int × State :=
  let a : State × Bool :=
    if dstva ≠ 0 then user_mem_assert K s s.curenv dstva K.RBUFSIZE (PTE_U ||| PTE_W ||| PTE_P)
    else (s, true)
  if a.2 then
    let r := K.recv_pckt a.1 dstva
    (some r.1, r.2)
  else (none, a.1)

/-! ## FlexSC: `kern/flexsc.c` and its two handlers -/

/-- Replace what is stored `i` entries after the start of syscall page `k`
(a write through a `struct FscEntry *`). -/
def State.setEntry (s : State) (k i : Nat) (x : FscEntry) : State :=
  { s with scpages := fun k' i' => if k' = k ∧ i' = i then x else s.scpages k' i' }

/-- One pass of the loop of `scpage_alloc` on page `k`: entry `i` is zeroed
by `memset(entry + i, ...)`, then `entry->status = FSC_FREE` writes the
status of the first entry. -/
def scpage_clear (k : Nat) (s : State) (i : Nat) : State :=
  let s1 := s.setEntry k i { sc_num := 0, args := [0, 0, 0, 0, 0], ret := 0, status := 0 }
  s1.setEntry k 0 { s1.scpages k 0 with status := FSC_FREE }

/-- The function `scpage_alloc` of `kern/flexsc.c`: `none` is `NULL`, and a
syscall page is named by its index in the pool `scpages`. -/
def scpage_alloc (K : Collab) (s : State) : Option Nat × State :=
  if s.sc_pgnum ≥ K.NSCPAGES then (none, s)
  else
    let s1 := (List.range K.NSCENTRIES).foldl (scpage_clear s.sc_pgnum) s
    (some s1.sc_pgnum, { s1 with sc_pgnum := s1.sc_pgnum + 1 })

/-- The loop of `scthread_spawn` that maps the parent's pages into the
thread: `n` passes starting at page number `pn`; `perm` is the local variable
the permission bits of the last page are left in. An early return carries the
return value and the state reached. -/
def scthread_copy (parent e : Nat) : Nat → Nat → State → Nat → Except (Int × State) (State × Nat)
  | 0, _, s, perm => Except.ok (s, perm)
  | n + 1, pn, s, _ =>
    match page_lookup s parent (pn * PGSIZE) with
    | none => Except.error (-E_INVAL, s)
    | some ptEntry =>
      let perm := ptEntry.perm &&& 0xFFF
      let r := page_insert s e ptEntry.pp (pn * PGSIZE) perm
      if r.1 < 0 then Except.error (r.1, r.2)
      else scthread_copy parent e n (pn + 1) r.2 perm

/-- The assignments that end `scthread_spawn` (lines 81 to 90 of
`kern/flexsc.c`) on the thread `e`: its kind, the page-fault upcall of the
parent, the entry point and the status. -/
def scthread_setup (K : Collab) (s4 : State) (parent e : Nat) : State :=
  let s5 := s4.setEnv e { s4.envs e with env_type := EnvType.ENV_TYPE_FLEX }
  let s6 := s5.setEnv e
    { s5.envs e with env_pgfault_upcall := (s5.envs parent).env_pgfault_upcall }
  let s7 := s6.setEnv e
    { s6.envs e with env_tf := { (s6.envs e).env_tf with tf_eip := K.scthread_task_addr } }
  s7.setEnv e { s7.envs e with env_status := ENV_RUNNABLE }

/-- The function `scthread_spawn` of `kern/flexsc.c`, called with the parent
as `flexsc_register` does. The local `perm` is uninitialised before the loop
(taken as 0), and the store of the page argument on the thread's stack is a
write to user memory, which is outside the modelled state. -/
def scthread_spawn (K : Collab) (s : State) (parent : Nat) : Int × State :=
  match env_alloc K s (s.envs parent).env_id with
  | Except.error r => (r, s)
  | Except.ok (e, s1) =>
    match scthread_copy parent e (PGNUM (K.USTACKTOP - PGSIZE)) 0 s1 0 with
    | Except.error r => r
    | Except.ok (s2, perm) =>
      match page_alloc s2 with
      | none => (-E_NO_MEM, s2)
      | some (page, s3) =>
        let r := page_insert s3 e page (K.UXSTACKTOP - PGSIZE) perm
        if r.1 < 0 then (r.1, r.2)
        else
          let s8 := scthread_setup K r.2 parent e
          (toInt32 (s8.envs e).env_id, s8)

/-- The assignments that end `flexsc_register` (lines 566 to 571 of
`kern/syscall.c`): the syscall page of the thread and of the caller, and the
link in both directions. -/
def flexsc_link (s2 : State) (scthread scpage : Nat) : State :=
  let s3 := s2.setEnv scthread { s2.envs scthread with scpage := some scpage }
  let s4 := s3.setEnv s3.curenv { s3.envs s3.curenv with scpage := some scpage }
  let s5 := s4.setEnv s4.curenv { s4.envs s4.curenv with link := some scthread }
  s5.setEnv scthread { s5.envs scthread with link := some s5.curenv }

/-- The handler `flexsc_register`. The result is `none` where the handler
does not return: the user-memory check destroyed the caller, or the kernel
panicked (no syscall page, or the thread could not be spawned). -/
def flexsc_register (K : Collab) (s : State) (va : Nat) : Option Int × State :=
  let a := user_mem_assert K s s.curenv va PGSIZE (PTE_W ||| PTE_U ||| PTE_P)
  if a.2 then
    let sp := scpage_alloc K a.1
    match sp.1 with
    | none => (none, sp.2)
    | some scpage =>
      let s1 := sp.2
      match K.kern_pgdir_lookup scpage with
      | none => (some (-E_INVAL), s1)
      | some page =>
        let r := page_insert s1 s1.curenv page va (PTE_W ||| PTE_U ||| PTE_P)
        if r.1 < 0 then (some r.1, page_free r.2 page)
        else
          let t := scthread_spawn K r.2 r.2.curenv
          if t.1 < 0 then (none, t.2)
          else (some 0, flexsc_link t.2 (ENVX t.1.toNat) scpage)
  else (none, a.1)

/-- The handler `flexsc_wait`: wakes the linked thread, marks the caller
NOT_RUNNABLE and gives up the CPU; `sched_yield()` does not return. -/
def flexsc_wait (K : Collab) (s : State) : Option Int × State :=
  let s1 := K.scthread_run s (s.envs s.curenv).link
  let s2 := s1.setEnv s1.curenv { s1.envs s1.curenv with env_status := ENV_NOT_RUNNABLE }
  (none, s2)

/-- The dispatcher `syscall`. The result is `none` when the handler it
invoked does not return. -/
def syscall (K : Collab) (s : State) (syscallno a1 a2 a3 a4 a5 : Nat) : Option Int × State :=
  match K.sysno syscallno with
  | some Sysno.SYS_cputs =>
    let r := sys_cputs K s a1 a2
    (r.1.map fun _ => 0, r.2)
  | some Sysno.SYS_cgetc =>
    let r := sys_cgetc K s
    (some r.1, r.2)
  | some Sysno.SYS_getenvid => sys_getenvid s
  | some Sysno.SYS_env_destroy => sys_env_destroy K.env_destroy s a1
  | some Sysno.SYS_yield =>
    let r := sys_yield s
    (r.1.map fun _ => 0, r.2)
  | some Sysno.SYS_exofork =>
    let r := sys_exofork K s
    (some r.1, r.2)
  | some Sysno.SYS_env_set_status =>
    let r := sys_env_set_status s a1 a2
    (some r.1, r.2)
  | some Sysno.SYS_env_set_pgfault_upcall =>
    let r := sys_env_set_pgfault_upcall s a1 a2
    (some r.1, r.2)
  | some Sysno.SYS_page_alloc =>
    let r := sys_page_alloc s a1 a2 a3
    (some r.1, r.2)
  | some Sysno.SYS_page_map =>
    let r := sys_page_map s a1 a2 a3 a4 a5
    (some r.1, r.2)
  | some Sysno.SYS_page_unmap =>
    let r := sys_page_unmap s a1 a2
    (some r.1, r.2)
  | some Sysno.SYS_ipc_try_send =>
    let r := sys_ipc_try_send s a1 a2 a3 a4
    (some r.1, r.2)
  | some Sysno.SYS_ipc_recv => sys_ipc_recv s a1
  | some Sysno.SYS_env_set_priority =>
    let r := sys_env_set_priority K.ENV_PR_HIGHEST K.ENV_PR_LOWEST s a1 (toInt32 a2)
    (some r.1, r.2)
  | some Sysno.SYS_env_set_trapframe => sys_env_set_trapframe K s a1 a2
  | some Sysno.SYS_time_msec =>
    let r := sys_time_msec K s
    (some r.1, r.2)
  | some Sysno.SYS_net_send_pckt =>
    let r := sys_net_send_pckt K s a1 a2
    (some r.1, r.2)
  | some Sysno.SYS_net_recv_pckt => sys_net_recv_pckt K s a1
  | some Sysno.FLEXSC_register => flexsc_register K s a1
  | some Sysno.FLEXSC_wait => flexsc_wait K s
  | none => (some (-E_INVAL), s)

/-- One pass of the loop of `scthread_task` on syscall page `k`, with the
pointer `entry` standing `i` entries after the start of the page. The result
is the state and the position of `entry` after `entry++`, or `none` when the
dispatched syscall did not return, so that the pass was not completed. -/
def scthread_task_step (K : Collab) (s : State) (k i : Nat) : State × Option Nat :=
  if (s.scpages k i).status = FSC_SUBMITTED then
    let s1 := s.setEntry k i { s.scpages k i with status := FSC_BUSY }
    let r := syscall K s1 (s1.scpages k i).sc_num
      ((s1.scpages k i).args.getD 0 0) ((s1.scpages k i).args.getD 1 0)
      ((s1.scpages k i).args.getD 2 0) ((s1.scpages k i).args.getD 3 0)
      ((s1.scpages k i).args.getD 4 0)
    match r.1 with
    | none => (r.2, none)
    | some ret =>
      let s2 := r.2.setEntry k i { r.2.scpages k i with ret := ret }
      let s3 := s2.setEntry k i { s2.scpages k i with status := FSC_DONE }
      (s3, some (i + 1))
  else (s, some (i + 1))

/-- The function `scthread_task` of `kern/flexsc.c`, cut after `n` passes of
its endless loop: `entry` starts at the first entry of page `k`. The result
is the state and the position of `entry` the next pass would inspect (`none`
when a dispatched syscall did not return). -/
def scthread_task_from (K : Collab) (k : Nat) : Nat → State → Nat → State × Option Nat
  | 0, s, i => (s, some i)
  | n + 1, s, i =>
    match scthread_task_step K s k i with
    | (s1, none) => (s1, none)
    | (s1, some j) => scthread_task_from K k n s1 j

/-- The function `scthread_task` after `n` passes of its loop. -/
def scthread_task (K : Collab) (s : State) (k : Nat) (n : Nat) : State × Option Nat :=
  scthread_task_from K k n s 0

/-! ## A concrete instance of the parameters -/

/-- A numbering of the opcodes, in the order of the `case` labels of
`syscall`, used to evaluate the dispatcher. -/
def testSysno (n : Nat) : Option Sysno :=
  match n with
  | 0 => some Sysno.SYS_cputs
  | 1 => some Sysno.SYS_cgetc
  | 2 => some Sysno.SYS_getenvid
  | 3 => some Sysno.SYS_env_destroy
  | 4 => some Sysno.SYS_yield
  | 5 => some Sysno.SYS_exofork
  | 6 => some Sysno.SYS_env_set_status
  | 7 => some Sysno.SYS_env_set_pgfault_upcall
  | 8 => some Sysno.SYS_page_alloc
  | 9 => some Sysno.SYS_page_map
  | 10 => some Sysno.SYS_page_unmap
  | 11 => some Sysno.SYS_ipc_try_send
  | 12 => some Sysno.SYS_ipc_recv
  | 13 => some Sysno.SYS_env_set_priority
  | 14 => some Sysno.SYS_env_set_trapframe
  | 15 => some Sysno.SYS_time_msec
  | 16 => some Sysno.SYS_net_send_pckt
  | 17 => some Sysno.SYS_net_recv_pckt
  | 18 => some Sysno.FLEXSC_register
  | 19 => some Sysno.FLEXSC_wait
  | _ => none

/-- An instance of the parameters used to evaluate the code: a small layout
(user stack top at `0x3000`, exception stack top at `0x5000`, two syscall
pages of four entries), a user-memory check that accepts every address below
`UTOP`, devices that return 0, and syscall page `k` backed by physical page
`40 + k`. -/
def testK : Collab :=
  { sysno := testSysno
    ENV_PR_HIGHEST := 0
    ENV_PR_LOWEST := 3
    USTACKTOP := 0x3000
    UXSTACKTOP := 0x5000
    NSCPAGES := 2
    NSCENTRIES := 4
    PBUFSIZE := 2048
    RBUFSIZE := 2048
    scthread_task_addr := 0xf0100000
    env_destroy := env_destroy
    user_mem_check := fun _ _ va _ _ => decide (va < UTOP)
    trapframe_at := fun _ _ => { reg_eax := 7, tf_eip := 0x800020, tf_cs := 0x8, tf_eflags := 0x46 }
    cons_getc := fun s => (0, s)
    time_msec := fun _ => 0
    trans_pckt := fun s _ _ => (0, s)
    recv_pckt := fun s _ => (0, s)
    scthread_run := fun s _ => s
    kern_pgdir_lookup := fun k => some (40 + k) }

/-- A process in slot 0 (id `0x1000`, running) whose address space maps
physical pages 20 and 21 at the two pages below the user stack of `testK`. -/
def procEnv : Env :=
  { env_id := 0x1000, env_status := ENV_RUNNING,
    env_pgdir :=
      { pde := fun d => if d = 0 then some 10 else none
        pte := fun n =>
          if n = 0 then some ⟨20, PTE_U ||| PTE_P ||| PTE_W⟩
          else if n = 1 then some ⟨21, PTE_U ||| PTE_P⟩
          else none } }

/-- A single running process and five free physical pages. -/
def procState : State :=
  { envs := fun i => if i = 0 then procEnv else {}
    curenv := 0
    pp_ref := fun p => if p = 10 ∨ p = 20 ∨ p = 21 then 1 else 0
    page_free_list := [30, 31, 32, 33, 34] }

/-- A process (slot 0) linked with its FlexSC worker (slot 1, a child of the
process); the worker is running. -/
def workerState : State :=
  { envs := fun i =>
      if i = 0 then { procEnv with env_status := ENV_RUNNABLE, link := some 1, scpage := some 0 }
      else if i = 1 then
        { env_id := 0x1001, env_parent_id := 0x1000, env_type := EnvType.ENV_TYPE_FLEX,
          env_status := ENV_RUNNING, link := some 0, scpage := some 0 }
      else {}
    curenv := 1
    pp_ref := fun p => if p = 10 ∨ p = 20 ∨ p = 21 then 1 else 0
    page_free_list := [30, 31, 32, 33, 34] }

/-- A sequence of `n` calls of `scpage_alloc`, the first being call number
`j`. Between two calls the kernel runs other code: `other j` is what happens
to the state after call number `j`. The result lists the values the calls
returned, in order, next to the final state. -/
def scpage_alloc_calls (K : Collab) (other : Nat → State → State) :
    Nat → Nat → State → List (Option Nat) × State
  | 0, _, s => ([], s)
  | n + 1, j, s =>
    let r := scpage_alloc K s
    let rest := scpage_alloc_calls K other n (j + 1) (other j r.2)
    (r.1 :: rest.1, rest.2)

/-- The frame of everything but `scpage_alloc`: `s'` has the syscall pages
and the counter `sc_pgnum` of `s`. -/
def poolFrame (s s' : State) : Prop :=
  s'.scpages = s.scpages ∧ s'.sc_pgnum = s.sc_pgnum

/-- The collaborators that are not among the sources and act on the state
(`env_destroy`, the console, the network driver and `scthread_run`) leave the
syscall pages and the counter of `scpage_alloc` as they are. -/
def Collab.keeps_pool (K : Collab) : Prop :=
  (∀ s e, poolFrame s (K.env_destroy s e).1) ∧
  (∀ s, poolFrame s (K.cons_getc s).2) ∧
  (∀ s src len, poolFrame s (K.trans_pckt s src len).2) ∧
  (∀ s dstva, poolFrame s (K.recv_pckt s dstva).2) ∧
  (∀ s l, poolFrame s (K.scthread_run s l))

/-- The frame of the page operations: `s'` has the same running environment
as `s`, and every environment of `s'` differs from the one in the same slot
of `s` in its address space at most. -/
def pgdirFrame (s s' : State) : Prop :=
  s'.curenv = s.curenv ∧ ∀ i, ∃ pd, s'.envs i = { s.envs i with env_pgdir := pd }

/-! ## Basic facts about the state updates -/

@[simp]
theorem setEnv_envs (s : State) (i j : Nat) (e : Env) :
    (s.setEnv i e).envs j = if j = i then e else s.envs j := rfl

@[simp]
theorem setEnv_curenv (s : State) (i : Nat) (e : Env) :
    (s.setEnv i e).curenv = s.curenv := rfl

@[simp]
theorem setEnv_pp_ref (s : State) (i : Nat) (e : Env) :
    (s.setEnv i e).pp_ref = s.pp_ref := rfl

@[simp]
theorem setEnv_free (s : State) (i : Nat) (e : Env) :
    (s.setEnv i e).page_free_list = s.page_free_list := rfl

@[simp]
theorem setRef_envs (s : State) (p n : Nat) :
    (s.setRef p n).envs = s.envs := rfl

@[simp]
theorem setRef_curenv (s : State) (p n : Nat) :
    (s.setRef p n).curenv = s.curenv := rfl

@[simp]
theorem page_free_envs (s : State) (p : Nat) :
    (page_free s p).envs = s.envs := rfl

@[simp]
theorem page_free_curenv (s : State) (p : Nat) :
    (page_free s p).curenv = s.curenv := rfl

/-- Every failure of `envid2env` is "bad environment". -/
theorem envid2env_error (s : State) (envid : Nat) (c : Bool) (r : Int)
    (h : envid2env s envid c = Except.error r) : r = -E_BAD_ENV := by
  unfold envid2env at h
  simp only at h
  split_ifs at h <;> (injection h with h; exact h.symm)

/-- The alignment test of the handlers, `va & 0xFFF`, is the remainder modulo
the page size. -/
theorem land_fff_eq_mod (va : Nat) : va &&& 0xFFF = va % PGSIZE := by
  have h : (0xFFF : Nat) = 2 ^ 12 - 1 := by norm_num
  rw [h, Nat.and_pow_two_sub_one_eq_mod]
  rfl

/-! ## Facts about the page operations -/

theorem PDX_eq (va : Nat) : PDX va = PGNUM va / 1024 := by
  unfold PDX PGNUM
  rw [Nat.div_div_eq_div_mul]

@[simp]
theorem page_decref_envs (s : State) (p : Nat) :
    (page_decref s p).envs = s.envs := by
  unfold page_decref
  simp only
  split_ifs <;> rfl

@[simp]
theorem page_decref_curenv (s : State) (p : Nat) :
    (page_decref s p).curenv = s.curenv := by
  unfold page_decref
  simp only
  split_ifs <;> rfl

theorem pgdirFrame_refl (s : State) : pgdirFrame s s :=
  ⟨rfl, fun i => ⟨(s.envs i).env_pgdir, rfl⟩⟩

theorem pgdirFrame_trans {s s' s'' : State} (h : pgdirFrame s s') (h' : pgdirFrame s' s'') :
    pgdirFrame s s'' := by
  refine ⟨h'.1.trans h.1, fun i => ?_⟩
  obtain ⟨pd, hpd⟩ := h.2 i
  obtain ⟨pd', hpd'⟩ := h'.2 i
  exact ⟨pd', by rw [hpd', hpd]⟩

theorem pgdirFrame_of_envs {s s' : State} (hc : s'.curenv = s.curenv) (he : s'.envs = s.envs) :
    pgdirFrame s s' :=
  ⟨hc, fun i => ⟨(s.envs i).env_pgdir, by rw [he]⟩⟩

theorem pgdirFrame_setPgdir (s : State) (e : Nat) (pd : Pgdir) :
    pgdirFrame s (s.setPgdir e pd) := by
  refine ⟨rfl, fun i => ?_⟩
  by_cases h : i = e
  · subst h
    exact ⟨pd, by simp [State.setPgdir]⟩
  · exact ⟨(s.envs i).env_pgdir, by simp [State.setPgdir, h]⟩

/-- Resolution of an id does not depend on the address spaces. -/
theorem envid2env_frame {s s' : State} (h : pgdirFrame s s') (envid : Nat) (c : Bool) :
    envid2env s' envid c = envid2env s envid c := by
  obtain ⟨hc, he⟩ := h
  obtain ⟨pd, h1⟩ := he (ENVX envid)
  obtain ⟨pd', h2⟩ := he s.curenv
  unfold envid2env
  simp only [hc, h1, h2]

theorem page_lookup_congr {s s' : State} {e : Nat} (h : s'.envs e = s.envs e) (va : Nat) :
    page_lookup s' e va = page_lookup s e va := by
  unfold page_lookup
  rw [h]

theorem page_lookup_same_page (s : State) (e : Nat) {va va' : Nat}
    (h : PGNUM va' = PGNUM va) : page_lookup s e va' = page_lookup s e va := by
  unfold page_lookup
  rw [PDX_eq, PDX_eq, h]

theorem page_remove_frame (s : State) (e va : Nat) : pgdirFrame s (page_remove s e va) := by
  unfold page_remove
  cases page_lookup s e va with
  | none => exact pgdirFrame_refl s
  | some ent =>
    exact pgdirFrame_trans
      (pgdirFrame_of_envs (page_decref_curenv s ent.pp) (page_decref_envs s ent.pp))
      (pgdirFrame_setPgdir _ _ _)

theorem page_remove_pde (s : State) (e va e' : Nat) :
    ((page_remove s e va).envs e').env_pgdir.pde = (s.envs e').env_pgdir.pde := by
  unfold page_remove
  cases page_lookup s e va with
  | none => rfl
  | some ent =>
    by_cases h : e' = e
    · subst h
      simp [State.setPgdir]
    · simp [State.setPgdir, h]

/-- After `page_remove` nothing is mapped at the address, and every other
address of every address space maps what it did. -/
theorem page_lookup_page_remove (s : State) (e va e' va' : Nat) :
    page_lookup (page_remove s e va) e' va' =
      if e' = e ∧ PGNUM va' = PGNUM va then none else page_lookup s e' va' := by
  unfold page_remove
  cases hl : page_lookup s e va with
  | none =>
    simp only
    split_ifs with h
    · obtain ⟨rfl, hpg⟩ := h
      rw [page_lookup_same_page s e' hpg, hl]
    · rfl
  | some ent =>
    simp only
    by_cases he : e' = e
    · subst he
      by_cases hpg : PGNUM va' = PGNUM va
      · simp only [hpg, and_self, if_true]
        unfold page_lookup
        simp only [State.setPgdir, setEnv_envs, if_true, page_decref_envs, hpg]
        cases (s.envs e').env_pgdir.pde (PDX va') <;> simp
      · simp only [hpg, and_false, if_false]
        unfold page_lookup
        simp only [State.setPgdir, setEnv_envs, if_true, page_decref_envs, hpg, if_false]
    · simp only [he, false_and, if_false]
      apply page_lookup_congr
      simp [State.setPgdir, he]

theorem page_remove_unmapped (s : State) (e va : Nat) (h : page_lookup s e va = none) :
    page_remove s e va = s := by
  unfold page_remove
  rw [h]

theorem page_alloc_some {s s1 : State} {p : Nat} (h : page_alloc s = some (p, s1)) :
    s1.curenv = s.curenv ∧ s1.envs = s.envs ∧ page_free s1 p = s := by
  unfold page_alloc at h
  cases hf : s.page_free_list with
  | nil => simp [hf] at h
  | cons q rest =>
    simp only [hf, Option.some.injEq, Prod.mk.injEq] at h
    obtain ⟨rfl, rfl⟩ := h
    refine ⟨rfl, rfl, ?_⟩
    unfold page_free
    simp only [← hf]

theorem pgdir_walk_frame {s s1 : State} {e va : Nat} (h : pgdir_walk s e va = some s1) :
    pgdirFrame s s1 := by
  unfold pgdir_walk at h
  cases hp : (s.envs e).env_pgdir.pde (PDX va) with
  | some t =>
    simp only [hp, Option.some.injEq] at h
    subst h
    exact pgdirFrame_refl s
  | none =>
    simp only [hp] at h
    cases ha : page_alloc s with
    | none => simp [ha] at h
    | some r =>
      obtain ⟨pt, s0⟩ := r
      simp only [ha, Option.some.injEq] at h
      subst h
      obtain ⟨hc, he, _⟩ := page_alloc_some ha
      exact pgdirFrame_trans (pgdirFrame_of_envs hc he) (pgdirFrame_setPgdir _ _ _)

/-- After the walk a page table covers `va`. -/
theorem pgdir_walk_pde {s s1 : State} {e va : Nat} (h : pgdir_walk s e va = some s1) :
    ∃ t, (s1.envs e).env_pgdir.pde (PDX va) = some t := by
  unfold pgdir_walk at h
  cases hp : (s.envs e).env_pgdir.pde (PDX va) with
  | some t =>
    simp only [hp, Option.some.injEq] at h
    subst h
    exact ⟨t, hp⟩
  | none =>
    simp only [hp] at h
    cases ha : page_alloc s with
    | none => simp [ha] at h
    | some r =>
      obtain ⟨pt, s0⟩ := r
      simp only [ha, Option.some.injEq] at h
      subst h
      exact ⟨pt, by simp [State.setPgdir]⟩

/-- The walk changes no mapping: a table it allocates is empty and covers a
range in which nothing was mapped. -/
theorem page_lookup_pgdir_walk {s s1 : State} {e va : Nat} (h : pgdir_walk s e va = some s1)
    (e' va' : Nat) : page_lookup s1 e' va' = page_lookup s e' va' := by
  unfold pgdir_walk at h
  cases hp : (s.envs e).env_pgdir.pde (PDX va) with
  | some t =>
    simp only [hp, Option.some.injEq] at h
    subst h
    rfl
  | none =>
    simp only [hp] at h
    cases ha : page_alloc s with
    | none => simp [ha] at h
    | some r =>
      obtain ⟨pt, s0⟩ := r
      simp only [ha, Option.some.injEq] at h
      subst h
      obtain ⟨_, he, _⟩ := page_alloc_some ha
      by_cases hee : e' = e
      · subst hee
        unfold page_lookup
        simp only [State.setPgdir, setEnv_envs, if_true, setRef_envs, he]
        by_cases hd : PDX va' = PDX va
        · have hn : PGNUM va' / 1024 = PDX va := by rw [← PDX_eq, hd]
          simp only [hd, if_true, hn, hp]
        · have hn : ¬ PGNUM va' / 1024 = PDX va := by rw [← PDX_eq]; exact hd
          simp only [hd, if_false, hn]
      · apply page_lookup_congr
        simp [State.setPgdir, hee, he]

theorem page_insert_frame (s : State) (e pp va perm : Nat) :
    pgdirFrame s (page_insert s e pp va perm).2 := by
  unfold page_insert
  cases hw : pgdir_walk s e va with
  | none => exact pgdirFrame_refl s
  | some s1 =>
    simp only
    refine pgdirFrame_trans (pgdir_walk_frame hw) ?_
    refine pgdirFrame_trans (@pgdirFrame_of_envs s1 (s1.setRef pp (s1.pp_ref pp + 1))
      rfl rfl) ?_
    exact pgdirFrame_trans (page_remove_frame _ _ _) (pgdirFrame_setPgdir _ _ _)

/-- A failing `page_insert` fails with `-E_NO_MEM` and has no effect. -/
theorem page_insert_fail {s : State} {e pp va perm : Nat}
    (h : (page_insert s e pp va perm).1 < 0) :
    page_insert s e pp va perm = (-E_NO_MEM, s) := by
  unfold page_insert at h ⊢
  cases hw : pgdir_walk s e va with
  | none => rfl
  | some s1 => simp [hw] at h

/-- A `page_insert` that does not fail returns 0, maps the page at the
address with exactly the requested permissions, and leaves every other
address of every address space mapping what it did. -/
theorem page_insert_ok {s : State} {e pp va perm : Nat}
    (h : ¬ (page_insert s e pp va perm).1 < 0) :
    (page_insert s e pp va perm).1 = 0 ∧
    ∀ e' va', page_lookup (page_insert s e pp va perm).2 e' va' =
      if e' = e ∧ PGNUM va' = PGNUM va then some ⟨pp, perm⟩ else page_lookup s e' va' := by
  unfold page_insert at h ⊢
  cases hw : pgdir_walk s e va with
  | none => simp [hw, E_NO_MEM] at h
  | some s1 =>
    simp only
    refine ⟨trivial, fun e' va' => ?_⟩
    obtain ⟨t, ht⟩ := pgdir_walk_pde hw
    have hrm := page_lookup_page_remove (s1.setRef pp (s1.pp_ref pp + 1)) e va e' va'
    have hpde := page_remove_pde (s1.setRef pp (s1.pp_ref pp + 1)) e va e
    have hs1 : page_lookup (s1.setRef pp (s1.pp_ref pp + 1)) e' va' = page_lookup s e' va' := by
      rw [← page_lookup_pgdir_walk hw e' va']
      exact page_lookup_congr rfl va'
    by_cases hee : e' = e
    · subst hee
      by_cases hpg : PGNUM va' = PGNUM va
      · have hd : PDX va' = PDX va := by rw [PDX_eq, PDX_eq, hpg]
        simp only [hpg, and_self, if_true]
        unfold page_lookup
        simp only [State.setPgdir, setEnv_envs, if_true, hpde, setRef_envs, hd, ht, hpg]
      · simp only [hpg, and_false, if_false] at hrm ⊢
        rw [← hs1, ← hrm]
        unfold page_lookup
        simp only [State.setPgdir, setEnv_envs, if_true, hpg, if_false]
    · simp only [hee, false_and, if_false] at hrm ⊢
      rw [← hs1, ← hrm]
      apply page_lookup_congr
      simp [State.setPgdir, hee]

/-! ## C1: a failed send is not atomic -/

/-- C1 (defect in the code): `sys_ipc_try_send` clears the target's
`env_ipc_recving` flag and writes `env_ipc_from` and `env_ipc_value` before it
validates the page arguments. Sending to the blocked receiver of `ipcState`
with the unaligned source address `0x1001` returns `-E_INVAL`, yet the
receiver, which was RECEIVING, is no longer RECEIVING, holds the sender's id
and the value 42, and is still NOT_RUNNABLE. -/
theorem sys_ipc_try_send_error_not_atomic :
    (sys_ipc_try_send ipcState 0x1001 42 0x1001 (PTE_U ||| PTE_P)).1 = -E_INVAL ∧
    (ipcState.envs 1).env_ipc_recving = 1 ∧
    ((sys_ipc_try_send ipcState 0x1001 42 0x1001 (PTE_U ||| PTE_P)).2.envs 1).env_ipc_recving = 0 ∧
    ((sys_ipc_try_send ipcState 0x1001 42 0x1001 (PTE_U ||| PTE_P)).2.envs 1).env_ipc_from = 0x1000 ∧
    ((sys_ipc_try_send ipcState 0x1001 42 0x1001 (PTE_U ||| PTE_P)).2.envs 1).env_ipc_value = 42 ∧
    ((sys_ipc_try_send ipcState 0x1001 42 0x1001 (PTE_U ||| PTE_P)).2.envs 1).env_status
      = ENV_NOT_RUNNABLE := by
  decide

/-! ## C2: a receive that asks for no page keeps the old destination -/

/-- C2 (defect in the code): `sys_ipc_recv` with `dstva >= UTOP` leaves
`env_ipc_dstva` as the previous receive set it. In `beforeSecondIpc` the
receiver has called `sys_ipc_recv(UTOP)` after an earlier receive at `0x2000`
(and after unmapping that page); the sender's next page-offering send returns
0 and delivers the value 9, but `env_ipc_perm` is the sent mask rather than 0
and the sender's page 20 is mapped at `0x2000` in the receiver, where nothing
was mapped before the send. -/
theorem sys_ipc_recv_keeps_stale_dstva :
    (sys_ipc_recv (sys_page_unmap (afterFirstIpc.resume 1) 0x1001 0x2000).2 UTOP).1 = none ∧
    (beforeSecondIpc.envs 1).env_ipc_recving = 1 ∧
    (beforeSecondIpc.envs 1).env_ipc_dstva = 0x2000 ∧
    page_lookup beforeSecondIpc 1 0x2000 = none ∧
    (sys_ipc_try_send beforeSecondIpc 0x1001 9 0x1000 (PTE_U ||| PTE_P)).1 = 0 ∧
    ((sys_ipc_try_send beforeSecondIpc 0x1001 9 0x1000 (PTE_U ||| PTE_P)).2.envs 1).env_ipc_value
      = 9 ∧
    ((sys_ipc_try_send beforeSecondIpc 0x1001 9 0x1000 (PTE_U ||| PTE_P)).2.envs 1).env_ipc_perm
      = (PTE_U ||| PTE_P) ∧
    page_lookup (sys_ipc_try_send beforeSecondIpc 0x1001 9 0x1000 (PTE_U ||| PTE_P)).2 1 0x2000
      = some ⟨20, PTE_U ||| PTE_P⟩ := by
  decide

/-! ## C3: the permission test accepts a mask with one of the two bits -/

/-- C3 (defect in the code): the test `!(perm & (PTE_U | PTE_P))` rejects a
mask only when both bits are clear. With `perm = PTE_U` (present bit clear)
`sys_page_alloc`, `sys_page_map` and a page-transferring `sys_ipc_try_send`
all return 0 on `ipcState` and each creates a mapping where none was. -/
theorem perm_check_accepts_missing_present_bit :
    PTE_U &&& PTE_P = 0 ∧
    page_lookup ipcState 0 0x5000 = none ∧
    (sys_page_alloc ipcState 0x1000 0x5000 PTE_U).1 = 0 ∧
    page_lookup (sys_page_alloc ipcState 0x1000 0x5000 PTE_U).2 0 0x5000 = some ⟨30, PTE_U⟩ ∧
    (sys_page_map ipcState 0x1000 0x1000 0x1000 0x5000 PTE_U).1 = 0 ∧
    page_lookup (sys_page_map ipcState 0x1000 0x1000 0x1000 0x5000 PTE_U).2 0 0x5000
      = some ⟨20, PTE_U⟩ ∧
    page_lookup ipcState 1 0x2000 = none ∧
    (sys_ipc_try_send ipcState 0x1001 42 0x1000 PTE_U).1 = 0 ∧
    page_lookup (sys_ipc_try_send ipcState 0x1001 42 0x1000 PTE_U).2 1 0x2000
      = some ⟨20, PTE_U⟩ := by
  decide

/-! ## C4: an id that does not resolve -/

/-- C4 as stated fails: id `0x2005` names a free slot of `ipcState`, yet
`sys_page_alloc` with a misaligned address, `sys_page_unmap` with a misaligned
address, `sys_env_set_status` with an invalid status and
`sys_env_set_priority` with an out-of-range priority all return `-E_INVAL`,
not `-E_BAD_ENV`: these handlers validate their other argument first. -/
theorem bad_id_does_not_take_precedence :
    envid2env ipcState 0x2005 true = Except.error (-E_BAD_ENV) ∧
    (sys_page_alloc ipcState 0x2005 0x1001 (PTE_U ||| PTE_P)).1 = -E_INVAL ∧
    (sys_page_unmap ipcState 0x2005 0x1001).1 = -E_INVAL ∧
    (sys_env_set_status ipcState 0x2005 ENV_FREE).1 = -E_INVAL ∧
    (sys_env_set_priority 0 3 ipcState 0x2005 4).1 = -E_INVAL ∧
    -E_INVAL ≠ -E_BAD_ENV := by
  refine ⟨rfl, ?_, ?_, ?_, ?_, ?_⟩ <;> decide

/-- C4 (amended): for an environment id that `envid2env` does not resolve,
every id-taking handler fails and leaves the whole kernel state unchanged.
`sys_env_destroy`, `sys_env_set_pgfault_upcall` and `sys_page_map` (for
either id) return `-E_BAD_ENV` whatever their other arguments are, and so
does `sys_ipc_try_send` when the id does not resolve without the permission
check (the only resolution it performs). `sys_env_set_status`,
`sys_page_alloc`, `sys_page_unmap` and `sys_env_set_priority` validate their
other arguments first: they return `-E_INVAL` when the status, the address or
permission mask, the address, or the priority is invalid, and `-E_BAD_ENV`
otherwise. -/
theorem unresolved_id_fails_without_mutation
    (env_destroy : State → Nat → State × Bool) (lo hi : Int)
    (s : State) (envid other : Nat) (r r0 : Int)
    (func srcva dstva va perm status value : Nat) (priority : Int)
    (h : envid2env s envid true = Except.error r) :
    sys_env_destroy env_destroy s envid = (some (-E_BAD_ENV), s) ∧
    sys_env_set_pgfault_upcall s envid func = (-E_BAD_ENV, s) ∧
    sys_page_map s envid srcva other dstva perm = (-E_BAD_ENV, s) ∧
    sys_page_map s other srcva envid dstva perm = (-E_BAD_ENV, s) ∧
    (envid2env s envid false = Except.error r0 →
      sys_ipc_try_send s envid value srcva perm = (-E_BAD_ENV, s)) ∧
    sys_env_set_status s envid status =
      (if status ≠ ENV_RUNNABLE ∧ status ≠ ENV_NOT_RUNNABLE then -E_INVAL else -E_BAD_ENV, s) ∧
    sys_page_alloc s envid va perm =
      (if (UTOP ≤ va ∨ va % PGSIZE ≠ 0) ∨
          (perm &&& (PTE_U ||| PTE_P) = 0 ∨ perm &&& not32 PTE_SYSCALL ≠ 0)
        then -E_INVAL else -E_BAD_ENV, s) ∧
    sys_page_unmap s envid va =
      (if UTOP ≤ va ∨ va % PGSIZE ≠ 0 then -E_INVAL else -E_BAD_ENV, s) ∧
    sys_env_set_priority lo hi s envid priority =
      (if priority < lo ∨ priority > hi then -E_INVAL else -E_BAD_ENV, s) := by
  have hr := envid2env_error s envid true r h
  subst hr
  refine ⟨?_, ?_, ?_, ?_, ?_, ?_, ?_, ?_, ?_⟩
  · simp [sys_env_destroy, h]
  · simp [sys_env_set_pgfault_upcall, h]
  · simp [sys_page_map, h]
  · unfold sys_page_map
    cases hsrc : envid2env s other true with
    | error e => rw [envid2env_error s other true e hsrc]
    | ok e => simp [h]
  · intro h0
    have hr0 := envid2env_error s envid false r0 h0
    subst hr0
    simp [sys_ipc_try_send, h0]
  · unfold sys_env_set_status
    split_ifs <;> simp [h]
  · unfold sys_page_alloc va_rejected perm_rejected
    rw [land_fff_eq_mod]
    by_cases hva : UTOP ≤ va ∨ va % PGSIZE ≠ 0
    · simp [hva]
    · by_cases hp : perm &&& (PTE_U ||| PTE_P) = 0 ∨ perm &&& not32 PTE_SYSCALL ≠ 0
      · have hva1 : ¬ UTOP ≤ va := fun x => hva (Or.inl x)
        have hva2 : va % PGSIZE = 0 := by
          by_contra x; exact hva (Or.inr x)
        rcases hp with hp | hp <;> simp [hva1, hva2, hp]
      · have hva1 : ¬ UTOP ≤ va := fun x => hva (Or.inl x)
        have hva2 : va % PGSIZE = 0 := by
          by_contra x; exact hva (Or.inr x)
        have hp1 : ¬ perm &&& (PTE_U ||| PTE_P) = 0 := fun x => hp (Or.inl x)
        have hp2 : perm &&& not32 PTE_SYSCALL = 0 := by
          by_contra x; exact hp (Or.inr x)
        simp [hva1, hva2, hp1, hp2, h]
  · unfold sys_page_unmap va_rejected
    rw [land_fff_eq_mod]
    by_cases hva : UTOP ≤ va ∨ va % PGSIZE ≠ 0
    · rcases hva with hva | hva <;> simp [hva]
    · have hva1 : ¬ UTOP ≤ va := fun x => hva (Or.inl x)
      have hva2 : va % PGSIZE = 0 := by
        by_contra x; exact hva (Or.inr x)
      simp [hva1, hva2, h]
  · unfold sys_env_set_priority
    split_ifs <;> simp [h]

/-- Witness for C4 (amended) on `ipcState`: id `0x2005` names a free slot;
`sys_page_map` with that source id and a misaligned address, and
`sys_ipc_try_send` to it, return `-E_BAD_ENV` and leave the state unchanged. -/
theorem unresolved_id_fails_without_mutation_witness :
    envid2env ipcState 0x2005 true = Except.error (-E_BAD_ENV) ∧
    sys_page_map ipcState 0x2005 0x1001 0x1000 0x2000 0 = (-E_BAD_ENV, ipcState) ∧
    sys_ipc_try_send ipcState 0x2005 0 0x1001 0 = (-E_BAD_ENV, ipcState) :=
  ⟨rfl,
    (unresolved_id_fails_without_mutation (fun s _ => (s, true)) 0 3 ipcState 0x2005 0x1000
      (-E_BAD_ENV) (-E_BAD_ENV) 0 0x1001 0x2000 0x1001 0 0 0 0 rfl).2.2.1,
    (unresolved_id_fails_without_mutation (fun s _ => (s, true)) 0 3 ipcState 0x2005 0x1000
      (-E_BAD_ENV) (-E_BAD_ENV) 0 0x1001 0x2000 0x1001 0 0 0 0 rfl).2.2.2.2.1 rfl⟩

/-! ## C5: allocation at an invalid address -/

/-- C5: for every state, id and permission mask, `sys_page_alloc` with
`va >= UTOP` or `va` not a multiple of the page size returns `-E_INVAL` and
the state after the call is the state before it: `page_alloc` was not called
(free list and reference counts unchanged) and no address space changed. -/
theorem sys_page_alloc_invalid_va (s : State) (envid va perm : Nat)
    (h : UTOP ≤ va ∨ va % PGSIZE ≠ 0) :
    sys_page_alloc s envid va perm = (-E_INVAL, s) := by
  unfold sys_page_alloc va_rejected
  rw [land_fff_eq_mod]
  rcases h with h | h <;> simp [h]

/-- Witness for C5: the unaligned address `0x1001` on `ipcState`. -/
theorem sys_page_alloc_invalid_va_witness :
    (UTOP ≤ 0x1001 ∨ 0x1001 % PGSIZE ≠ 0) ∧
    sys_page_alloc ipcState 0x1000 0x1001 (PTE_U ||| PTE_P) = (-E_INVAL, ipcState) :=
  ⟨by decide, sys_page_alloc_invalid_va ipcState 0x1000 0x1001 (PTE_U ||| PTE_P) (by decide)⟩

/-! ## C6: no write grant on a read-only source -/

/-- C6: when both ids resolve, the entry at `srcva` in the source lacks
`PTE_W` (if there is an entry at all) and `perm` contains `PTE_W`,
`sys_page_map` returns `-E_INVAL` and the state is unchanged, so neither the
destination's mappings nor any other mapping changes. This holds for every
`srcva` and `dstva`, in particular for page-aligned ones below `UTOP`. -/
theorem sys_page_map_readonly_source (s : State)
    (srcenvid srcva dstenvid dstva perm srce dste : Nat)
    (hs : envid2env s srcenvid true = Except.ok srce)
    (hd : envid2env s dstenvid true = Except.ok dste)
    (hro : ∀ ent, page_lookup s srce srcva = some ent → ent.perm &&& PTE_W = 0)
    (hw : perm &&& PTE_W ≠ 0) :
    sys_page_map s srcenvid srcva dstenvid dstva perm = (-E_INVAL, s) := by
  unfold sys_page_map
  simp only [hs, hd]
  by_cases hva : (va_rejected srcva || va_rejected dstva) = true
  · rw [if_pos hva]
  · rw [if_neg hva]
    cases hl : page_lookup s srce srcva with
    | none => rfl
    | some ent =>
      have hent := hro ent hl
      by_cases hp : perm_rejected perm = true
      · simp only [if_pos hp]
      · simp only [if_neg hp]
        rw [if_pos ⟨hw, hent⟩]

/-- Witness for C6 on `ipcState`: the sender's page at `0x3000` is mapped
read-only, and mapping it writable into its child at `0x2000` is refused. -/
theorem sys_page_map_readonly_source_witness :
    page_lookup ipcState 0 0x3000 = some ⟨21, PTE_U ||| PTE_P⟩ ∧
    (PTE_U ||| PTE_P ||| PTE_W) &&& PTE_W ≠ 0 ∧
    sys_page_map ipcState 0x1000 0x3000 0x1001 0x2000 (PTE_U ||| PTE_P ||| PTE_W)
      = (-E_INVAL, ipcState) :=
  ⟨rfl, by decide,
    sys_page_map_readonly_source ipcState 0x1000 0x3000 0x1001 0x2000
      (PTE_U ||| PTE_P ||| PTE_W) 0 1 rfl rfl
      (fun ent h => by
        have h21 : page_lookup ipcState 0 0x3000 = some ⟨21, PTE_U ||| PTE_P⟩ := rfl
        rw [h21] at h
        cases h
        decide)
      (by decide)⟩

/-! ## C10: a target that is not receiving -/

/-- C10: when the target id resolves (no permission check) and the target's
`env_ipc_recving` flag is 0, `sys_ipc_try_send` returns `-E_IPC_NOT_RECV` for
every `value`, `srcva` and `perm`, and the state is unchanged (so are the
target's IPC fields, status and mappings). -/
theorem sys_ipc_try_send_not_receiving (s : State) (envid value srcva perm e : Nat)
    (he : envid2env s envid false = Except.ok e)
    (hr : (s.envs e).env_ipc_recving = 0) :
    sys_ipc_try_send s envid value srcva perm = (-E_IPC_NOT_RECV, s) := by
  unfold sys_ipc_try_send
  simp [he, hr]

/-- Witness for C10 on `recvState`: the running receiver sends to the
sender, which is not blocked in a receive. -/
theorem sys_ipc_try_send_not_receiving_witness :
    envid2env recvState 0x1000 false = Except.ok 0 ∧
    (recvState.envs 0).env_ipc_recving = 0 ∧
    sys_ipc_try_send recvState 0x1000 5 0x1000 (PTE_U ||| PTE_P)
      = (-E_IPC_NOT_RECV, recvState) :=
  ⟨rfl, rfl,
    sys_ipc_try_send_not_receiving recvState 0x1000 5 0x1000 (PTE_U ||| PTE_P) 0 rfl rfl⟩

/-! ## C7: the page mapped by `sys_page_map` -/

/-- C7 as stated fails: remapping one's own writable page read-only at the
same address (`srcva = dstva` in the same environment) returns 0 and the
source mapping at `srcva` is changed: its permission bits drop from
`PTE_U | PTE_P | PTE_W` to `PTE_U | PTE_P`. -/
theorem sys_page_map_changes_aliased_source :
    (sys_page_map ipcState 0x1000 0x1000 0x1000 0x1000 (PTE_U ||| PTE_P)).1 = 0 ∧
    page_lookup ipcState 0 0x1000 = some ⟨20, PTE_U ||| PTE_P ||| PTE_W⟩ ∧
    page_lookup (sys_page_map ipcState 0x1000 0x1000 0x1000 0x1000 (PTE_U ||| PTE_P)).2 0 0x1000
      = some ⟨20, PTE_U ||| PTE_P⟩ ∧
    page_lookup (sys_page_map ipcState 0x1000 0x1000 0x1000 0x1000 (PTE_U ||| PTE_P)).2 0 0x1000
      ≠ page_lookup ipcState 0 0x1000 := by
  decide

/-- C7 (amended): when both ids resolve and `sys_page_map` returns 0, `srcva`
was mapped in the source, the destination maps at `dstva` that same physical
page with permission bits exactly `perm`, and the source mapping at `srcva`
is unchanged unless source and destination are the same environment and the
same address, in which case it is that same page with permission `perm`. When
`srcva` has no mapping in the source, the call returns `-E_INVAL` and the
state is unchanged. -/
theorem sys_page_map_same_page (s : State)
    (srcenvid srcva dstenvid dstva perm srce dste : Nat)
    (hs : envid2env s srcenvid true = Except.ok srce)
    (hd : envid2env s dstenvid true = Except.ok dste) :
    ((sys_page_map s srcenvid srcva dstenvid dstva perm).1 = 0 →
      ∃ ent, page_lookup s srce srcva = some ent ∧
        page_lookup (sys_page_map s srcenvid srcva dstenvid dstva perm).2 dste dstva
          = some ⟨ent.pp, perm⟩ ∧
        (¬ (srce = dste ∧ srcva = dstva) →
          page_lookup (sys_page_map s srcenvid srcva dstenvid dstva perm).2 srce srcva
            = some ent) ∧
        (srce = dste ∧ srcva = dstva →
          page_lookup (sys_page_map s srcenvid srcva dstenvid dstva perm).2 srce srcva
            = some ⟨ent.pp, perm⟩)) ∧
    (page_lookup s srce srcva = none →
      sys_page_map s srcenvid srcva dstenvid dstva perm = (-E_INVAL, s)) := by
  have hne : (-E_INVAL : Int) ≠ 0 := by decide
  unfold sys_page_map
  simp only [hs, hd]
  by_cases hva : (va_rejected srcva || va_rejected dstva) = true
  · simp only [if_pos hva]
    exact ⟨fun h => absurd h hne, fun _ => trivial⟩
  · simp only [if_neg hva]
    cases hl : page_lookup s srce srcva with
    | none => exact ⟨fun h => absurd h hne, fun _ => rfl⟩
    | some ent =>
      refine ⟨fun h => ⟨ent, rfl, ?_⟩, fun h => by cases h⟩
      revert h
      simp only
      by_cases hp : perm_rejected perm = true
      · simp only [if_pos hp]
        exact fun h => absurd h hne
      · simp only [if_neg hp]
        by_cases hw : perm &&& PTE_W ≠ 0 ∧ ent.perm &&& PTE_W = 0
        · simp only [if_pos hw]
          exact fun h => absurd h hne
        · simp only [if_neg hw]
          by_cases hi : (page_insert s dste ent.pp dstva perm).1 < 0
          · simp only [if_pos hi]
            intro h
            rw [h] at hi
            exact absurd hi (by decide)
          · simp only [if_neg hi]
            intro _
            obtain ⟨_, hlook⟩ := page_insert_ok hi
            have halign : ∀ a b : Nat, a % PGSIZE = 0 → b % PGSIZE = 0 →
                PGNUM a = PGNUM b → a = b := by
              intro a b ha hb hab
              unfold PGNUM at hab
              rw [← Nat.div_add_mod a PGSIZE, ← Nat.div_add_mod b PGSIZE, ha, hb, hab]
            have hsa : srcva % PGSIZE = 0 ∧ dstva % PGSIZE = 0 := by
              simp only [va_rejected, land_fff_eq_mod, Bool.or_eq_true, decide_eq_true_eq,
                not_or, not_le, ne_eq, not_not] at hva
              exact ⟨hva.1.2, hva.2.2⟩
            refine ⟨?_, ?_, ?_⟩
            · rw [hlook]
              simp
            · intro hna
              rw [hlook, if_neg, hl]
              rintro ⟨h1, h2⟩
              exact hna ⟨h1, halign _ _ hsa.1 hsa.2 h2⟩
            · rintro ⟨h1, h2⟩
              rw [hlook, if_pos ⟨h1, by rw [h2]⟩]

/-- Witness for C7 (amended) on `ipcState`: the sender maps its page at
`0x1000` read-only into its child at `0x2000`; the child then maps physical
page 20 there and the sender's own mapping is as before. -/
theorem sys_page_map_same_page_witness :
    envid2env ipcState 0x1000 true = Except.ok 0 ∧
    envid2env ipcState 0x1001 true = Except.ok 1 ∧
    (sys_page_map ipcState 0x1000 0x1000 0x1001 0x2000 (PTE_U ||| PTE_P)).1 = 0 ∧
    page_lookup (sys_page_map ipcState 0x1000 0x1000 0x1001 0x2000 (PTE_U ||| PTE_P)).2 1 0x2000
      = some ⟨20, PTE_U ||| PTE_P⟩ ∧
    page_lookup (sys_page_map ipcState 0x1000 0x1000 0x1001 0x2000 (PTE_U ||| PTE_P)).2 0 0x1000
      = some ⟨20, PTE_U ||| PTE_P ||| PTE_W⟩ := by
  refine ⟨rfl, rfl, by decide, ?_⟩
  obtain ⟨ent, h1, h2, h3, _⟩ :=
    (sys_page_map_same_page ipcState 0x1000 0x1000 0x1001 0x2000 (PTE_U ||| PTE_P) 0 1
      rfl rfl).1 (by decide)
  have h20 : page_lookup ipcState 0 0x1000 = some ⟨20, PTE_U ||| PTE_P ||| PTE_W⟩ := rfl
  rw [h20] at h1
  cases h1
  exact ⟨h2, h3 (by decide)⟩

/-! ## C8: unmapping twice -/

/-- What a successful `sys_page_alloc` did: the address passed the test, the
id resolved, a page was allocated and `page_insert` mapped it. -/
theorem sys_page_alloc_success {s : State} {envid va perm : Nat}
    (h : (sys_page_alloc s envid va perm).1 = 0) :
    va_rejected va = false ∧
    ∃ e p s0, envid2env s envid true = Except.ok e ∧ page_alloc s = some (p, s0) ∧
      ¬ (page_insert s0 e p va perm).1 < 0 ∧
      (sys_page_alloc s envid va perm).2 = (page_insert s0 e p va perm).2 := by
  have hne : (-E_INVAL : Int) ≠ 0 := by decide
  have hnm : (-E_NO_MEM : Int) ≠ 0 := by decide
  unfold sys_page_alloc at h ⊢
  by_cases hva : va_rejected va = true
  · simp only [if_pos hva] at h
    exact absurd h hne
  · simp only [if_neg hva] at h ⊢
    refine ⟨by simpa using hva, ?_⟩
    by_cases hp : perm_rejected perm = true
    · simp only [if_pos hp] at h
      exact absurd h hne
    · simp only [if_neg hp] at h ⊢
      cases he : envid2env s envid true with
      | error r =>
        simp only [he] at h
        have hr := envid2env_error s envid true r he
        subst hr
        exact absurd h (by decide)
      | ok e =>
        simp only [he] at h ⊢
        cases ha : page_alloc s with
        | none =>
          simp only [ha] at h
          exact absurd h hnm
        | some r =>
          obtain ⟨p, s0⟩ := r
          simp only [ha] at h ⊢
          by_cases hi : (page_insert s0 e p va perm).1 < 0
          · simp only [if_pos hi] at h
            rw [h] at hi
            exact absurd hi (by decide)
          · simp only [if_neg hi]
            exact ⟨e, p, s0, rfl, rfl, hi, rfl⟩

/-- C8: after a successful `sys_page_alloc(envid, va, perm)` (so `envid`
resolves, `va` is page-aligned below `UTOP` and `perm` passed the test) the
page is mapped at `va`; `sys_page_unmap(envid, va)` returns 0, a second
`sys_page_unmap(envid, va)` returns 0 as well, nothing is mapped at `va` in
that environment afterwards, and the state after the second unmap is the
state after the first. -/
theorem sys_page_unmap_idempotent (s : State) (envid va perm e : Nat)
    (he : envid2env s envid true = Except.ok e)
    (ha : (sys_page_alloc s envid va perm).1 = 0) :
    (∃ p, page_lookup (sys_page_alloc s envid va perm).2 e va = some ⟨p, perm⟩) ∧
    (sys_page_unmap (sys_page_alloc s envid va perm).2 envid va).1 = 0 ∧
    (sys_page_unmap (sys_page_unmap (sys_page_alloc s envid va perm).2 envid va).2 envid va).1
      = 0 ∧
    page_lookup
      (sys_page_unmap (sys_page_unmap (sys_page_alloc s envid va perm).2 envid va).2 envid va).2
      e va = none ∧
    (sys_page_unmap (sys_page_unmap (sys_page_alloc s envid va perm).2 envid va).2 envid va).2
      = (sys_page_unmap (sys_page_alloc s envid va perm).2 envid va).2 := by
  obtain ⟨hva, e', p, s0, he', hp, hi, hst⟩ := sys_page_alloc_success ha
  rw [he] at he'
  cases he'
  obtain ⟨hc, henvs, _⟩ := page_alloc_some hp
  have hf1 : pgdirFrame s (sys_page_alloc s envid va perm).2 := by
    rw [hst]
    exact pgdirFrame_trans (pgdirFrame_of_envs hc henvs) (page_insert_frame _ _ _ _ _)
  have he1 : envid2env (sys_page_alloc s envid va perm).2 envid true = Except.ok e := by
    rw [envid2env_frame hf1, he]
  have hu1 : sys_page_unmap (sys_page_alloc s envid va perm).2 envid va
      = (0, page_remove (sys_page_alloc s envid va perm).2 e va) := by
    unfold sys_page_unmap
    simp only [hva, he1]
    rfl
  have he2 : envid2env (page_remove (sys_page_alloc s envid va perm).2 e va) envid true
      = Except.ok e := by
    rw [envid2env_frame (page_remove_frame _ _ _), he1]
  have hnone : page_lookup (page_remove (sys_page_alloc s envid va perm).2 e va) e va = none := by
    rw [page_lookup_page_remove]
    simp
  have hu2 : sys_page_unmap (page_remove (sys_page_alloc s envid va perm).2 e va) envid va
      = (0, page_remove (sys_page_alloc s envid va perm).2 e va) := by
    unfold sys_page_unmap
    simp only [hva, he2]
    rw [page_remove_unmapped _ _ _ hnone]
    rfl
  refine ⟨⟨p, ?_⟩, ?_, ?_, ?_, ?_⟩
  · rw [hst, (page_insert_ok hi).2]
    simp
  · rw [hu1]
  · rw [hu1]
    simp only
    rw [hu2]
  · rw [hu1]
    simp only
    rw [hu2]
    exact hnone
  · rw [hu1]
    simp only
    rw [hu2]

/-- Witness for C8 on `ipcState`: the sender allocates a page at `0x5000`
and unmaps it twice. -/
theorem sys_page_unmap_idempotent_witness :
    envid2env ipcState 0x1000 true = Except.ok 0 ∧
    (sys_page_alloc ipcState 0x1000 0x5000 (PTE_U ||| PTE_P ||| PTE_W)).1 = 0 ∧
    (sys_page_unmap (sys_page_unmap
      (sys_page_alloc ipcState 0x1000 0x5000 (PTE_U ||| PTE_P ||| PTE_W)).2
      0x1000 0x5000).2 0x1000 0x5000).1 = 0 ∧
    page_lookup (sys_page_unmap (sys_page_unmap
      (sys_page_alloc ipcState 0x1000 0x5000 (PTE_U ||| PTE_P ||| PTE_W)).2
      0x1000 0x5000).2 0x1000 0x5000).2 0 0x5000 = none :=
  ⟨rfl, by decide,
    (sys_page_unmap_idempotent ipcState 0x1000 0x5000 (PTE_U ||| PTE_P ||| PTE_W) 0 rfl
      (by decide)).2.2.1,
    (sys_page_unmap_idempotent ipcState 0x1000 0x5000 (PTE_U ||| PTE_P ||| PTE_W) 0 rfl
      (by decide)).2.2.2.1⟩

/-! ## C9: no page is leaked when the mapping fails -/

/-- C9: when the arguments pass the tests, the id resolves, `page_alloc`
succeeds (yielding page `p`) and `page_insert` then fails, `sys_page_alloc`
returns `page_insert`'s negative error code and hands `p` back with
`page_free`: the free list after the call is the free list before it, and
indeed the whole state is as before. -/
theorem sys_page_alloc_no_leak (s s1 : State) (envid va perm e p : Nat)
    (hva : va < UTOP ∧ va % PGSIZE = 0)
    (hperm : perm &&& (PTE_U ||| PTE_P) ≠ 0 ∧ perm &&& not32 PTE_SYSCALL = 0)
    (he : envid2env s envid true = Except.ok e)
    (hp : page_alloc s = some (p, s1))
    (hi : (page_insert s1 e p va perm).1 < 0) :
    (sys_page_alloc s envid va perm).1 = (page_insert s1 e p va perm).1 ∧
    (sys_page_alloc s envid va perm).1 < 0 ∧
    (sys_page_alloc s envid va perm).2 = page_free (page_insert s1 e p va perm).2 p ∧
    (sys_page_alloc s envid va perm).2.page_free_list = s.page_free_list ∧
    (sys_page_alloc s envid va perm).2 = s := by
  have h1 : va_rejected va = false := by
    simp [va_rejected, land_fff_eq_mod, hva.1, hva.2]
  have h2 : perm_rejected perm = false := by
    simp [perm_rejected, hperm.1, hperm.2]
  have hres : sys_page_alloc s envid va perm
      = ((page_insert s1 e p va perm).1, page_free (page_insert s1 e p va perm).2 p) := by
    unfold sys_page_alloc
    simp only [h1, h2, he, hp, if_pos hi]
    rfl
  have hback : page_free (page_insert s1 e p va perm).2 p = s := by
    rw [page_insert_fail hi]
    exact (page_alloc_some hp).2.2
  rw [hres]
  exact ⟨rfl, hi, rfl, by rw [hback], hback⟩

/-- Witness for C9 on `onePageState`, where one physical page (30) is free
and no page table covers `0x400000` in the sender's address space: the page
is allocated, the page table cannot be, and page 30 is free again. -/
theorem sys_page_alloc_no_leak_witness :
    page_alloc onePageState = some (30, { onePageState with page_free_list := [] }) ∧
    (page_insert { onePageState with page_free_list := [] } 0 30 0x400000 (PTE_U ||| PTE_P)).1
      < 0 ∧
    (sys_page_alloc onePageState 0x1000 0x400000 (PTE_U ||| PTE_P)).1 = -E_NO_MEM ∧
    (sys_page_alloc onePageState 0x1000 0x400000 (PTE_U ||| PTE_P)).2.page_free_list = [30] :=
  ⟨rfl, by decide, by decide,
    (sys_page_alloc_no_leak onePageState { onePageState with page_free_list := [] }
      0x1000 0x400000 (PTE_U ||| PTE_P) 0 30 (by decide) (by decide) rfl rfl
      (by decide)).2.2.2.1⟩

/-! ## C11: what a successful send leaves in the target -/

/-- The shape of `sys_ipc_try_send` once the target resolved and is
receiving: the four assignments yield a state `s4` that differs from `s` in
the target's `env_ipc_recving`, `env_ipc_from`, `env_ipc_value` and
`env_ipc_perm` only, and the rest of the handler runs on `s4`. -/
theorem sys_ipc_try_send_receiving {s : State} {envid e : Nat} (value srcva perm : Nat)
    (he : envid2env s envid false = Except.ok e)
    (hr : ¬ (s.envs e).env_ipc_recving = 0) :
    ∃ s4 : State,
      s4.curenv = s.curenv ∧ s4.pp_ref = s.pp_ref ∧ s4.page_free_list = s.page_free_list ∧
      s4.envs e = { s.envs e with
        env_ipc_recving := 0, env_ipc_from := (s.envs s.curenv).env_id,
        env_ipc_value := value, env_ipc_perm := 0 } ∧
      (∀ j, j ≠ e → s4.envs j = s.envs j) ∧
      sys_ipc_try_send s envid value srcva perm =
        if srcva < UTOP ∧ (s4.envs e).env_ipc_dstva < UTOP then
          if srcva &&& 0xFFF ≠ 0 then (-E_INVAL, s4)
          else if perm_rejected perm then (-E_INVAL, s4)
          else
            match page_lookup s4 s4.curenv srcva with
            | none => (-E_INVAL, s4)
            | some ptEntry =>
              if perm &&& PTE_W ≠ 0 ∧ ptEntry.perm &&& PTE_W = 0 then (-E_INVAL, s4)
              else
                let r := page_insert s4 e ptEntry.pp (s4.envs e).env_ipc_dstva perm
                if r.1 < 0 then (r.1, r.2)
                else
                  let s5 := r.2.setEnv e { r.2.envs e with env_ipc_perm := perm }
                  (0, s5.setEnv e { s5.envs e with env_status := ENV_RUNNABLE })
        else
          (0, s4.setEnv e { s4.envs e with env_status := ENV_RUNNABLE }) := by
  unfold sys_ipc_try_send
  simp -zeta only [he, if_neg hr]
  refine ⟨_, ?_, ?_, ?_, ?_, ?_, rfl⟩
  · rfl
  · rfl
  · rfl
  · simp only [setEnv_envs, if_true, setEnv_curenv]
    by_cases hc : s.curenv = e
    · simp only [hc, if_true]
    · simp only [hc, if_false]
  · intro j hj
    simp only [setEnv_envs, if_neg hj]

theorem sys_ipc_try_send_not_receiving_aux {s : State} {envid value srcva perm e : Nat}
    (he : envid2env s envid false = Except.ok e)
    (hr : (s.envs e).env_ipc_recving = 0) :
    sys_ipc_try_send s envid value srcva perm = (-E_IPC_NOT_RECV, s) := by
  unfold sys_ipc_try_send
  simp [he, hr]

theorem page_lookup_of_pgdir {s s' : State} {e : Nat}
    (h : (s'.envs e).env_pgdir = (s.envs e).env_pgdir) (va : Nat) :
    page_lookup s' e va = page_lookup s e va := by
  unfold page_lookup
  rw [h]

/-- C11: when the target id resolves and `sys_ipc_try_send` returns 0, the
target has `env_ipc_recving = 0`, `env_ipc_from` the id of the sender (the
running environment), `env_ipc_value = value` and status `ENV_RUNNABLE`. If
`srcva < UTOP` and the target's `env_ipc_dstva < UTOP`, then
`env_ipc_perm = perm`, the sender mapped some physical page at `srcva`, the
target maps that page at its `env_ipc_dstva` with permission `perm`, and the
sender still maps that page at `srcva`. Otherwise `env_ipc_perm = 0` and no
address space changes. -/
theorem sys_ipc_try_send_success (s : State) (envid value srcva perm e : Nat)
    (he : envid2env s envid false = Except.ok e)
    (h0 : (sys_ipc_try_send s envid value srcva perm).1 = 0) :
    (((sys_ipc_try_send s envid value srcva perm).2.envs e).env_ipc_recving = 0 ∧
      ((sys_ipc_try_send s envid value srcva perm).2.envs e).env_ipc_from
        = (s.envs s.curenv).env_id ∧
      ((sys_ipc_try_send s envid value srcva perm).2.envs e).env_ipc_value = value ∧
      ((sys_ipc_try_send s envid value srcva perm).2.envs e).env_status = ENV_RUNNABLE) ∧
    (srcva < UTOP ∧ (s.envs e).env_ipc_dstva < UTOP →
      ((sys_ipc_try_send s envid value srcva perm).2.envs e).env_ipc_perm = perm ∧
      ∃ pp, (page_lookup s s.curenv srcva).map Pte.pp = some pp ∧
        page_lookup (sys_ipc_try_send s envid value srcva perm).2 e (s.envs e).env_ipc_dstva
          = some ⟨pp, perm⟩ ∧
        (page_lookup (sys_ipc_try_send s envid value srcva perm).2 s.curenv srcva).map Pte.pp
          = some pp) ∧
    (¬ (srcva < UTOP ∧ (s.envs e).env_ipc_dstva < UTOP) →
      ((sys_ipc_try_send s envid value srcva perm).2.envs e).env_ipc_perm = 0 ∧
      ∀ i, ((sys_ipc_try_send s envid value srcva perm).2.envs i).env_pgdir
        = (s.envs i).env_pgdir) := by
  have hne : (-E_INVAL : Int) ≠ 0 := by decide
  by_cases hr : (s.envs e).env_ipc_recving = 0
  · rw [sys_ipc_try_send_not_receiving_aux he hr] at h0
    have hnr : (-E_IPC_NOT_RECV : Int) ≠ 0 := by decide
    exact absurd h0 hnr
  obtain ⟨s4, hc, _, _, h4, ho, heq⟩ := sys_ipc_try_send_receiving value srcva perm he hr
  have hd4 : (s4.envs e).env_ipc_dstva = (s.envs e).env_ipc_dstva := by rw [h4]
  have hpd4 : ∀ i, (s4.envs i).env_pgdir = (s.envs i).env_pgdir := by
    intro i
    by_cases hi : i = e
    · subst hi
      rw [h4]
    · rw [ho i hi]
  rw [heq] at h0 ⊢
  rw [hd4] at h0 ⊢
  by_cases hboth : srcva < UTOP ∧ (s.envs e).env_ipc_dstva < UTOP
  · simp only [if_pos hboth] at h0 ⊢
    by_cases ha : srcva &&& 0xFFF ≠ 0
    · simp only [if_pos ha] at h0
      exact absurd h0 hne
    simp only [if_neg ha] at h0 ⊢
    by_cases hp : perm_rejected perm = true
    · simp only [if_pos hp] at h0
      exact absurd h0 hne
    simp only [if_neg hp] at h0 ⊢
    cases hl : page_lookup s4 s4.curenv srcva with
    | none =>
      simp only [hl] at h0
      exact absurd h0 hne
    | some ent =>
      simp only [hl] at h0 ⊢
      by_cases hw : perm &&& PTE_W ≠ 0 ∧ ent.perm &&& PTE_W = 0
      · simp only [if_pos hw] at h0
        exact absurd h0 hne
      simp only [if_neg hw] at h0 ⊢
      by_cases hi : (page_insert s4 e ent.pp (s.envs e).env_ipc_dstva perm).1 < 0
      · simp only [if_pos hi] at h0
        rw [h0] at hi
        exact absurd hi (by decide)
      simp only [if_neg hi]
      obtain ⟨_, hlook⟩ := page_insert_ok hi
      obtain ⟨_, hfr⟩ := page_insert_frame s4 e ent.pp (s.envs e).env_ipc_dstva perm
      obtain ⟨pd, hpd⟩ := hfr e
      have hsrc : page_lookup s s.curenv srcva = some ent := by
        rw [← hl, hc]
        exact (page_lookup_of_pgdir (hpd4 s.curenv) srcva).symm
      refine ⟨?_, fun _ => ⟨?_, ent.pp, ?_, ?_, ?_⟩, fun hn => absurd hboth hn⟩
      · simp only [setEnv_envs, if_true, hpd, h4]
        exact ⟨trivial, trivial, trivial, trivial⟩
      · simp only [setEnv_envs, if_true]
      · rw [hsrc]
        rfl
      · rw [← hlook e (s.envs e).env_ipc_dstva |>.trans (if_pos ⟨rfl, rfl⟩)]
        apply page_lookup_of_pgdir
        simp only [setEnv_envs, if_true]
      · have hfin : page_lookup
            (((page_insert s4 e ent.pp (s.envs e).env_ipc_dstva perm).2.setEnv e
              { (page_insert s4 e ent.pp (s.envs e).env_ipc_dstva perm).2.envs e with
                env_ipc_perm := perm }).setEnv e
              { (((page_insert s4 e ent.pp (s.envs e).env_ipc_dstva perm).2.setEnv e
                  { (page_insert s4 e ent.pp (s.envs e).env_ipc_dstva perm).2.envs e with
                    env_ipc_perm := perm }).envs e) with env_status := ENV_RUNNABLE })
            s.curenv srcva
            = page_lookup (page_insert s4 e ent.pp (s.envs e).env_ipc_dstva perm).2
                s.curenv srcva := by
          apply page_lookup_of_pgdir
          by_cases hce : s.curenv = e
          · simp only [setEnv_envs, hce, if_true]
          · simp only [setEnv_envs, if_neg hce]
        rw [hfin, hlook]
        split_ifs
        · rfl
        · rw [← hc, hl]
          rfl
  · simp only [if_neg hboth]
    refine ⟨?_, fun h => absurd h hboth, fun _ => ⟨?_, fun i => ?_⟩⟩
    · simp only [setEnv_envs, if_true, h4]
      exact ⟨trivial, trivial, trivial, trivial⟩
    · simp only [setEnv_envs, if_true, h4]
    · by_cases hie : i = e
      · subst hie
        simp only [setEnv_envs, if_true, h4]
      · simp only [setEnv_envs, if_neg hie, ho i hie]

/-- Witness for C11 on `ipcState`: the sender's page-offering send to the
blocked receiver returns 0 and the receiver holds the value 42. -/
theorem sys_ipc_try_send_success_witness :
    envid2env ipcState 0x1001 false = Except.ok 1 ∧
    (sys_ipc_try_send ipcState 0x1001 42 0x1000 (PTE_U ||| PTE_P)).1 = 0 ∧
    ((sys_ipc_try_send ipcState 0x1001 42 0x1000 (PTE_U ||| PTE_P)).2.envs 1).env_ipc_value = 42 ∧
    ((sys_ipc_try_send ipcState 0x1001 42 0x1000 (PTE_U ||| PTE_P)).2.envs 1).env_ipc_perm
      = (PTE_U ||| PTE_P) :=
  ⟨rfl, by decide,
    (sys_ipc_try_send_success ipcState 0x1001 42 0x1000 (PTE_U ||| PTE_P) 1 rfl
      (by decide)).1.2.2.1,
    ((sys_ipc_try_send_success ipcState 0x1001 42 0x1000 (PTE_U ||| PTE_P) 1 rfl
      (by decide)).2.1 (by decide)).1⟩

/-! ## C12: a receive with a misaligned destination -/

/-- C12 (defect in the code): `sys_ipc_recv` sets `env_ipc_recving = 1`
before it tests the alignment of `dstva`. On `recvState` the running receiver
(a NORMAL environment with `env_ipc_recving = 0`) calls `sys_ipc_recv(0x2001)`:
the call returns `-E_INVAL` without yielding and leaves `env_ipc_dstva` and
the status as they were, but the receiver's `env_ipc_recving` flag is now 1
although it is not blocked; a later `sys_ipc_try_send` to it returns 0
instead of `-E_IPC_NOT_RECV`. -/
theorem sys_ipc_recv_misaligned_sets_recving :
    (recvState.envs recvState.curenv).env_type = EnvType.ENV_TYPE_USER ∧
    (recvState.envs 1).env_ipc_recving = 0 ∧
    (sys_ipc_recv recvState 0x2001).1 = some (-E_INVAL) ∧
    ((sys_ipc_recv recvState 0x2001).2.envs 1).env_ipc_recving = 1 ∧
    ((sys_ipc_recv recvState 0x2001).2.envs 1).env_ipc_dstva = (recvState.envs 1).env_ipc_dstva ∧
    ((sys_ipc_recv recvState 0x2001).2.envs 1).env_status = ENV_RUNNING ∧
    (sys_ipc_try_send ((sys_ipc_recv recvState 0x2001).2.resume 0) 0x1001 9 UTOP 0).1 = 0 := by
  decide

/-! ## C13: setting a priority -/

/-- C13: for every bounds `ENV_PR_HIGHEST`, `ENV_PR_LOWEST`, every state and
every id (whether or not it resolves), `sys_env_set_priority` with a priority
below the first or above the second returns `-E_INVAL` and leaves the state
unchanged; with a priority within the range and an id that resolves to slot
`e` it returns 0, sets the `env_priority` of that environment to the value,
leaves its other fields and every other environment unchanged, and changes
nothing else in the state. -/
theorem sys_env_set_priority_spec (lo hi : Int) (s : State) (envid : Nat) (priority : Int) :
    (priority < lo ∨ priority > hi →
      sys_env_set_priority lo hi s envid priority = (-E_INVAL, s)) ∧
    (∀ e, envid2env s envid true = Except.ok e → lo ≤ priority ∧ priority ≤ hi →
      (sys_env_set_priority lo hi s envid priority).1 = 0 ∧
      ((sys_env_set_priority lo hi s envid priority).2.envs e).env_priority = priority ∧
      { (sys_env_set_priority lo hi s envid priority).2.envs e with
          env_priority := (s.envs e).env_priority } = s.envs e ∧
      (∀ i, i ≠ e → (sys_env_set_priority lo hi s envid priority).2.envs i = s.envs i) ∧
      (sys_env_set_priority lo hi s envid priority).2.curenv = s.curenv ∧
      (sys_env_set_priority lo hi s envid priority).2.pp_ref = s.pp_ref ∧
      (sys_env_set_priority lo hi s envid priority).2.page_free_list = s.page_free_list ∧
      (sys_env_set_priority lo hi s envid priority).2.sc_pgnum = s.sc_pgnum ∧
      (sys_env_set_priority lo hi s envid priority).2.scpages = s.scpages) := by
  constructor
  · intro h
    unfold sys_env_set_priority
    rw [if_pos h]
  · rintro e he ⟨h1, h2⟩
    have hin : ¬ (priority < lo ∨ priority > hi) := by
      rintro (h | h)
      · exact absurd h1 (not_le.mpr h)
      · exact absurd h2 (not_le.mpr h)
    unfold sys_env_set_priority
    simp only [if_neg hin, he]
    refine ⟨trivial, ?_, ?_, ?_, rfl, rfl, rfl, rfl, rfl⟩
    · simp only [setEnv_envs, if_true]
    · simp only [setEnv_envs, if_true]
    · intro i hi
      simp only [setEnv_envs, if_neg hi]

/-- Witness for C13 on `ipcState` with the bounds 0 and 3: priority 4 is
rejected for the sender's own id and for the id `0x2005` that names no
environment, priority 2 is stored for the sender's own id. -/
theorem sys_env_set_priority_spec_witness :
    envid2env ipcState 0x1000 true = Except.ok 0 ∧
    envid2env ipcState 0x2005 true = Except.error (-E_BAD_ENV) ∧
    sys_env_set_priority 0 3 ipcState 0x1000 4 = (-E_INVAL, ipcState) ∧
    sys_env_set_priority 0 3 ipcState 0x2005 4 = (-E_INVAL, ipcState) ∧
    (sys_env_set_priority 0 3 ipcState 0x1000 2).1 = 0 ∧
    ((sys_env_set_priority 0 3 ipcState 0x1000 2).2.envs 0).env_priority = 2 :=
  ⟨rfl, rfl,
    (sys_env_set_priority_spec 0 3 ipcState 0x1000 4).1 (by decide),
    (sys_env_set_priority_spec 0 3 ipcState 0x2005 4).1 (by decide),
    ((sys_env_set_priority_spec 0 3 ipcState 0x1000 2).2 0 rfl (by decide)).1,
    ((sys_env_set_priority_spec 0 3 ipcState 0x1000 2).2 0 rfl (by decide)).2.1⟩

/-! ## C19: a permission bit outside `PTE_SYSCALL` -/

/-- A 32-bit mask with a bit set that `PTE_SYSCALL` does not have is rejected
by the permission test. -/
theorem perm_rejected_of_bit {perm i : Nat} (hi : i < 32)
    (hbit : perm.testBit i = true) (hout : PTE_SYSCALL.testBit i = false) :
    perm_rejected perm = true := by
  have hall : (0xFFFFFFFF : Nat).testBit i = true := by
    interval_cases i <;> rfl
  have hm : (perm &&& not32 PTE_SYSCALL).testBit i = true := by
    unfold not32
    rw [Nat.testBit_and, Nat.testBit_xor, hbit, hout, hall]
    rfl
  have hne : perm &&& not32 PTE_SYSCALL ≠ 0 := by
    intro h0
    rw [h0] at hm
    simp at hm
  unfold perm_rejected
  simp [hne]

/-- C19: let `perm` have a bit set (among the 32 of a machine word) that is
not in `PTE_SYSCALL`. Then `sys_page_alloc`, for every id and address,
returns `-E_INVAL` and leaves the state unchanged; `sys_page_map` with two
ids that resolve returns `-E_INVAL` and leaves the state unchanged (whether
or not the addresses are valid and the source is mapped); and
`sys_ipc_try_send` to a receiving target with `srcva < UTOP` and the target's
`env_ipc_dstva < UTOP` (a page transfer) returns `-E_INVAL` and changes no
address space. -/
theorem perm_outside_syscall_rejected (s : State) (perm i : Nat)
    (hi : i < 32) (hbit : perm.testBit i = true) (hout : PTE_SYSCALL.testBit i = false) :
    (∀ envid va, sys_page_alloc s envid va perm = (-E_INVAL, s)) ∧
    (∀ srcenvid srcva dstenvid dstva srce dste,
      envid2env s srcenvid true = Except.ok srce →
      envid2env s dstenvid true = Except.ok dste →
      sys_page_map s srcenvid srcva dstenvid dstva perm = (-E_INVAL, s)) ∧
    (∀ tgt value sva e,
      envid2env s tgt false = Except.ok e →
      (s.envs e).env_ipc_recving ≠ 0 →
      sva < UTOP → (s.envs e).env_ipc_dstva < UTOP →
      (sys_ipc_try_send s tgt value sva perm).1 = -E_INVAL ∧
      (∀ j, ((sys_ipc_try_send s tgt value sva perm).2.envs j).env_pgdir
        = (s.envs j).env_pgdir) ∧
      (sys_ipc_try_send s tgt value sva perm).2.pp_ref = s.pp_ref ∧
      (sys_ipc_try_send s tgt value sva perm).2.page_free_list = s.page_free_list) := by
  have hp := perm_rejected_of_bit hi hbit hout
  refine ⟨?_, ?_, ?_⟩
  · intro envid va
    unfold sys_page_alloc
    by_cases hva : va_rejected va = true
    · rw [if_pos hva]
    · rw [if_neg hva, if_pos hp]
  · intro srcenvid srcva dstenvid dstva srce dste hs hd
    unfold sys_page_map
    simp only [hs, hd]
    by_cases hva : (va_rejected srcva || va_rejected dstva) = true
    · rw [if_pos hva]
    · rw [if_neg hva]
      cases page_lookup s srce srcva with
      | none => rfl
      | some ent =>
        simp only
        rw [if_pos hp]
  · intro tgt value sva e ht hrecv hsva hdva
    obtain ⟨s4, _, hr4, hf4, h4, ho, heq⟩ := sys_ipc_try_send_receiving value sva perm ht hrecv
    have hd4 : (s4.envs e).env_ipc_dstva = (s.envs e).env_ipc_dstva := by rw [h4]
    have hres : sys_ipc_try_send s tgt value sva perm = (-E_INVAL, s4) := by
      rw [heq, hd4, if_pos ⟨hsva, hdva⟩]
      by_cases ha : sva &&& 0xFFF ≠ 0
      · rw [if_pos ha]
      · rw [if_neg ha, if_pos hp]
    rw [hres]
    refine ⟨rfl, fun j => ?_, hr4, hf4⟩
    by_cases hj : j = e
    · subst hj
      simp only [h4]
    · simp only [ho j hj]

/-- Witness for C19 on `ipcState` with the mask `PTE_U | PTE_P | 0x8`, whose
bit 3 is outside `PTE_SYSCALL`: the allocation is rejected also for the id
`0x2005` that names no environment. -/
theorem perm_outside_syscall_rejected_witness :
    (PTE_U ||| PTE_P ||| 0x8).testBit 3 = true ∧ PTE_SYSCALL.testBit 3 = false ∧
    envid2env ipcState 0x1001 false = Except.ok 1 ∧
    (ipcState.envs 1).env_ipc_recving ≠ 0 ∧
    sys_page_alloc ipcState 0x1000 0x5000 (PTE_U ||| PTE_P ||| 0x8) = (-E_INVAL, ipcState) ∧
    sys_page_alloc ipcState 0x2005 0x5000 (PTE_U ||| PTE_P ||| 0x8) = (-E_INVAL, ipcState) ∧
    sys_page_map ipcState 0x1000 0x1000 0x1001 0x2000 (PTE_U ||| PTE_P ||| 0x8)
      = (-E_INVAL, ipcState) ∧
    (sys_ipc_try_send ipcState 0x1001 42 0x1000 (PTE_U ||| PTE_P ||| 0x8)).1 = -E_INVAL :=
  ⟨by decide, by decide, rfl, by decide,
    (perm_outside_syscall_rejected ipcState (PTE_U ||| PTE_P ||| 0x8) 3
      (by decide) (by decide) (by decide)).1 0x1000 0x5000,
    (perm_outside_syscall_rejected ipcState (PTE_U ||| PTE_P ||| 0x8) 3
      (by decide) (by decide) (by decide)).1 0x2005 0x5000,
    (perm_outside_syscall_rejected ipcState (PTE_U ||| PTE_P ||| 0x8) 3
      (by decide) (by decide) (by decide)).2.1 0x1000 0x1000 0x1001 0x2000 0 1 rfl rfl,
    ((perm_outside_syscall_rejected ipcState (PTE_U ||| PTE_P ||| 0x8) 3
      (by decide) (by decide) (by decide)).2.2 0x1001 42 0x1000 1
      rfl (by decide) (by decide) (by decide)).1⟩

/-! ## C14: an unknown syscall number -/

/-- C14: for every numbering of the twenty opcodes, every syscall number
that is none of them and all five arguments, `syscall` returns `-E_INVAL`
and the state is unchanged: the `default` branch returns at once, no handler
runs. -/
theorem syscall_unknown_number (K : Collab) (s : State) (syscallno a1 a2 a3 a4 a5 : Nat)
    (h : K.sysno syscallno = none) :
    syscall K s syscallno a1 a2 a3 a4 a5 = (some (-E_INVAL), s) := by
  unfold syscall
  rw [h]

/-- Witness for C14: number 20 under the numbering `testSysno`. -/
theorem syscall_unknown_number_witness :
    testK.sysno 20 = none ∧
    syscall testK procState 20 1 2 3 4 5 = (some (-E_INVAL), procState) :=
  ⟨rfl, syscall_unknown_number testK procState 20 1 2 3 4 5 rfl⟩

/-! ## C15: the worker's scan of its syscall page -/

/-- While no entry is SUBMITTED the loop changes nothing and `entry` moves on
by one per pass: after `n` passes it stands `n` entries further. -/
theorem scthread_task_from_idle (K : Collab) (k : Nat) (s : State)
    (hfree : ∀ i, (s.scpages k i).status ≠ FSC_SUBMITTED) (n i : Nat) :
    scthread_task_from K k n s i = (s, some (i + n)) := by
  induction n generalizing i with
  | zero => rfl
  | succ n ih =>
    unfold scthread_task_from scthread_task_step
    simp only [if_neg (hfree i)]
    rw [ih (i + 1)]
    congr 2
    omega

/-- C15 (defect in the code): the loop of `scthread_task` only ever executes
`entry++`; nothing takes `entry` back to the first entry. On `procState`,
where every entry is FREE, the entry inspected by pass number `n` (counting
from 0) stands `n` entries after the start of the page, for every `n` and
every page size `NSCENTRIES`: pass number `NSCENTRIES` inspects position
`NSCENTRIES`, which is past the last entry of the page, not position 0. -/
theorem scthread_task_runs_off_the_page (K : Collab) (k n : Nat) :
    scthread_task K procState k n = (procState, some n) ∧
    (scthread_task K procState k K.NSCENTRIES).2 = some K.NSCENTRIES ∧
    ¬ K.NSCENTRIES < K.NSCENTRIES := by
  have hfree : ∀ i, (procState.scpages k i).status ≠ FSC_SUBMITTED := by
    intro i
    show (0 : Nat) ≠ 1
    decide
  have h := scthread_task_from_idle K k procState hfree
  unfold scthread_task
  refine ⟨?_, ?_, lt_irrefl _⟩
  · rw [h n 0, Nat.zero_add]
  · rw [h K.NSCENTRIES 0, Nat.zero_add]

/-! ## C17: destroying an environment and its linked partner -/

/-- C17: `sys_env_destroy` fails to destroy the environment it is given. In
`workerState`, after the scheduler resumed the process (slot 0, the running
environment), the process names its worker `0x1001` (slot 1, its child, whose
link is the process). The id resolves, and `env_destroy` is called first on
the link of the worker, which is the caller: that call destroys the running
environment and does not return. The handler returns nothing, the process is
FREE, and the worker, the environment that was to be destroyed, is never
passed to `env_destroy`: it is left exactly as it was, not FREE, its link
still naming the slot of the destroyed process, and its id still resolves. -/
theorem sys_env_destroy_spares_named_worker :
    (workerState.resume 0).curenv = 0 ∧
    ((workerState.resume 0).envs 0).env_id = 0x1000 ∧
    ((workerState.resume 0).envs 0).link = some 1 ∧
    ((workerState.resume 0).envs 1).env_parent_id = 0x1000 ∧
    ((workerState.resume 0).envs 1).link = some 0 ∧
    envid2env (workerState.resume 0) 0x1001 true = Except.ok 1 ∧
    (sys_env_destroy env_destroy (workerState.resume 0) 0x1001).1 = none ∧
    ((sys_env_destroy env_destroy (workerState.resume 0) 0x1001).2.envs 0).env_status
      = ENV_FREE ∧
    (sys_env_destroy env_destroy (workerState.resume 0) 0x1001).2.envs 1
      = (workerState.resume 0).envs 1 ∧
    ((sys_env_destroy env_destroy (workerState.resume 0) 0x1001).2.envs 1).env_status
      ≠ ENV_FREE ∧
    ((sys_env_destroy env_destroy (workerState.resume 0) 0x1001).2.envs 1).link = some 0 ∧
    envid2env (sys_env_destroy env_destroy (workerState.resume 0) 0x1001).2 0x1001 false
      = Except.ok 1 := by
  refine ⟨rfl, rfl, rfl, rfl, rfl, rfl, ?_, ?_, ?_, ?_, ?_, ?_⟩
  · decide
  · decide
  · rfl
  · decide
  · rfl
  · rfl

/-! ## C20: the trap frame installed by `sys_env_set_trapframe` -/

/-- C20: when `sys_env_set_trapframe(envid, tf)` returns 0, `envid` resolved
(in the state left by the user-memory check, which is the state before the
call when the check passes) to an environment whose saved trap frame now has
`tf_cs = GD_UT | 3` and `tf_eflags` equal to the supplied flags with `FL_IF`
or-ed in: bit 9 (`FL_IF`) is set and every other bit is the supplied one.
Every other field of the frame is that of the frame supplied at `tf`,
whatever that frame is. -/
theorem sys_env_set_trapframe_spec (K : Collab) (s : State) (envid tf : Nat)
    (h0 : (sys_env_set_trapframe K s envid tf).1 = some 0) :
    ∃ e, envid2env (user_mem_assert K s s.curenv tf 68 PTE_U).1 envid true = Except.ok e ∧
      ((sys_env_set_trapframe K s envid tf).2.envs e).env_tf.tf_cs = GD_UT ||| 3 ∧
      ((sys_env_set_trapframe K s envid tf).2.envs e).env_tf.tf_eflags
        = (K.trapframe_at (user_mem_assert K s s.curenv tf 68 PTE_U).1 tf).tf_eflags ||| FL_IF ∧
      ((sys_env_set_trapframe K s envid tf).2.envs e).env_tf.tf_eflags.testBit 9 = true ∧
      (∀ i, i ≠ 9 →
        ((sys_env_set_trapframe K s envid tf).2.envs e).env_tf.tf_eflags.testBit i
          = (K.trapframe_at (user_mem_assert K s s.curenv tf 68 PTE_U).1 tf).tf_eflags.testBit i) ∧
      { ((sys_env_set_trapframe K s envid tf).2.envs e).env_tf with
          tf_cs := (K.trapframe_at (user_mem_assert K s s.curenv tf 68 PTE_U).1 tf).tf_cs
          tf_eflags := (K.trapframe_at (user_mem_assert K s s.curenv tf 68 PTE_U).1 tf).tf_eflags }
        = K.trapframe_at (user_mem_assert K s s.curenv tf 68 PTE_U).1 tf ∧
      (K.user_mem_check s s.curenv tf 68 (PTE_U ||| PTE_U) = true →
        (user_mem_assert K s s.curenv tf 68 PTE_U).1 = s) := by
  have hif : FL_IF = 2 ^ 9 := by decide
  unfold sys_env_set_trapframe at h0 ⊢
  by_cases ha : (user_mem_assert K s s.curenv tf 68 PTE_U).2 = true
  · simp only [ha, if_true] at h0 ⊢
    cases he : envid2env (user_mem_assert K s s.curenv tf 68 PTE_U).1 envid true with
    | error r =>
      simp only [he, Option.some.injEq] at h0
      have hr := envid2env_error _ _ _ _ he
      rw [hr] at h0
      exact absurd h0 (by decide)
    | ok e =>
      refine ⟨e, rfl, ?_, ?_, ?_, ?_, ?_, ?_⟩
      · simp only [setEnv_envs, if_true]
      · simp only [setEnv_envs, if_true]
      · simp only [setEnv_envs, if_true, Nat.testBit_or, hif, Nat.testBit_two_pow_self,
          Bool.or_true]
      · intro i hi
        simp only [setEnv_envs, if_true, Nat.testBit_or, hif]
        rw [Nat.testBit_two_pow_of_ne (Ne.symm hi), Bool.or_false]
      · simp only [setEnv_envs, if_true]
      · intro hm
        unfold user_mem_assert
        rw [if_pos hm]
  · simp only [ha] at h0
    simp at h0

/-- Witness for C20 on `procState`: the process installs for itself the
frame that `testK` supplies (code segment `0x8`, flags `0x46`); the saved
frame has code segment `GD_UT | 3` and flags `0x246`. -/
theorem sys_env_set_trapframe_spec_witness :
    (sys_env_set_trapframe testK procState 0x1000 0x800000).1 = some 0 ∧
    ((sys_env_set_trapframe testK procState 0x1000 0x800000).2.envs 0).env_tf.tf_cs
      = GD_UT ||| 3 ∧
    ((sys_env_set_trapframe testK procState 0x1000 0x800000).2.envs 0).env_tf.tf_eflags
      = 0x246 := by
  have h0 : (sys_env_set_trapframe testK procState 0x1000 0x800000).1 = some 0 := by decide
  obtain ⟨e, he, hcs, hfl, _⟩ := sys_env_set_trapframe_spec testK procState 0x1000 0x800000 h0
  have he0 : envid2env (user_mem_assert testK procState procState.curenv 0x800000 68 PTE_U).1
      0x1000 true = Except.ok 0 := rfl
  rw [he0] at he
  cases he
  exact ⟨h0, hcs, by rw [hfl]; rfl⟩

/-! ## C18: what `flexsc_register` establishes -/

theorem toInt32_of_lt {x : Nat} (h : x < 2 ^ 31) : toInt32 x = (x : Int) := by
  have h32 : x % 2 ^ 32 = x := Nat.mod_eq_of_lt (lt_trans h (by norm_num))
  unfold toInt32
  rw [h32, if_pos h]

theorem env_free_slot_some {s : State} {n i j : Nat} (h : env_free_slot s n i = some j) :
    i ≤ j ∧ j < i + n ∧ (s.envs j).env_status = ENV_FREE := by
  induction n generalizing i with
  | zero => simp [env_free_slot] at h
  | succ n ih =>
    unfold env_free_slot at h
    by_cases hf : (s.envs i).env_status = ENV_FREE
    · rw [if_pos hf] at h
      cases h
      exact ⟨le_refl _, by omega, hf⟩
    · rw [if_neg hf] at h
      obtain ⟨h1, h2, h3⟩ := ih h
      exact ⟨by omega, by omega, h3⟩

/-- The id `env_alloc` generates names the slot and is positive as an
`int32_t`. -/
theorem env_id_generated (x i : Nat) (hi : i < NENV) :
    ENVX ((if toInt32 ((x + 0x1000) % 2 ^ 32 &&& not32 (NENV - 1)) ≤ 0 then 0x1000
        else (x + 0x1000) % 2 ^ 32 &&& not32 (NENV - 1)) ||| i) = i ∧
    ((if toInt32 ((x + 0x1000) % 2 ^ 32 &&& not32 (NENV - 1)) ≤ 0 then 0x1000
        else (x + 0x1000) % 2 ^ 32 &&& not32 (NENV - 1)) ||| i) < 2 ^ 31 := by
  have hmask : not32 (NENV - 1) &&& (NENV - 1) = 0 := by decide
  have hi' : i &&& (NENV - 1) = i := by
    have h1 : NENV - 1 = 2 ^ 10 - 1 := by decide
    rw [h1, Nat.and_pow_two_sub_one_eq_mod]
    exact Nat.mod_eq_of_lt hi
  have hi31 : i < 2 ^ 31 := lt_trans hi (by decide)
  by_cases hg : toInt32 ((x + 0x1000) % 2 ^ 32 &&& not32 (NENV - 1)) ≤ 0
  · rw [if_pos hg]
    constructor
    · unfold ENVX
      rw [Nat.and_distrib_right, hi']
      have : (0x1000 : Nat) &&& (NENV - 1) = 0 := by decide
      rw [this, Nat.zero_or]
    · exact Nat.or_lt_two_pow (by norm_num) hi31
  · rw [if_neg hg]
    have hlt32 : (x + 0x1000) % 2 ^ 32 &&& not32 (NENV - 1) < 2 ^ 32 :=
      lt_of_le_of_lt Nat.and_le_left (Nat.mod_lt _ (by norm_num))
    have hlt31 : (x + 0x1000) % 2 ^ 32 &&& not32 (NENV - 1) < 2 ^ 31 := by
      by_contra hcon
      apply hg
      unfold toInt32
      rw [Nat.mod_eq_of_lt hlt32, if_neg hcon]
      have : (((x + 0x1000) % 2 ^ 32 &&& not32 (NENV - 1) : Nat) : Int) < 2 ^ 32 := by
        exact_mod_cast hlt32
      omega
    constructor
    · unfold ENVX
      rw [Nat.and_distrib_right, hi', Nat.and_assoc, hmask, Nat.and_zero, Nat.zero_or]
    · exact Nat.or_lt_two_pow hlt31 hi31

/-- What a successful `env_alloc` did: the slot it returns was FREE, only
that slot of the table changed, and the new id names the slot. -/
theorem env_alloc_ok {K : Collab} {s s1 : State} {pid e : Nat}
    (h : env_alloc K s pid = Except.ok (e, s1)) :
    (s.envs e).env_status = ENV_FREE ∧ s1.curenv = s.curenv ∧
    (∀ j, j ≠ e → s1.envs j = s.envs j) ∧
    ENVX (s1.envs e).env_id = e ∧ (s1.envs e).env_id < 2 ^ 31 ∧
    s1.sc_pgnum = s.sc_pgnum := by
  unfold env_alloc at h
  cases hf : env_free_slot s NENV 0 with
  | none => simp [hf] at h
  | some i =>
    simp only [hf] at h
    obtain ⟨_, hlt, hfree⟩ := env_free_slot_some hf
    rw [Nat.zero_add] at hlt
    cases hp : page_alloc s with
    | none => simp [hp] at h
    | some r =>
      obtain ⟨p, s0⟩ := r
      simp only [hp, Except.ok.injEq, Prod.mk.injEq] at h
      obtain ⟨rfl, rfl⟩ := h
      obtain ⟨hc, henvs, hpf⟩ := page_alloc_some hp
      have hgen := env_id_generated (s0.envs i).env_id i hlt
      have hsc : s0.sc_pgnum = s.sc_pgnum := by
        rw [← hpf]
        rfl
      refine ⟨hfree, hc, fun j hj => ?_, ?_, ?_, hsc⟩
      · simp only [setEnv_envs, if_neg hj, setRef_envs, henvs]
      · simp only [setEnv_envs, if_true, setRef_envs]
        exact hgen.1
      · simp only [setEnv_envs, if_true, setRef_envs]
        exact hgen.2

theorem env_alloc_error {K : Collab} {s : State} {pid : Nat} {r : Int}
    (h : env_alloc K s pid = Except.error r) : r < 0 := by
  unfold env_alloc at h
  cases hf : env_free_slot s NENV 0 with
  | none =>
    simp only [hf, Except.error.injEq] at h
    rw [← h]
    decide
  | some i =>
    simp only [hf] at h
    cases hp : page_alloc s with
    | none =>
      simp only [hp, Except.error.injEq] at h
      rw [← h]
      decide
    | some r0 =>
      obtain ⟨p, s0⟩ := r0
      simp [hp] at h

theorem setPgdir_envs_ne (s : State) (e : Nat) (pd : Pgdir) {j : Nat} (hj : j ≠ e) :
    (s.setPgdir e pd).envs j = s.envs j := by
  simp only [State.setPgdir, setEnv_envs, if_neg hj]

theorem page_remove_envs_ne (s : State) (e va : Nat) {j : Nat} (hj : j ≠ e) :
    (page_remove s e va).envs j = s.envs j := by
  unfold page_remove
  cases page_lookup s e va with
  | none => rfl
  | some ent =>
    simp only
    rw [setPgdir_envs_ne _ _ _ hj, page_decref_envs]

theorem pgdir_walk_envs_ne {s s1 : State} {e va : Nat} (h : pgdir_walk s e va = some s1)
    {j : Nat} (hj : j ≠ e) : s1.envs j = s.envs j := by
  unfold pgdir_walk at h
  cases hp : (s.envs e).env_pgdir.pde (PDX va) with
  | some t =>
    simp only [hp, Option.some.injEq] at h
    subst h
    rfl
  | none =>
    simp only [hp] at h
    cases ha : page_alloc s with
    | none => simp [ha] at h
    | some r =>
      obtain ⟨pt, s0⟩ := r
      simp only [ha, Option.some.injEq] at h
      subst h
      obtain ⟨_, he, _⟩ := page_alloc_some ha
      rw [setPgdir_envs_ne _ _ _ hj, setRef_envs, he]

/-- Mapping a page in one address space leaves every other environment as
it is. -/
theorem page_insert_envs_ne (s : State) (e pp va perm : Nat) {j : Nat} (hj : j ≠ e) :
    ((page_insert s e pp va perm).2.envs j) = s.envs j := by
  unfold page_insert
  cases hw : pgdir_walk s e va with
  | none => rfl
  | some s1 =>
    simp only
    rw [setPgdir_envs_ne _ _ _ hj, page_remove_envs_ne _ _ _ hj, setRef_envs,
      pgdir_walk_envs_ne hw hj]

theorem page_alloc_sc {s s1 : State} {p : Nat} (h : page_alloc s = some (p, s1)) :
    s1.sc_pgnum = s.sc_pgnum := by
  rw [← (page_alloc_some h).2.2]
  rfl

/-- The copying loop of `scthread_spawn` changes the thread's address space
only; an early return carries a negative value. -/
theorem scthread_copy_ok (parent e : Nat) (n : Nat) :
    ∀ (pn : Nat) (s : State) (perm : Nat),
      (∀ s2 perm2, scthread_copy parent e n pn s perm = Except.ok (s2, perm2) →
        pgdirFrame s s2 ∧ ∀ j, j ≠ e → s2.envs j = s.envs j) ∧
      (∀ r, scthread_copy parent e n pn s perm = Except.error r → r.1 < 0) := by
  induction n with
  | zero =>
    intro pn s perm
    constructor
    · intro s2 perm2 h
      simp only [scthread_copy, Except.ok.injEq, Prod.mk.injEq] at h
      obtain ⟨rfl, _⟩ := h
      exact ⟨pgdirFrame_refl s, fun _ _ => rfl⟩
    · intro r h
      simp [scthread_copy] at h
  | succ n ih =>
    intro pn s perm
    unfold scthread_copy
    cases hl : page_lookup s parent (pn * PGSIZE) with
    | none =>
      constructor
      · intro s2 perm2 h
        simp at h
      · intro r h
        simp only [Except.error.injEq] at h
        rw [← h]
        show (-E_INVAL : Int) < 0
        decide
    | some ent =>
      simp only
      by_cases hi : (page_insert s e ent.pp (pn * PGSIZE) (ent.perm &&& 0xFFF)).1 < 0
      · simp only [if_pos hi]
        constructor
        · intro s2 perm2 h
          simp at h
        · intro r h
          simp only [Except.error.injEq] at h
          rw [← h]
          exact hi
      · simp only [if_neg hi]
        obtain ⟨ih1, ih2⟩ := ih (pn + 1)
          (page_insert s e ent.pp (pn * PGSIZE) (ent.perm &&& 0xFFF)).2 (ent.perm &&& 0xFFF)
        constructor
        · intro s2 perm2 h
          obtain ⟨hf, hne⟩ := ih1 s2 perm2 h
          refine ⟨pgdirFrame_trans (page_insert_frame _ _ _ _ _) hf, fun j hj => ?_⟩
          rw [hne j hj, page_insert_envs_ne _ _ _ _ _ hj]
        · exact ih2

@[simp]
theorem setEntry_envs (s : State) (k i : Nat) (x : FscEntry) :
    (s.setEntry k i x).envs = s.envs := rfl

@[simp]
theorem setEntry_curenv (s : State) (k i : Nat) (x : FscEntry) :
    (s.setEntry k i x).curenv = s.curenv := rfl

theorem scpage_fold_frame (k : Nat) (l : List Nat) :
    ∀ s : State, (l.foldl (scpage_clear k) s).envs = s.envs ∧
      (l.foldl (scpage_clear k) s).curenv = s.curenv ∧
      (l.foldl (scpage_clear k) s).sc_pgnum = s.sc_pgnum := by
  induction l with
  | nil => intro s; exact ⟨rfl, rfl, rfl⟩
  | cons a l ih =>
    intro s
    rw [List.foldl_cons]
    obtain ⟨h1, h2, h3⟩ := ih (scpage_clear k s a)
    exact ⟨h1.trans rfl, h2.trans rfl, h3.trans rfl⟩

/-- What `scpage_alloc` does to the rest of the state: nothing; the page it
returns is the one the counter named. -/
theorem scpage_alloc_frame (K : Collab) (s : State) :
    (scpage_alloc K s).2.envs = s.envs ∧ (scpage_alloc K s).2.curenv = s.curenv ∧
    ∀ k, (scpage_alloc K s).1 = some k → k = s.sc_pgnum := by
  unfold scpage_alloc
  by_cases h : s.sc_pgnum ≥ K.NSCPAGES
  · rw [if_pos h]
    exact ⟨rfl, rfl, fun k hk => by cases hk⟩
  · rw [if_neg h]
    obtain ⟨h1, h2, h3⟩ := scpage_fold_frame s.sc_pgnum (List.range K.NSCENTRIES) s
    refine ⟨h1, h2, fun k hk => ?_⟩
    simp only [Option.some.injEq] at hk
    rw [← hk, h3]

/-- The closing assignments of `scthread_spawn` touch the thread only and
keep its id. -/
theorem scthread_setup_frame (K : Collab) (s4 : State) (parent e : Nat) :
    (scthread_setup K s4 parent e).curenv = s4.curenv ∧
    ((scthread_setup K s4 parent e).envs e).env_id = (s4.envs e).env_id ∧
    ∀ j, j ≠ e → (scthread_setup K s4 parent e).envs j = s4.envs j := by
  unfold scthread_setup
  refine ⟨rfl, ?_, fun j hj => ?_⟩
  · simp only [setEnv_envs, if_true]
  · simp only [setEnv_envs, if_neg hj]

/-- The closing assignments of `flexsc_register`, for a thread other than
the caller: both links, both syscall pages, and no address space changes. -/
theorem flexsc_link_spec (s2 : State) (e k : Nat) (hne : e ≠ s2.curenv) :
    (flexsc_link s2 e k).curenv = s2.curenv ∧
    ((flexsc_link s2 e k).envs s2.curenv).link = some e ∧
    ((flexsc_link s2 e k).envs e).link = some s2.curenv ∧
    ((flexsc_link s2 e k).envs s2.curenv).scpage = some k ∧
    ((flexsc_link s2 e k).envs e).scpage = some k ∧
    ((flexsc_link s2 e k).envs s2.curenv).env_pgdir = (s2.envs s2.curenv).env_pgdir := by
  have hce : s2.curenv ≠ e := Ne.symm hne
  unfold flexsc_link
  refine ⟨rfl, ?_, ?_, ?_, ?_, ?_⟩ <;>
    simp only [setEnv_envs, setEnv_curenv, if_neg hce, if_neg hne, if_true]

/-- The environment `env_alloc` sets up has the parent it was given. -/
theorem env_alloc_parent {K : Collab} {s s1 : State} {pid e : Nat}
    (h : env_alloc K s pid = Except.ok (e, s1)) : (s1.envs e).env_parent_id = pid := by
  unfold env_alloc at h
  cases hf : env_free_slot s NENV 0 with
  | none => simp [hf] at h
  | some i =>
    simp only [hf] at h
    cases hp : page_alloc s with
    | none => simp [hp] at h
    | some r =>
      obtain ⟨p, s0⟩ := r
      simp only [hp, Except.ok.injEq, Prod.mk.injEq] at h
      obtain ⟨rfl, rfl⟩ := h
      simp only [setEnv_envs, if_true]

/-- What the closing assignments of `scthread_spawn` leave in the thread: the
kind FLEX, the status RUNNABLE, the entry point of the worker loop, the
page-fault upcall of the parent, and the parent id it had. -/
theorem scthread_setup_fields (K : Collab) (s4 : State) (parent e : Nat) :
    ((scthread_setup K s4 parent e).envs e).env_type = EnvType.ENV_TYPE_FLEX ∧
    ((scthread_setup K s4 parent e).envs e).env_status = ENV_RUNNABLE ∧
    ((scthread_setup K s4 parent e).envs e).env_tf.tf_eip = K.scthread_task_addr ∧
    ((scthread_setup K s4 parent e).envs e).env_parent_id = (s4.envs e).env_parent_id ∧
    (parent ≠ e → ((scthread_setup K s4 parent e).envs e).env_pgfault_upcall
      = (s4.envs parent).env_pgfault_upcall) := by
  unfold scthread_setup
  refine ⟨?_, ?_, ?_, ?_, fun hp => ?_⟩
  · simp only [setEnv_envs, if_true]
  · simp only [setEnv_envs, if_true]
  · simp only [setEnv_envs, if_true]
  · simp only [setEnv_envs, if_true]
  · simp only [setEnv_envs, if_true, if_neg hp]

/-- The closing assignments of `flexsc_register`, for a thread other than
the caller, slot by slot: the thread and the caller get the syscall page and
each other as link, and nothing else changes. -/
theorem flexsc_link_envs (s2 : State) (e k : Nat) (hne : e ≠ s2.curenv) :
    (flexsc_link s2 e k).envs e
      = { s2.envs e with scpage := some k, link := some s2.curenv } ∧
    (flexsc_link s2 e k).envs s2.curenv
      = { s2.envs s2.curenv with scpage := some k, link := some e } ∧
    ∀ j, j ≠ e → j ≠ s2.curenv → (flexsc_link s2 e k).envs j = s2.envs j := by
  have hce : s2.curenv ≠ e := Ne.symm hne
  unfold flexsc_link
  refine ⟨?_, ?_, fun j h1 h2 => ?_⟩
  · simp only [setEnv_envs, setEnv_curenv, if_neg hce, if_neg hne, if_true]
  · simp only [setEnv_envs, setEnv_curenv, if_neg hce, if_neg hne, if_true]
  · simp only [setEnv_envs, setEnv_curenv, if_neg h1, if_neg h2]

/-- What a `scthread_spawn` that does not fail did: the thread sits in a
slot that was FREE, the returned id is the id of the thread and names that
slot, no other environment was modified, and the thread is a RUNNABLE FLEX
child of the parent that starts in the worker loop with the parent's
page-fault upcall. -/
theorem scthread_spawn_ok {K : Collab} {s : State} {parent : Nat}
    (h : ¬ (scthread_spawn K s parent).1 < 0) :
    ∃ e, (s.envs e).env_status = ENV_FREE ∧
      ENVX (scthread_spawn K s parent).1.toNat = e ∧
      (scthread_spawn K s parent).2.curenv = s.curenv ∧
      (∀ j, j ≠ e → (scthread_spawn K s parent).2.envs j = s.envs j) ∧
      (scthread_spawn K s parent).1
        = (((scthread_spawn K s parent).2.envs e).env_id : Int) ∧
      ((scthread_spawn K s parent).2.envs e).env_type = EnvType.ENV_TYPE_FLEX ∧
      ((scthread_spawn K s parent).2.envs e).env_status = ENV_RUNNABLE ∧
      ((scthread_spawn K s parent).2.envs e).env_tf.tf_eip = K.scthread_task_addr ∧
      ((scthread_spawn K s parent).2.envs e).env_parent_id = (s.envs parent).env_id ∧
      (parent ≠ e → ((scthread_spawn K s parent).2.envs e).env_pgfault_upcall
        = (s.envs parent).env_pgfault_upcall) := by
  unfold scthread_spawn at h ⊢
  cases ha : env_alloc K s (s.envs parent).env_id with
  | error r =>
    simp only [ha] at h
    exact absurd (env_alloc_error ha) h
  | ok r =>
    obtain ⟨e, s1⟩ := r
    obtain ⟨hfree, hc1, hne1, hx, hid, _⟩ := env_alloc_ok ha
    have hpar := env_alloc_parent ha
    simp only [ha] at h ⊢
    have hcopy := scthread_copy_ok parent e (PGNUM (K.USTACKTOP - PGSIZE)) 0 s1 0
    generalize scthread_copy parent e (PGNUM (K.USTACKTOP - PGSIZE)) 0 s1 0 = cp at h hcopy ⊢
    obtain ⟨hok, herr⟩ := hcopy
    cases cp with
    | error r =>
      simp only at h
      exact absurd (herr r rfl) h
    | ok r =>
      obtain ⟨s2, perm⟩ := r
      obtain ⟨hf2, hne2⟩ := hok s2 perm rfl
      simp only at h ⊢
      cases hp : page_alloc s2 with
      | none =>
        simp only [hp] at h
        exact absurd (by decide : (-E_NO_MEM : Int) < 0) h
      | some r =>
        obtain ⟨page, s3⟩ := r
        obtain ⟨hc3, henvs3, _⟩ := page_alloc_some hp
        simp only [hp] at h ⊢
        have hins_frame := page_insert_frame s3 e page (K.UXSTACKTOP - PGSIZE) perm
        have hins_ne := fun j (hj : j ≠ e) =>
          page_insert_envs_ne s3 e page (K.UXSTACKTOP - PGSIZE) perm hj
        generalize page_insert s3 e page (K.UXSTACKTOP - PGSIZE) perm = r4
          at h hins_frame hins_ne ⊢
        by_cases hi : r4.1 < 0
        · simp only [if_pos hi] at h
          exact absurd hi h
        · simp only [if_neg hi] at h ⊢
          obtain ⟨hc4, hfr4⟩ := hins_frame
          obtain ⟨pd4, hpd4⟩ := hfr4 e
          obtain ⟨pd2, hpd2⟩ := hf2.2 e
          obtain ⟨hc8, hid8, hne8⟩ := scthread_setup_frame K r4.2 parent e
          obtain ⟨hty, hst, heip, hpid8, hup8⟩ := scthread_setup_fields K r4.2 parent e
          have hid4 : (r4.2.envs e).env_id = (s1.envs e).env_id := by
            rw [hpd4, henvs3, hpd2]
          have hpid4 : (r4.2.envs e).env_parent_id = (s1.envs e).env_parent_id := by
            rw [hpd4, henvs3, hpd2]
          refine ⟨e, hfree, ?_, ?_, fun j hj => ?_, ?_, hty, hst, heip, ?_, fun hpe => ?_⟩
          · rw [hid8, hid4, toInt32_of_lt hid, Int.toNat_ofNat, hx]
          · rw [hc8, hc4, hc3, hf2.1, hc1]
          · rw [hne8 j hj, hins_ne j hj, henvs3, hne2 j hj, hne1 j hj]
          · rw [hid8, hid4, toInt32_of_lt hid]
          · rw [hpid8, hpid4, hpar]
          · rw [hup8 hpe, hins_ne parent hpe, henvs3, hne2 parent hpe, hne1 parent hpe]

/-- C18: let the caller be live and its buffer pass the user-memory check.
When `flexsc_register(va)` returns 0, there is a worker `w`, the environment
that `scthread_spawn` set up during the call: its slot was FREE before the
call and after it holds a RUNNABLE environment of kind FLEX whose id names
the slot, whose parent is the caller, which starts in the worker loop and
has the caller's page-fault upcall. The worker is distinct from the caller,
the link is symmetric (the caller's link is `w` and the link of `w` is the
caller), both have the same syscall page (the one `scpage_alloc` handed
out), and the physical page of that syscall page is mapped at `va` in the
caller's address space with permissions `PTE_W | PTE_U | PTE_P`. Apart from
its address space, link and syscall page the caller is unchanged, and so is
every environment other than the caller and the worker. -/
theorem flexsc_register_spec (K : Collab) (s : State) (va : Nat)
    (hm : K.user_mem_check s s.curenv va PGSIZE ((PTE_W ||| PTE_U ||| PTE_P) ||| PTE_U) = true)
    (hlive : (s.envs s.curenv).env_status ≠ ENV_FREE)
    (h0 : (flexsc_register K s va).1 = some 0) :
    ∃ w pg, w ≠ s.curenv ∧
      (s.envs w).env_status = ENV_FREE ∧
      ((flexsc_register K s va).2.envs w).env_status = ENV_RUNNABLE ∧
      ((flexsc_register K s va).2.envs w).env_type = EnvType.ENV_TYPE_FLEX ∧
      ENVX ((flexsc_register K s va).2.envs w).env_id = w ∧
      ((flexsc_register K s va).2.envs w).env_parent_id = (s.envs s.curenv).env_id ∧
      ((flexsc_register K s va).2.envs w).env_tf.tf_eip = K.scthread_task_addr ∧
      ((flexsc_register K s va).2.envs w).env_pgfault_upcall
        = (s.envs s.curenv).env_pgfault_upcall ∧
      (flexsc_register K s va).2.curenv = s.curenv ∧
      ((flexsc_register K s va).2.envs s.curenv).link = some w ∧
      ((flexsc_register K s va).2.envs w).link = some s.curenv ∧
      ((flexsc_register K s va).2.envs s.curenv).scpage = some s.sc_pgnum ∧
      ((flexsc_register K s va).2.envs w).scpage = some s.sc_pgnum ∧
      K.kern_pgdir_lookup s.sc_pgnum = some pg ∧
      page_lookup (flexsc_register K s va).2 s.curenv va
        = some ⟨pg, PTE_W ||| PTE_U ||| PTE_P⟩ ∧
      (∃ pd, (flexsc_register K s va).2.envs s.curenv
        = { s.envs s.curenv with
            env_pgdir := pd, scpage := some s.sc_pgnum, link := some w }) ∧
      (∀ j, j ≠ w → j ≠ s.curenv → (flexsc_register K s va).2.envs j = s.envs j) := by
  have hua : user_mem_assert K s s.curenv va PGSIZE (PTE_W ||| PTE_U ||| PTE_P) = (s, true) := by
    unfold user_mem_assert
    rw [if_pos hm]
  unfold flexsc_register at h0 ⊢
  simp only [hua, if_true] at h0 ⊢
  obtain ⟨hspe, hspc, hspk⟩ := scpage_alloc_frame K s
  generalize scpage_alloc K s = sp at h0 hspe hspc hspk ⊢
  obtain ⟨spk, sps⟩ := sp
  cases spk with
  | none => simp at h0
  | some k =>
    have hk : k = s.sc_pgnum := hspk k rfl
    subst hk
    simp only at h0 hspe hspc ⊢
    cases hkl : K.kern_pgdir_lookup s.sc_pgnum with
    | none =>
      simp only [hkl, Option.some.injEq] at h0
      exact absurd h0 (by decide)
    | some pg =>
      simp only [hkl] at h0 ⊢
      have hins_frame := page_insert_frame sps sps.curenv pg va (PTE_W ||| PTE_U ||| PTE_P)
      have hins_ok := @page_insert_ok sps sps.curenv pg va (PTE_W ||| PTE_U ||| PTE_P)
      have hins_ne := fun j (hj : j ≠ sps.curenv) =>
        page_insert_envs_ne sps sps.curenv pg va (PTE_W ||| PTE_U ||| PTE_P) hj
      generalize page_insert sps sps.curenv pg va (PTE_W ||| PTE_U ||| PTE_P) = r
        at h0 hins_frame hins_ok hins_ne ⊢
      by_cases hi : r.1 < 0
      · simp only [if_pos hi, Option.some.injEq] at h0
        rw [h0] at hi
        exact absurd hi (by decide)
      · simp only [if_neg hi] at h0 ⊢
        obtain ⟨_, hlook⟩ := hins_ok hi
        obtain ⟨hrc, hrf⟩ := hins_frame
        have hcur : r.2.curenv = s.curenv := hrc.trans hspc
        have hspawn := @scthread_spawn_ok K r.2 r.2.curenv
        generalize scthread_spawn K r.2 r.2.curenv = t at h0 hspawn ⊢
        by_cases ht : t.1 < 0
        · simp only [if_pos ht] at h0
          simp at h0
        · simp only [if_neg ht] at h0 ⊢
          obtain ⟨e, hfree, hx, htc, hne, hval, hty, hst, heip, hpar, hup⟩ := hspawn ht
          have hidx : ENVX (t.2.envs e).env_id = e := by
            have h := hx
            rw [hval, Int.toNat_ofNat] at h
            exact h
          have htcur : t.2.curenv = s.curenv := htc.trans hcur
          obtain ⟨pd, hpd⟩ := hrf s.curenv
          obtain ⟨pde, hpde⟩ := hrf e
          rw [hspe] at hpd hpde
          have hec : e ≠ s.curenv := by
            intro hcon
            rw [hcon, hpd] at hfree
            exact hlive hfree
          have hfree0 : (s.envs e).env_status = ENV_FREE := by
            rw [hpde] at hfree
            exact hfree
          have htenv : t.2.envs s.curenv = r.2.envs s.curenv := hne _ (Ne.symm hec)
          obtain ⟨l1, l2, l3, l4, l5, l6⟩ :=
            flexsc_link_spec t.2 e s.sc_pgnum (by rw [htcur]; exact hec)
          obtain ⟨m1, m2, m3⟩ := flexsc_link_envs t.2 e s.sc_pgnum (by rw [htcur]; exact hec)
          rw [htcur] at l1 l2 l3 l4 l6 m1 m2 m3
          rw [hcur] at hpar hup
          rw [hx]
          have hidw : ENVX ((flexsc_link t.2 e s.sc_pgnum).envs e).env_id = e := by
            rw [m1]
            exact hidx
          refine ⟨e, pg, hec, hfree0, ?_, ?_, hidw, ?_, ?_, ?_, l1, l2, l3, l4, l5, rfl, ?_,
            ⟨pd, ?_⟩, fun j h1 h2 => ?_⟩
          · rw [m1]
            exact hst
          · rw [m1]
            exact hty
          · rw [m1]
            show (t.2.envs e).env_parent_id = (s.envs s.curenv).env_id
            rw [hpar, hpd]
          · rw [m1]
            exact heip
          · rw [m1]
            show (t.2.envs e).env_pgfault_upcall = (s.envs s.curenv).env_pgfault_upcall
            rw [hup (Ne.symm hec), hpd]
          · have hpg : ((flexsc_link t.2 e s.sc_pgnum).envs s.curenv).env_pgdir
                = (r.2.envs s.curenv).env_pgdir := by
              rw [l6, htenv]
            rw [page_lookup_of_pgdir hpg va, hlook, if_pos]
            exact ⟨hspc.symm, rfl⟩
          · rw [m2, htenv, hpd]
          · rw [m3 j h1 h2, hne j h1, hins_ne j (by rw [hspc]; exact h2), hspe]

/-- Witness for C18 on `procState` with the parameters `testK`: the process
registers a syscall page at `0x6000`. The worker is spawned in slot 1, which
was FREE, as a RUNNABLE FLEX child `0x1001` of the process `0x1000`; the link
of each is the other, and physical page 40, which backs syscall page 0, is
mapped writable at `0x6000` in the process. -/
theorem flexsc_register_spec_witness :
    testK.user_mem_check procState procState.curenv 0x6000 PGSIZE
      ((PTE_W ||| PTE_U ||| PTE_P) ||| PTE_U) = true ∧
    (procState.envs procState.curenv).env_status ≠ ENV_FREE ∧
    (flexsc_register testK procState 0x6000).1 = some 0 ∧
    (procState.envs 1).env_status = ENV_FREE ∧
    ((flexsc_register testK procState 0x6000).2.envs 1).env_status = ENV_RUNNABLE ∧
    ((flexsc_register testK procState 0x6000).2.envs 1).env_type = EnvType.ENV_TYPE_FLEX ∧
    ((flexsc_register testK procState 0x6000).2.envs 1).env_id = 0x1001 ∧
    ((flexsc_register testK procState 0x6000).2.envs 1).env_parent_id = 0x1000 ∧
    ((flexsc_register testK procState 0x6000).2.envs 0).link = some 1 ∧
    ((flexsc_register testK procState 0x6000).2.envs 1).link = some 0 ∧
    ((flexsc_register testK procState 0x6000).2.envs 1).scpage = some 0 ∧
    page_lookup (flexsc_register testK procState 0x6000).2 0 0x6000
      = some ⟨40, PTE_W ||| PTE_U ||| PTE_P⟩ := by
  have h0 : (flexsc_register testK procState 0x6000).1 = some 0 := by decide
  have hl : ((flexsc_register testK procState 0x6000).2.envs 0).link = some 1 := by decide
  obtain ⟨w, pg, _, hfree, hst, hty, _, hpar, _, _, _, hl1, hl2, _, hs2, hpg, hmap, _⟩ :=
    flexsc_register_spec testK procState 0x6000 (by decide) (by decide) h0
  have hw : w = 1 := by
    have h := hl1.symm.trans hl
    exact Option.some.inj h
  have hp : pg = 40 := by
    have h40 : testK.kern_pgdir_lookup procState.sc_pgnum = some 40 := rfl
    exact Option.some.inj (hpg.symm.trans h40)
  subst hw
  subst hp
  exact ⟨by decide, by decide, h0, hfree, hst, hty, by decide, hpar, hl, hl2, hs2, hmap⟩

/-! ## C21: `sys_exofork` -/

/-- C21: let the caller be live. When `env_alloc` succeeds with the
environment in slot `e`, that slot was FREE (so the child is not the caller),
`sys_exofork` returns the child's id, the child's status is
`ENV_NOT_RUNNABLE`, its trap frame is the caller's saved trap frame with
`reg_eax` set to 0, and the caller, like every environment other than the
child, is exactly as before. When `env_alloc` fails, its negative error code
is returned and the state is unchanged. -/
theorem sys_exofork_spec (K : Collab) (s : State)
    (hlive : (s.envs s.curenv).env_status ≠ ENV_FREE) :
    (∀ e s1, env_alloc K s (s.envs s.curenv).env_id = Except.ok (e, s1) →
      (s.envs e).env_status = ENV_FREE ∧ e ≠ s.curenv ∧
      (sys_exofork K s).1 = (((sys_exofork K s).2.envs e).env_id : Int) ∧
      ENVX ((sys_exofork K s).2.envs e).env_id = e ∧
      ((sys_exofork K s).2.envs e).env_status = ENV_NOT_RUNNABLE ∧
      ((sys_exofork K s).2.envs e).env_tf = { (s.envs s.curenv).env_tf with reg_eax := 0 } ∧
      (sys_exofork K s).2.envs s.curenv = s.envs s.curenv ∧
      (∀ j, j ≠ e → (sys_exofork K s).2.envs j = s.envs j) ∧
      (sys_exofork K s).2.curenv = s.curenv) ∧
    (∀ r, env_alloc K s (s.envs s.curenv).env_id = Except.error r →
      r < 0 ∧ sys_exofork K s = (r, s)) := by
  constructor
  · intro e s1 ha
    obtain ⟨hfree, hc1, hne1, hx, hid, _⟩ := env_alloc_ok ha
    have hec : e ≠ s.curenv := by
      intro hcon
      rw [hcon] at hfree
      exact hlive hfree
    have hce : s.curenv ≠ e := Ne.symm hec
    unfold sys_exofork
    simp only [ha, setEnv_envs, setEnv_curenv, if_true, hc1, if_neg hce]
    refine ⟨hfree, hec, toInt32_of_lt hid, hx, trivial, ?_, hne1 _ hce, fun j hj => ?_, trivial⟩
    · rw [hne1 _ hce]
    · simp only [if_neg hj, hne1 j hj]
  · intro r ha
    refine ⟨env_alloc_error ha, ?_⟩
    unfold sys_exofork
    simp only [ha]

/-- Witness for C21 on `procState` with the parameters `testK`: the process
forks; the child sits in slot 1 with id `0x1001`, which is returned. -/
theorem sys_exofork_spec_witness :
    (procState.envs procState.curenv).env_status ≠ ENV_FREE ∧
    (sys_exofork testK procState).1 = 0x1001 ∧
    ((sys_exofork testK procState).2.envs 1).env_status = ENV_NOT_RUNNABLE ∧
    ((sys_exofork testK procState).2.envs 1).env_tf
      = { (procState.envs 0).env_tf with reg_eax := 0 } := by
  have hlive : (procState.envs procState.curenv).env_status ≠ ENV_FREE := by decide
  have hid : ((sys_exofork testK procState).2.envs 1).env_id = 0x1001 := by decide
  have ha : ∃ s1, env_alloc testK procState (procState.envs procState.curenv).env_id
      = Except.ok (1, s1) := ⟨_, rfl⟩
  obtain ⟨s1, hs1⟩ := ha
  obtain ⟨_, _, hret, _, hst, htf, _⟩ := (sys_exofork_spec testK procState hlive).1 1 s1 hs1
  refine ⟨hlive, ?_, hst, htf⟩
  rw [hret, hid]
  rfl

/-! ## C22: the blocking path of `sys_ipc_recv` -/

/-- C22: for a NORMAL caller and `dstva >= UTOP`, or `dstva < UTOP` and
page-aligned, `sys_ipc_recv` does not return: it enters the scheduler, and in
the state it enters it with the caller has `env_ipc_recving = 1`, status
`ENV_NOT_RUNNABLE`, saved `reg_eax = 0`, and `env_ipc_dstva = dstva` when
`dstva < UTOP` (its old value otherwise); no other environment and nothing
else in the state is modified. -/
theorem sys_ipc_recv_blocks (s : State) (dstva : Nat)
    (hn : (s.envs s.curenv).env_type = EnvType.ENV_TYPE_USER)
    (hva : UTOP ≤ dstva ∨ dstva % PGSIZE = 0) :
    (sys_ipc_recv s dstva).1 = none ∧
    ((sys_ipc_recv s dstva).2.envs s.curenv).env_ipc_recving = 1 ∧
    ((sys_ipc_recv s dstva).2.envs s.curenv).env_status = ENV_NOT_RUNNABLE ∧
    ((sys_ipc_recv s dstva).2.envs s.curenv).env_tf.reg_eax = 0 ∧
    (dstva < UTOP → ((sys_ipc_recv s dstva).2.envs s.curenv).env_ipc_dstva = dstva) ∧
    (UTOP ≤ dstva → ((sys_ipc_recv s dstva).2.envs s.curenv).env_ipc_dstva
      = (s.envs s.curenv).env_ipc_dstva) ∧
    (∀ j, j ≠ s.curenv → (sys_ipc_recv s dstva).2.envs j = s.envs j) ∧
    (sys_ipc_recv s dstva).2.curenv = s.curenv ∧
    (sys_ipc_recv s dstva).2.pp_ref = s.pp_ref ∧
    (sys_ipc_recv s dstva).2.page_free_list = s.page_free_list := by
  have hnf : ¬ (s.envs s.curenv).env_type = EnvType.ENV_TYPE_FLEX := by
    rw [hn]
    decide
  unfold sys_ipc_recv
  simp only [if_neg hnf, land_fff_eq_mod, setEnv_curenv]
  by_cases hlt : dstva < UTOP
  · have hal : dstva % PGSIZE = 0 := by
      rcases hva with h | h
      · exact absurd hlt (not_lt.mpr h)
      · exact h
    have hal' : ¬ dstva % PGSIZE ≠ 0 := fun h => h hal
    simp only [if_pos hlt, if_neg hal', setEnv_envs, setEnv_curenv, if_true]
    refine ⟨trivial, trivial, trivial, trivial, fun _ => trivial,
      fun h => absurd hlt (not_lt.mpr h), fun j hj => ?_, trivial, rfl, rfl⟩
    simp only [if_neg hj]
  · simp only [if_neg hlt, setEnv_envs, setEnv_curenv, if_true]
    refine ⟨trivial, trivial, trivial, trivial, fun h => absurd h hlt,
      fun _ => trivial, fun j hj => ?_, trivial, rfl, rfl⟩
    simp only [if_neg hj]

/-- Witness for C22 on `recvState`: the running receiver asks for a page at
`0x2000`; it is left RECEIVING, NOT_RUNNABLE and waiting at that address. -/
theorem sys_ipc_recv_blocks_witness :
    (recvState.envs recvState.curenv).env_type = EnvType.ENV_TYPE_USER ∧
    (UTOP ≤ 0x2000 ∨ 0x2000 % PGSIZE = 0) ∧
    (sys_ipc_recv recvState 0x2000).1 = none ∧
    ((sys_ipc_recv recvState 0x2000).2.envs 1).env_ipc_recving = 1 ∧
    ((sys_ipc_recv recvState 0x2000).2.envs 1).env_status = ENV_NOT_RUNNABLE ∧
    ((sys_ipc_recv recvState 0x2000).2.envs 1).env_ipc_dstva = 0x2000 :=
  ⟨rfl, by decide,
    (sys_ipc_recv_blocks recvState 0x2000 rfl (by decide)).1,
    (sys_ipc_recv_blocks recvState 0x2000 rfl (by decide)).2.1,
    (sys_ipc_recv_blocks recvState 0x2000 rfl (by decide)).2.2.1,
    (sys_ipc_recv_blocks recvState 0x2000 rfl (by decide)).2.2.2.2.1 (by decide)⟩

/-! ## C23: a receive executed by a FlexSC worker -/

/-- C23: when the running environment has kind `ENV_TYPE_FLEX` and its link
points to a partner `l` other than itself, `sys_ipc_recv` returns
`-E_BLOCKED` for every `dstva`, aligned or not, without entering the
scheduler; the partner gets `env_ipc_recving = 1` and status
`ENV_NOT_RUNNABLE` and is otherwise unchanged; the running environment (its
`env_ipc_recving`, `env_ipc_dstva`, status and trap frame included) and every
other environment are unchanged, as is the rest of the state. -/
theorem sys_ipc_recv_flex (s : State) (dstva l : Nat)
    (hf : (s.envs s.curenv).env_type = EnvType.ENV_TYPE_FLEX)
    (hl : (s.envs s.curenv).link = some l)
    (hne : l ≠ s.curenv) :
    (sys_ipc_recv s dstva).1 = some (-E_BLOCKED) ∧
    ((sys_ipc_recv s dstva).2.envs l).env_ipc_recving = 1 ∧
    ((sys_ipc_recv s dstva).2.envs l).env_status = ENV_NOT_RUNNABLE ∧
    (sys_ipc_recv s dstva).2.envs l
      = { s.envs l with env_ipc_recving := 1, env_status := ENV_NOT_RUNNABLE } ∧
    (sys_ipc_recv s dstva).2.envs s.curenv = s.envs s.curenv ∧
    (∀ j, j ≠ l → (sys_ipc_recv s dstva).2.envs j = s.envs j) ∧
    (sys_ipc_recv s dstva).2.curenv = s.curenv ∧
    (sys_ipc_recv s dstva).2.pp_ref = s.pp_ref ∧
    (sys_ipc_recv s dstva).2.page_free_list = s.page_free_list := by
  have hcl : s.curenv ≠ l := Ne.symm hne
  unfold sys_ipc_recv
  simp only [if_pos hf, hl, setEnv_envs, setEnv_curenv, if_true, if_neg hcl]
  refine ⟨trivial, trivial, trivial, trivial, trivial, fun j hj => ?_, trivial, rfl, rfl⟩
  simp only [if_neg hj]

/-- Witness for C23 on `workerState`: the running worker calls
`sys_ipc_recv` with the unaligned address `0x2001`; the call returns
`-E_BLOCKED` and the linked process is marked RECEIVING and NOT_RUNNABLE. -/
theorem sys_ipc_recv_flex_witness :
    (workerState.envs workerState.curenv).env_type = EnvType.ENV_TYPE_FLEX ∧
    (workerState.envs workerState.curenv).link = some 0 ∧
    (sys_ipc_recv workerState 0x2001).1 = some (-E_BLOCKED) ∧
    ((sys_ipc_recv workerState 0x2001).2.envs 0).env_ipc_recving = 1 ∧
    ((sys_ipc_recv workerState 0x2001).2.envs 0).env_status = ENV_NOT_RUNNABLE ∧
    (sys_ipc_recv workerState 0x2001).2.envs 1 = workerState.envs 1 :=
  ⟨rfl, rfl,
    (sys_ipc_recv_flex workerState 0x2001 0 rfl rfl (by decide)).1,
    (sys_ipc_recv_flex workerState 0x2001 0 rfl rfl (by decide)).2.1,
    (sys_ipc_recv_flex workerState 0x2001 0 rfl rfl (by decide)).2.2.1,
    (sys_ipc_recv_flex workerState 0x2001 0 rfl rfl (by decide)).2.2.2.2.1⟩

/-! ## C24: the pool of syscall pages -/

@[simp]
theorem setEntry_sc_pgnum (s : State) (k i : Nat) (x : FscEntry) :
    (s.setEntry k i x).sc_pgnum = s.sc_pgnum := rfl

/-- What `scpage_alloc` returns and what it does to the counter. -/
theorem scpage_alloc_result (K : Collab) (s : State) :
    (scpage_alloc K s).1 = (if s.sc_pgnum < K.NSCPAGES then some s.sc_pgnum else none) ∧
    (scpage_alloc K s).2.sc_pgnum
      = (if s.sc_pgnum < K.NSCPAGES then s.sc_pgnum + 1 else s.sc_pgnum) := by
  unfold scpage_alloc
  by_cases h : s.sc_pgnum ≥ K.NSCPAGES
  · have hlt : ¬ s.sc_pgnum < K.NSCPAGES := not_lt.mpr h
    rw [if_pos h, if_neg hlt, if_neg hlt]
    exact ⟨rfl, rfl⟩
  · have hlt : s.sc_pgnum < K.NSCPAGES := not_le.mp h
    rw [if_neg h, if_pos hlt, if_pos hlt]
    obtain ⟨_, _, h3⟩ := scpage_fold_frame s.sc_pgnum (List.range K.NSCENTRIES) s
    simp only [h3]
    exact ⟨trivial, trivial⟩

/-- One pass of the loop of `scpage_alloc`, entry by entry. -/
theorem scpage_clear_scpages (k : Nat) (s : State) (i k' i' : Nat) :
    (scpage_clear k s i).scpages k' i' =
      if k' = k ∧ i' = 0 then
        { (if 0 = i then ({ sc_num := 0, args := [0, 0, 0, 0, 0], ret := 0, status := 0 } : FscEntry)
            else s.scpages k 0) with status := FSC_FREE }
      else if k' = k ∧ i' = i then { sc_num := 0, args := [0, 0, 0, 0, 0], ret := 0, status := 0 }
      else s.scpages k' i' := by
  unfold scpage_clear
  simp only [State.setEntry, true_and]

/-- The loop of `scpage_alloc` after `m` passes: the first `m` entries of
the page are zeroed and FREE, and no other page is touched. -/
theorem scpage_fold_entries (k : Nat) (m : Nat) (s : State) :
    (∀ i, i < m → ((List.range m).foldl (scpage_clear k) s).scpages k i
      = { sc_num := 0, args := [0, 0, 0, 0, 0], ret := 0, status := FSC_FREE }) ∧
    (∀ k' i, k' ≠ k → ((List.range m).foldl (scpage_clear k) s).scpages k' i = s.scpages k' i) := by
  induction m with
  | zero =>
    exact ⟨fun i hi => absurd hi (Nat.not_lt_zero i), fun _ _ _ => rfl⟩
  | succ m ih =>
    obtain ⟨ih1, ih2⟩ := ih
    rw [List.range_succ, List.foldl_append, List.foldl_cons, List.foldl_nil]
    constructor
    · intro i hi
      rw [scpage_clear_scpages]
      by_cases hi0 : i = 0
      · subst hi0
        rw [if_pos ⟨rfl, rfl⟩]
        by_cases hm : 0 = m
        · rw [if_pos hm]
        · rw [if_neg hm, ih1 0 (Nat.pos_of_ne_zero (Ne.symm hm))]
      · rw [if_neg (fun h => hi0 h.2)]
        by_cases him : i = m
        · rw [if_pos ⟨rfl, him⟩]
          rfl
        · rw [if_neg (fun h => him h.2)]
          exact ih1 i (by omega)
    · intro k' i hk
      rw [scpage_clear_scpages, if_neg (fun h => hk h.1), if_neg (fun h => hk h.1)]
      exact ih2 k' i hk

/-- The values `n` successive calls return, from any value of the counter. -/
theorem scpage_alloc_calls_result (K : Collab) (other : Nat → State → State)
    (hother : ∀ j t, (other j t).sc_pgnum = t.sc_pgnum) (n : Nat) :
    ∀ (j : Nat) (s : State), (scpage_alloc_calls K other n j s).1
      = (List.range n).map
          (fun i => if s.sc_pgnum + i < K.NSCPAGES then some (s.sc_pgnum + i) else none) := by
  induction n with
  | zero => intro j s; rfl
  | succ n ih =>
    intro j s
    obtain ⟨hr1, hr2⟩ := scpage_alloc_result K s
    unfold scpage_alloc_calls
    simp only
    rw [ih (j + 1) (other j (scpage_alloc K s).2), hother, hr2, hr1,
      List.range_succ_eq_map, List.map_cons, List.map_map]
    congr 1
    apply List.map_congr_left
    intro i _
    simp only [Function.comp]
    by_cases hlt : s.sc_pgnum < K.NSCPAGES
    · simp only [if_pos hlt]
      rw [show s.sc_pgnum + 1 + i = s.sc_pgnum + (i + 1) by omega]
    · simp only [if_neg hlt]
      have h1 : ¬ s.sc_pgnum + i < K.NSCPAGES := by omega
      have h2 : ¬ s.sc_pgnum + (i + 1) < K.NSCPAGES := by omega
      rw [if_neg h1, if_neg h2]

/-- C24: start with the counter of `scpage_alloc` at 0 (its initial value)
and let the code that runs between the calls leave the counter alone (it is
a static local of `scpage_alloc`). In any sequence of `n` calls, call number
`j` (counting from 0) returns page `j` of the pool when `j < NSCPAGES` and
`NULL` afterwards: the first `NSCPAGES` calls yield the pairwise distinct
pages `0, ..., NSCPAGES - 1` in that order. And whenever a call returns a
page, each of its entries `0 .. NSCENTRIES - 1` is FREE with zero number,
arguments and return slot, while the entries of the other pages are as
before. -/
theorem scpage_alloc_pool (K : Collab) (other : Nat → State → State) (n : Nat) (s : State)
    (h0 : s.sc_pgnum = 0)
    (hother : ∀ j t, (other j t).sc_pgnum = t.sc_pgnum) :
    (scpage_alloc_calls K other n 0 s).1
      = (List.range n).map (fun j => if j < K.NSCPAGES then some j else none) ∧
    (∀ t k, (scpage_alloc K t).1 = some k →
      (∀ i, i < K.NSCENTRIES → (scpage_alloc K t).2.scpages k i
        = { sc_num := 0, args := [0, 0, 0, 0, 0], ret := 0, status := FSC_FREE }) ∧
      (∀ k' i, k' ≠ k → (scpage_alloc K t).2.scpages k' i = t.scpages k' i)) := by
  constructor
  · rw [scpage_alloc_calls_result K other hother n 0 s, h0]
    simp only [Nat.zero_add]
  · intro t k hk
    obtain ⟨hr1, _⟩ := scpage_alloc_result K t
    rw [hr1] at hk
    by_cases hlt : t.sc_pgnum < K.NSCPAGES
    · rw [if_pos hlt] at hk
      have hk' : t.sc_pgnum = k := Option.some.inj hk
      subst hk'
      obtain ⟨f1, f2⟩ := scpage_fold_entries t.sc_pgnum K.NSCENTRIES t
      unfold scpage_alloc
      rw [if_neg (not_le.mpr hlt)]
      exact ⟨f1, f2⟩
    · rw [if_neg hlt] at hk
      cases hk

/-- Witness for C24 with the parameters `testK` (two pages of four entries)
on `procState`, whose counter is 0: three calls in a row return page 0, page
1 and `NULL`, and entry 3 of the page the first call returns is zeroed. -/
theorem scpage_alloc_pool_witness :
    procState.sc_pgnum = 0 ∧
    (scpage_alloc_calls testK (fun _ t => t) 3 0 procState).1 = [some 0, some 1, none] ∧
    (scpage_alloc testK procState).2.scpages 0 3
      = { sc_num := 0, args := [0, 0, 0, 0, 0], ret := 0, status := FSC_FREE } :=
  ⟨rfl,
    (scpage_alloc_pool testK (fun _ t => t) 3 procState rfl (fun _ _ => rfl)).1.trans
      (by decide),
    ((scpage_alloc_pool testK (fun _ t => t) 3 procState rfl (fun _ _ => rfl)).2
      procState 0 (by decide)).1 3 (by decide)⟩

/-! ## C16: one pass of the worker on an entry -/

theorem poolFrame_refl (s : State) : poolFrame s s :=
  ⟨rfl, rfl⟩

theorem poolFrame_trans {s s' s'' : State} (h : poolFrame s s') (h' : poolFrame s' s'') :
    poolFrame s s'' :=
  ⟨h'.1.trans h.1, h'.2.trans h.2⟩

theorem setEnv_pool (s : State) (i : Nat) (e : Env) : poolFrame s (s.setEnv i e) :=
  ⟨rfl, rfl⟩

theorem setRef_pool (s : State) (p n : Nat) : poolFrame s (s.setRef p n) :=
  ⟨rfl, rfl⟩

theorem setPgdir_pool (s : State) (e : Nat) (pd : Pgdir) : poolFrame s (s.setPgdir e pd) :=
  ⟨rfl, rfl⟩

theorem page_free_pool (s : State) (p : Nat) : poolFrame s (page_free s p) :=
  ⟨rfl, rfl⟩

theorem page_alloc_pool {s s1 : State} {p : Nat} (h : page_alloc s = some (p, s1)) :
    poolFrame s s1 := by
  unfold page_alloc at h
  cases hf : s.page_free_list with
  | nil => simp [hf] at h
  | cons q rest =>
    simp only [hf, Option.some.injEq, Prod.mk.injEq] at h
    obtain ⟨rfl, rfl⟩ := h
    exact ⟨rfl, rfl⟩

theorem page_decref_pool (s : State) (p : Nat) : poolFrame s (page_decref s p) := by
  unfold page_decref
  simp only
  split_ifs
  · exact ⟨rfl, rfl⟩
  · exact ⟨rfl, rfl⟩

theorem page_remove_pool (s : State) (e va : Nat) : poolFrame s (page_remove s e va) := by
  unfold page_remove
  cases page_lookup s e va with
  | none => exact poolFrame_refl s
  | some ent => exact poolFrame_trans (page_decref_pool s ent.pp) (setPgdir_pool _ _ _)

theorem pgdir_walk_pool {s s1 : State} {e va : Nat} (h : pgdir_walk s e va = some s1) :
    poolFrame s s1 := by
  unfold pgdir_walk at h
  cases hp : (s.envs e).env_pgdir.pde (PDX va) with
  | some t =>
    simp only [hp, Option.some.injEq] at h
    subst h
    exact poolFrame_refl s
  | none =>
    simp only [hp] at h
    cases ha : page_alloc s with
    | none => simp [ha] at h
    | some r =>
      obtain ⟨pt, s0⟩ := r
      simp only [ha, Option.some.injEq] at h
      subst h
      exact poolFrame_trans (page_alloc_pool ha)
        (poolFrame_trans (setRef_pool _ _ _) (setPgdir_pool _ _ _))

/-- The page operations do not touch the FlexSC pool. -/
theorem page_insert_pool (s : State) (e pp va perm : Nat) :
    poolFrame s (page_insert s e pp va perm).2 := by
  unfold page_insert
  cases hw : pgdir_walk s e va with
  | none => exact poolFrame_refl s
  | some s1 =>
    simp only
    refine poolFrame_trans (pgdir_walk_pool hw) ?_
    refine poolFrame_trans (setRef_pool s1 pp (s1.pp_ref pp + 1)) ?_
    exact poolFrame_trans (page_remove_pool _ _ _) (setPgdir_pool _ _ _)

theorem env_alloc_pool {K : Collab} {s s1 : State} {pid e : Nat}
    (h : env_alloc K s pid = Except.ok (e, s1)) : poolFrame s s1 := by
  unfold env_alloc at h
  cases hf : env_free_slot s NENV 0 with
  | none => simp [hf] at h
  | some i =>
    simp only [hf] at h
    cases hp : page_alloc s with
    | none => simp [hp] at h
    | some r =>
      obtain ⟨p, s0⟩ := r
      simp only [hp, Except.ok.injEq, Prod.mk.injEq] at h
      obtain ⟨rfl, rfl⟩ := h
      exact poolFrame_trans (page_alloc_pool hp) ⟨rfl, rfl⟩

theorem user_mem_assert_pool {K : Collab} (hK : K.keeps_pool) (s : State)
    (env va len perm : Nat) : poolFrame s (user_mem_assert K s env va len perm).1 := by
  unfold user_mem_assert
  split_ifs
  · exact poolFrame_refl s
  · exact hK.1 s env

theorem sys_cputs_pool {K : Collab} (hK : K.keeps_pool) (s : State) (str len : Nat) :
    poolFrame s (sys_cputs K s str len).2 := by
  unfold sys_cputs
  simp only
  split_ifs
  · exact user_mem_assert_pool hK _ _ _ _ _
  · exact user_mem_assert_pool hK _ _ _ _ _

theorem sys_getenvid_pool (s : State) : poolFrame s (sys_getenvid s).2 := by
  unfold sys_getenvid
  split_ifs
  · cases (s.envs s.curenv).link with
    | none => exact poolFrame_refl s
    | some l => exact poolFrame_refl s
  · exact poolFrame_refl s

theorem sys_env_destroy_pool {D : State → Nat → State × Bool}
    (hD : ∀ s e, poolFrame s (D s e).1) (s : State) (envid : Nat) :
    poolFrame s (sys_env_destroy D s envid).2 := by
  unfold sys_env_destroy
  cases envid2env s envid true with
  | error r => exact poolFrame_refl s
  | ok e =>
    simp only
    have hl : poolFrame s
        (match (s.envs e).link with
          | some l => D s l
          | none => (s, true)).1 := by
      cases (s.envs e).link with
      | none => exact poolFrame_refl s
      | some l => exact hD s l
    generalize (match (s.envs e).link with
          | some l => D s l
          | none => (s, true)) = al at hl ⊢
    split_ifs
    · exact poolFrame_trans hl (hD _ _)
    · exact poolFrame_trans hl (hD _ _)
    · exact hl

theorem sys_exofork_pool (K : Collab) (s : State) : poolFrame s (sys_exofork K s).2 := by
  unfold sys_exofork
  cases ha : env_alloc K s (s.envs s.curenv).env_id with
  | error r => exact poolFrame_refl s
  | ok r =>
    obtain ⟨e, s1⟩ := r
    exact poolFrame_trans (env_alloc_pool ha) ⟨rfl, rfl⟩

theorem sys_env_set_status_pool (s : State) (envid status : Nat) :
    poolFrame s (sys_env_set_status s envid status).2 := by
  unfold sys_env_set_status
  split_ifs
  · exact poolFrame_refl s
  · cases envid2env s envid true with
    | error r => exact poolFrame_refl s
    | ok e => exact ⟨rfl, rfl⟩

theorem sys_env_set_pgfault_upcall_pool (s : State) (envid func : Nat) :
    poolFrame s (sys_env_set_pgfault_upcall s envid func).2 := by
  unfold sys_env_set_pgfault_upcall
  cases envid2env s envid true with
  | error r => exact poolFrame_refl s
  | ok e => exact ⟨rfl, rfl⟩

theorem sys_page_alloc_pool (s : State) (envid va perm : Nat) :
    poolFrame s (sys_page_alloc s envid va perm).2 := by
  unfold sys_page_alloc
  split_ifs
  · exact poolFrame_refl s
  · exact poolFrame_refl s
  · cases envid2env s envid true with
    | error r => exact poolFrame_refl s
    | ok e =>
      simp only
      cases hp : page_alloc s with
      | none => exact poolFrame_refl s
      | some r =>
        obtain ⟨page, s1⟩ := r
        simp only
        have hi := page_insert_pool s1 e page va perm
        generalize page_insert s1 e page va perm = r4 at hi ⊢
        split_ifs
        · exact poolFrame_trans (page_alloc_pool hp) (poolFrame_trans hi (page_free_pool _ _))
        · exact poolFrame_trans (page_alloc_pool hp) hi

theorem sys_page_map_pool (s : State) (srcenvid srcva dstenvid dstva perm : Nat) :
    poolFrame s (sys_page_map s srcenvid srcva dstenvid dstva perm).2 := by
  unfold sys_page_map
  cases envid2env s srcenvid true with
  | error r => exact poolFrame_refl s
  | ok srce =>
    simp only
    cases envid2env s dstenvid true with
    | error r => exact poolFrame_refl s
    | ok dste =>
      simp only
      by_cases hva : (va_rejected srcva || va_rejected dstva) = true
      · rw [if_pos hva]
        exact poolFrame_refl s
      · rw [if_neg hva]
        cases page_lookup s srce srcva with
        | none => exact poolFrame_refl s
        | some ent =>
          simp only
          have hi := page_insert_pool s dste ent.pp dstva perm
          generalize page_insert s dste ent.pp dstva perm = r4 at hi ⊢
          split_ifs
          · exact poolFrame_refl s
          · exact poolFrame_refl s
          · exact hi
          · exact hi

theorem sys_page_unmap_pool (s : State) (envid va : Nat) :
    poolFrame s (sys_page_unmap s envid va).2 := by
  unfold sys_page_unmap
  split_ifs
  · exact poolFrame_refl s
  · cases envid2env s envid true with
    | error r => exact poolFrame_refl s
    | ok e => exact page_remove_pool s e va

theorem sys_env_set_priority_pool (lo hi : Int) (s : State) (envid : Nat) (priority : Int) :
    poolFrame s (sys_env_set_priority lo hi s envid priority).2 := by
  unfold sys_env_set_priority
  split_ifs
  · exact poolFrame_refl s
  · cases envid2env s envid true with
    | error r => exact poolFrame_refl s
    | ok e => exact ⟨rfl, rfl⟩

theorem sys_ipc_try_send_pool (s : State) (envid value srcva perm : Nat) :
    poolFrame s (sys_ipc_try_send s envid value srcva perm).2 := by
  cases he : envid2env s envid false with
  | error r =>
    unfold sys_ipc_try_send
    simp only [he]
    exact poolFrame_refl s
  | ok e =>
    by_cases hr : (s.envs e).env_ipc_recving = 0
    · unfold sys_ipc_try_send
      simp only [he, if_pos hr]
      exact poolFrame_refl s
    · have hshape : ∃ s4 : State, poolFrame s s4 ∧
          sys_ipc_try_send s envid value srcva perm =
            if srcva < UTOP ∧ (s4.envs e).env_ipc_dstva < UTOP then
              if srcva &&& 0xFFF ≠ 0 then (-E_INVAL, s4)
              else if perm_rejected perm then (-E_INVAL, s4)
              else
                match page_lookup s4 s4.curenv srcva with
                | none => (-E_INVAL, s4)
                | some ptEntry =>
                  if perm &&& PTE_W ≠ 0 ∧ ptEntry.perm &&& PTE_W = 0 then (-E_INVAL, s4)
                  else
                    let r := page_insert s4 e ptEntry.pp (s4.envs e).env_ipc_dstva perm
                    if r.1 < 0 then (r.1, r.2)
                    else
                      let s5 := r.2.setEnv e { r.2.envs e with env_ipc_perm := perm }
                      (0, s5.setEnv e { s5.envs e with env_status := ENV_RUNNABLE })
            else
              (0, s4.setEnv e { s4.envs e with env_status := ENV_RUNNABLE }) := by
        unfold sys_ipc_try_send
        simp -zeta only [he, if_neg hr]
        refine ⟨_, ?_, rfl⟩
        exact ⟨rfl, rfl⟩
      obtain ⟨s4, h4, heq⟩ := hshape
      rw [heq]
      by_cases hpage : srcva < UTOP ∧ (s4.envs e).env_ipc_dstva < UTOP
      · rw [if_pos hpage]
        by_cases ha : srcva &&& 0xFFF ≠ 0
        · rw [if_pos ha]
          exact h4
        · rw [if_neg ha]
          by_cases hp : perm_rejected perm = true
          · rw [if_pos hp]
            exact h4
          · rw [if_neg hp]
            cases page_lookup s4 s4.curenv srcva with
            | none => exact h4
            | some ent =>
              simp only
              by_cases hw : perm &&& PTE_W ≠ 0 ∧ ent.perm &&& PTE_W = 0
              · rw [if_pos hw]
                exact h4
              · rw [if_neg hw]
                have hi := page_insert_pool s4 e ent.pp (s4.envs e).env_ipc_dstva perm
                generalize page_insert s4 e ent.pp (s4.envs e).env_ipc_dstva perm = r4 at hi ⊢
                by_cases hneg : r4.1 < 0
                · rw [if_pos hneg]
                  exact poolFrame_trans h4 hi
                · rw [if_neg hneg]
                  exact poolFrame_trans h4 (poolFrame_trans hi ⟨rfl, rfl⟩)
      · rw [if_neg hpage]
        exact poolFrame_trans h4 ⟨rfl, rfl⟩

theorem sys_ipc_recv_pool (s : State) (dstva : Nat) :
    poolFrame s (sys_ipc_recv s dstva).2 := by
  unfold sys_ipc_recv
  by_cases hf : (s.envs s.curenv).env_type = EnvType.ENV_TYPE_FLEX
  · rw [if_pos hf]
    cases (s.envs s.curenv).link with
    | none => exact poolFrame_refl s
    | some l => exact ⟨rfl, rfl⟩
  · rw [if_neg hf]
    by_cases hd : dstva < UTOP
    · by_cases ha : dstva &&& 0xFFF ≠ 0
      · simp only [if_pos hd, if_pos ha]
        exact ⟨rfl, rfl⟩
      · simp only [if_pos hd, if_neg ha]
        exact ⟨rfl, rfl⟩
    · simp only [if_neg hd]
      exact ⟨rfl, rfl⟩

theorem sys_env_set_trapframe_pool {K : Collab} (hK : K.keeps_pool) (s : State)
    (envid tf : Nat) : poolFrame s (sys_env_set_trapframe K s envid tf).2 := by
  unfold sys_env_set_trapframe
  have ha := user_mem_assert_pool hK s s.curenv tf 68 PTE_U
  generalize user_mem_assert K s s.curenv tf 68 PTE_U = a at ha ⊢
  by_cases h2 : a.2 = true
  · simp only [h2, if_true]
    cases envid2env a.1 envid true with
    | error r => exact ha
    | ok e => exact poolFrame_trans ha ⟨rfl, rfl⟩
  · simp only [h2]
    exact ha

theorem sys_net_send_pckt_pool {K : Collab} (hK : K.keeps_pool) (s : State) (src len : Nat) :
    poolFrame s (sys_net_send_pckt K s src len).2 := by
  unfold sys_net_send_pckt
  split_ifs
  · exact poolFrame_refl s
  · exact hK.2.2.1 s src len

theorem sys_net_recv_pckt_pool {K : Collab} (hK : K.keeps_pool) (s : State) (dstva : Nat) :
    poolFrame s (sys_net_recv_pckt K s dstva).2 := by
  unfold sys_net_recv_pckt
  have ha : poolFrame s
      (if dstva ≠ 0 then
        user_mem_assert K s s.curenv dstva K.RBUFSIZE (PTE_U ||| PTE_W ||| PTE_P)
      else (s, true)).1 := by
    split_ifs
    · exact user_mem_assert_pool hK _ _ _ _ _
    · exact poolFrame_refl s
  generalize (if dstva ≠ 0 then
        user_mem_assert K s s.curenv dstva K.RBUFSIZE (PTE_U ||| PTE_W ||| PTE_P)
      else (s, true)) = a at ha ⊢
  by_cases h2 : a.2 = true
  · simp only [h2, if_true]
    exact poolFrame_trans ha (hK.2.2.2.1 a.1 dstva)
  · simp only [h2]
    exact ha

theorem flexsc_wait_pool {K : Collab} (hK : K.keeps_pool) (s : State) :
    poolFrame s (flexsc_wait K s).2 := by
  unfold flexsc_wait
  exact poolFrame_trans (hK.2.2.2.2 s (s.envs s.curenv).link) ⟨rfl, rfl⟩

/-- The copying loop of `scthread_spawn` does not touch the FlexSC pool,
whether it completes or returns early. -/
theorem scthread_copy_pool (parent e : Nat) (n : Nat) :
    ∀ (pn : Nat) (s : State) (perm : Nat),
      (∀ s2 perm2, scthread_copy parent e n pn s perm = Except.ok (s2, perm2) →
        poolFrame s s2) ∧
      (∀ r, scthread_copy parent e n pn s perm = Except.error r → poolFrame s r.2) := by
  induction n with
  | zero =>
    intro pn s perm
    constructor
    · intro s2 perm2 h
      simp only [scthread_copy, Except.ok.injEq, Prod.mk.injEq] at h
      obtain ⟨rfl, _⟩ := h
      exact poolFrame_refl s
    · intro r h
      simp [scthread_copy] at h
  | succ n ih =>
    intro pn s perm
    unfold scthread_copy
    cases hl : page_lookup s parent (pn * PGSIZE) with
    | none =>
      constructor
      · intro s2 perm2 h
        simp at h
      · intro r h
        simp only [Except.error.injEq] at h
        rw [← h]
        exact poolFrame_refl s
    | some ent =>
      simp only
      have hins := page_insert_pool s e ent.pp (pn * PGSIZE) (ent.perm &&& 0xFFF)
      by_cases hi : (page_insert s e ent.pp (pn * PGSIZE) (ent.perm &&& 0xFFF)).1 < 0
      · simp only [if_pos hi]
        constructor
        · intro s2 perm2 h
          simp at h
        · intro r h
          simp only [Except.error.injEq] at h
          rw [← h]
          exact hins
      · simp only [if_neg hi]
        obtain ⟨ih1, ih2⟩ := ih (pn + 1)
          (page_insert s e ent.pp (pn * PGSIZE) (ent.perm &&& 0xFFF)).2 (ent.perm &&& 0xFFF)
        constructor
        · intro s2 perm2 h
          exact poolFrame_trans hins (ih1 s2 perm2 h)
        · intro r h
          exact poolFrame_trans hins (ih2 r h)

theorem scthread_setup_pool (K : Collab) (s4 : State) (parent e : Nat) :
    poolFrame s4 (scthread_setup K s4 parent e) := by
  unfold scthread_setup
  exact ⟨rfl, rfl⟩

theorem flexsc_link_pool (s2 : State) (scthread scpage : Nat) :
    poolFrame s2 (flexsc_link s2 scthread scpage) := by
  unfold flexsc_link
  exact ⟨rfl, rfl⟩

/-- Spawning a worker does not touch the FlexSC pool, whether it succeeds or
fails. -/
theorem scthread_spawn_pool (K : Collab) (s : State) (parent : Nat) :
    poolFrame s (scthread_spawn K s parent).2 := by
  unfold scthread_spawn
  cases ha : env_alloc K s (s.envs parent).env_id with
  | error r => exact poolFrame_refl s
  | ok r =>
    obtain ⟨e, s1⟩ := r
    have h1 := env_alloc_pool ha
    simp only
    have hcopy := scthread_copy_pool parent e (PGNUM (K.USTACKTOP - PGSIZE)) 0 s1 0
    generalize scthread_copy parent e (PGNUM (K.USTACKTOP - PGSIZE)) 0 s1 0 = cp at hcopy ⊢
    obtain ⟨hok, herr⟩ := hcopy
    cases cp with
    | error r => exact poolFrame_trans h1 (herr r rfl)
    | ok r =>
      obtain ⟨s2, perm⟩ := r
      have h2 := poolFrame_trans h1 (hok s2 perm rfl)
      simp only
      cases hp : page_alloc s2 with
      | none => exact h2
      | some r =>
        obtain ⟨page, s3⟩ := r
        have h3 := poolFrame_trans h2 (page_alloc_pool hp)
        simp only
        have hi := page_insert_pool s3 e page (K.UXSTACKTOP - PGSIZE) perm
        generalize page_insert s3 e page (K.UXSTACKTOP - PGSIZE) perm = r4 at hi ⊢
        by_cases hneg : r4.1 < 0
        · simp only [if_pos hneg]
          exact poolFrame_trans h3 hi
        · simp only [if_neg hneg]
          exact poolFrame_trans h3 (poolFrame_trans hi (scthread_setup_pool K r4.2 parent e))

/-- The counter of `scpage_alloc` under `flexsc_register`: it never
decreases, and a registration that returns 0 moved it past the page it handed
out. So the page a worker was registered with lies below the counter. -/
theorem flexsc_register_counter {K : Collab} (hK : K.keeps_pool) (s : State) (va : Nat) :
    s.sc_pgnum ≤ (flexsc_register K s va).2.sc_pgnum ∧
    ((flexsc_register K s va).1 = some 0 →
      (flexsc_register K s va).2.sc_pgnum = s.sc_pgnum + 1) := by
  unfold flexsc_register
  have ha := user_mem_assert_pool hK s s.curenv va PGSIZE (PTE_W ||| PTE_U ||| PTE_P)
  generalize user_mem_assert K s s.curenv va PGSIZE (PTE_W ||| PTE_U ||| PTE_P) = a at ha ⊢
  by_cases h2 : a.2 = true
  · simp only [h2, if_true]
    obtain ⟨hr1, hr2⟩ := scpage_alloc_result K a.1
    generalize scpage_alloc K a.1 = sp at hr1 hr2 ⊢
    obtain ⟨spk, sps⟩ := sp
    simp only at hr1 hr2
    rw [ha.2] at hr1 hr2
    by_cases hlt : s.sc_pgnum < K.NSCPAGES
    · rw [if_pos hlt] at hr1 hr2
      subst hr1
      simp only
      cases K.kern_pgdir_lookup s.sc_pgnum with
      | none =>
        simp only
        exact ⟨by omega, fun h => absurd (Option.some.inj h) (by decide)⟩
      | some page =>
        simp only
        have hi := page_insert_pool sps sps.curenv page va (PTE_W ||| PTE_U ||| PTE_P)
        generalize page_insert sps sps.curenv page va (PTE_W ||| PTE_U ||| PTE_P) = r at hi ⊢
        by_cases hneg : r.1 < 0
        · simp only [if_pos hneg]
          have hc : (page_free r.2 page).sc_pgnum = s.sc_pgnum + 1 := by
            rw [(page_free_pool r.2 page).2, hi.2, hr2]
          exact ⟨by omega, fun _ => hc⟩
        · simp only [if_neg hneg]
          have ht := scthread_spawn_pool K r.2 r.2.curenv
          generalize scthread_spawn K r.2 r.2.curenv = t at ht ⊢
          by_cases htn : t.1 < 0
          · simp only [if_pos htn]
            have hc : t.2.sc_pgnum = s.sc_pgnum + 1 := by
              rw [ht.2, hi.2, hr2]
            exact ⟨by omega, fun _ => hc⟩
          · simp only [if_neg htn]
            have hc : (flexsc_link t.2 (ENVX t.1.toNat) s.sc_pgnum).sc_pgnum
                = s.sc_pgnum + 1 := by
              rw [(flexsc_link_pool t.2 (ENVX t.1.toNat) s.sc_pgnum).2, ht.2, hi.2, hr2]
            exact ⟨by omega, fun _ => hc⟩
    · rw [if_neg hlt] at hr1 hr2
      subst hr1
      simp only
      exact ⟨by omega, fun h => by cases h⟩
  · simp only [h2, Bool.false_eq_true, if_false]
    exact ⟨by rw [ha.2], fun h => by cases h⟩

/-- The counter of `scpage_alloc` never decreases under the dispatcher: a
page below the counter stays below it. -/
theorem syscall_counter {K : Collab} (hK : K.keeps_pool) (s : State)
    (syscallno a1 a2 a3 a4 a5 : Nat) :
    s.sc_pgnum ≤ (syscall K s syscallno a1 a2 a3 a4 a5).2.sc_pgnum := by
  unfold syscall
  cases K.sysno syscallno with
  | none => exact le_refl _
  | some c =>
    cases c with
    | SYS_cputs => exact le_of_eq (sys_cputs_pool hK s a1 a2).2.symm
    | SYS_cgetc => exact le_of_eq (hK.2.1 s).2.symm
    | SYS_getenvid => exact le_of_eq (sys_getenvid_pool s).2.symm
    | SYS_env_destroy => exact le_of_eq (sys_env_destroy_pool hK.1 s a1).2.symm
    | SYS_yield => exact le_refl _
    | SYS_exofork => exact le_of_eq (sys_exofork_pool K s).2.symm
    | SYS_env_set_status => exact le_of_eq (sys_env_set_status_pool s a1 a2).2.symm
    | SYS_env_set_pgfault_upcall =>
      exact le_of_eq (sys_env_set_pgfault_upcall_pool s a1 a2).2.symm
    | SYS_page_alloc => exact le_of_eq (sys_page_alloc_pool s a1 a2 a3).2.symm
    | SYS_page_map => exact le_of_eq (sys_page_map_pool s a1 a2 a3 a4 a5).2.symm
    | SYS_page_unmap => exact le_of_eq (sys_page_unmap_pool s a1 a2).2.symm
    | SYS_ipc_try_send => exact le_of_eq (sys_ipc_try_send_pool s a1 a2 a3 a4).2.symm
    | SYS_ipc_recv => exact le_of_eq (sys_ipc_recv_pool s a1).2.symm
    | SYS_env_set_priority =>
      exact le_of_eq (sys_env_set_priority_pool K.ENV_PR_HIGHEST K.ENV_PR_LOWEST
        s a1 (toInt32 a2)).2.symm
    | SYS_env_set_trapframe => exact le_of_eq (sys_env_set_trapframe_pool hK s a1 a2).2.symm
    | SYS_time_msec => exact le_refl _
    | SYS_net_send_pckt => exact le_of_eq (sys_net_send_pckt_pool hK s a1 a2).2.symm
    | SYS_net_recv_pckt => exact le_of_eq (sys_net_recv_pckt_pool hK s a1).2.symm
    | FLEXSC_register => exact (flexsc_register_counter hK s a1).1
    | FLEXSC_wait => exact le_of_eq (flexsc_wait_pool hK s).2.symm

end JOS
